import Mathlib

set_option autoImplicit false

/-!
# Session and API client of the marketing dashboard

A shallow embedding of the session layer of `src/App.jsx` (fetch based client with
refresh-on-401) and `src/src/App.jsx` (axios based client with a clearing interceptor).

* JavaScript values are the inductive type `JsVal`; a number is carried by the text
  that `String(n)` yields for it.
* `localStorage` is an association list, `window.location.href = x` appends `x` to a
  log of navigations, and every call handed to the network is appended to a trace.
* The server is any function from the trace so far and the request to an outcome.
* A rejected promise / thrown exception is `Except.error`; the world is threaded
  through explicitly so that effects made before a throw are kept.
-/

namespace MarketingImport

/-! ## JavaScript values -/

/-- JavaScript values that can flow through the session layer: `undefined`, the values
of JSON, and the members every object inherits from `Object.prototype`, which a property
read `table[key]` on an object literal finds for their names. A number is represented by
its canonical text `String(n)`; `builtin name` is the value of `({})[name]`, a built-in
function, or for `__proto__` the prototype object itself. -/
inductive JsVal where
  | undefined
  | null
  | bool (b : Bool)
  | num (repr : String)
  | str (s : String)
  | arr (items : List JsVal)
  | obj (fields : List (String × JsVal))
  | builtin (name : String)

mutual
/-- Structural equality test on values. -/
def JsVal.beq : JsVal → JsVal → Bool
  | .undefined, .undefined => true
  | .null, .null => true
  | .bool a, .bool b => a == b
  | .num a, .num b => a == b
  | .str a, .str b => a == b
  | .arr a, .arr b => JsVal.beqList a b
  | .obj a, .obj b => JsVal.beqFields a b
  | .builtin a, .builtin b => a == b
  | _, _ => false
/-- Structural equality test on lists of values. -/
def JsVal.beqList : List JsVal → List JsVal → Bool
  | [], [] => true
  | x :: xs, y :: ys => JsVal.beq x y && JsVal.beqList xs ys
  | _, _ => false
/-- Structural equality test on field lists. -/
def JsVal.beqFields : List (String × JsVal) → List (String × JsVal) → Bool
  | [], [] => true
  | (k, x) :: xs, (l, y) :: ys => k == l && JsVal.beq x y && JsVal.beqFields xs ys
  | _, _ => false
end

instance : Inhabited JsVal := ⟨JsVal.undefined⟩

/-- Truthiness of a value, as tested by `if (v)`, `!!v`, `a || b` and `a && b`. -/
def JsVal.truthy : JsVal → Bool
  | .undefined => false
  | .null => false
  | .bool b => b
  | .num r => r != "0" && r != "NaN"
  | .str s => s != ""
  | .arr _ => true
  | .obj _ => true
  | .builtin _ => true

/-- The expression `a || b`. -/
def JsVal.or (a b : JsVal) : JsVal := if a.truthy then a else b

/-- The expression `a && b`. -/
def JsVal.and (a b : JsVal) : JsVal := if a.truthy then b else a

/-- The names of the members of `Object.prototype`: a property read with one of these
names on an object literal finds the inherited member. -/
def objectPrototypeNames : List String :=
  ["constructor", "__defineGetter__", "__defineSetter__", "hasOwnProperty",
   "__lookupGetter__", "__lookupSetter__", "isPrototypeOf", "propertyIsEnumerable",
   "toString", "valueOf", "__proto__", "toLocaleString"]

/-- The text `String(v)` of the member `name` of `Object.prototype`: the prototype object
itself under `__proto__`, else a built-in function, `Object` under `constructor`, printed
as V8 prints it. -/
def builtinText (name : String) : String :=
  if name = "__proto__" then "[object Object]"
  else "function " ++ (if name = "constructor" then "Object" else name)
    ++ "() \x7b [native code] \x7d"

mutual
/-- The text `String(v)`, which is also what a template literal and
`localStorage.setItem` make of `v`. -/
def JsVal.toStr : JsVal → String
  | .undefined => "undefined"
  | .null => "null"
  | .bool b => if b then "true" else "false"
  | .num r => r
  | .str s => s
  | .arr items => JsVal.joinItems items
  | .obj _ => "[object Object]"
  | .builtin name => builtinText name
/-- The text `Array.prototype.join` gives for the items, separated by commas. -/
def JsVal.joinItems : List JsVal → String
  | [] => ""
  | [x] => JsVal.elemStr x
  | x :: y :: rest => JsVal.elemStr x ++ "," ++ JsVal.joinItems (y :: rest)
/-- The text of one array element inside `join`: empty for `undefined` and `null`. -/
def JsVal.elemStr : JsVal → String
  | .undefined => ""
  | .null => ""
  | .bool b => if b then "true" else "false"
  | .num r => r
  | .str s => s
  | .arr items => JsVal.joinItems items
  | .obj _ => "[object Object]"
  | .builtin name => builtinText name
end

/-- What a `throw` or a rejected promise carries: a plain value, or an `Error` object
with its `name` and `message`. -/
inductive Thrown where
  | value (v : JsVal)
  | error (name : String) (message : String)

/-- The `TypeError` raised when a property of `undefined` or `null` is read. -/
def Thrown.typeError (of key : String) : Thrown :=
  .error "TypeError" ("Cannot read properties of " ++ of ++ " (reading " ++ key ++ ")")

/-- The `TypeError` with which `fetch` rejects when the network fails. -/
def Thrown.networkError : Thrown := .error "TypeError" "Failed to fetch"

/-- The `SyntaxError` with which `response.json()` rejects on a body that is not JSON. -/
def Thrown.syntaxError : Thrown := .error "SyntaxError" "Unexpected token in JSON"

/-- Property read `v.key` on a value; it throws on `undefined` and `null`, and the
keys read by the session layer exist only on objects. -/
def JsVal.getProp (v : JsVal) (key : String) : Except Thrown JsVal :=
  match v with
  | .undefined => .error (Thrown.typeError "undefined" key)
  | .null => .error (Thrown.typeError "null" key)
  | .obj fields => .ok ((fields.lookup key).getD .undefined)
  | _ => .ok .undefined

/-- Property read `e.message` on a caught value. -/
def Thrown.getMessage : Thrown → Except Thrown JsVal
  | .value v => v.getProp "message"
  | .error _ message => .ok (.str message)

/-! ## JSON.stringify -/

namespace JSON

/-- The two hexadecimal digits of a code below 256. -/
def hex2 (n : Nat) : String :=
  String.mk [Nat.digitChar (n / 16 % 16), Nat.digitChar (n % 16)]

/-- The escape JSON text uses for one character of a string. -/
def escapeChar (c : Char) : String :=
  let bs := String.singleton (Char.ofNat 92)
  if c.toNat = 34 then bs ++ String.singleton (Char.ofNat 34)
  else if c.toNat = 92 then bs ++ bs
  else if c.toNat = 8 then bs ++ "b"
  else if c.toNat = 9 then bs ++ "t"
  else if c.toNat = 10 then bs ++ "n"
  else if c.toNat = 12 then bs ++ "f"
  else if c.toNat = 13 then bs ++ "r"
  else if c.toNat < 32 then bs ++ "u00" ++ hex2 c.toNat
  else String.singleton c

/-- The quoted JSON text of a string. -/
def quote (s : String) : String :=
  let q := String.singleton (Char.ofNat 34)
  q ++ String.join (s.toList.map escapeChar) ++ q

mutual
/-- The result of `JSON.stringify(v)`; `none` stands for `undefined`, which is also the
result for a function. -/
def stringify : JsVal → Option String
  | .undefined => none
  | .null => some "null"
  | .bool b => some (if b then "true" else "false")
  | .num r => some (if r = "NaN" ∨ r = "Infinity" ∨ r = "-Infinity" then "null" else r)
  | .str s => some (quote s)
  | .arr items => some ("[" ++ stringifyItems items ++ "]")
  | .obj fields => some ("\x7b" ++ stringifyFields fields ++ "\x7d")
  | .builtin name => if name = "__proto__" then some "\x7b\x7d" else none
/-- The JSON text of the items of an array; `undefined` is written `null`. -/
def stringifyItems : List JsVal → String
  | [] => ""
  | [x] => (stringify x).getD "null"
  | x :: y :: rest => (stringify x).getD "null" ++ "," ++ stringifyItems (y :: rest)
/-- The JSON text of the fields of an object; a field holding `undefined` is left out. -/
def stringifyFields : List (String × JsVal) → String
  | [] => ""
  | (k, x) :: rest =>
    match stringify x with
    | none => stringifyFields rest
    | some t =>
      let tail := stringifyFields rest
      if tail = "" then quote k ++ ":" ++ t else quote k ++ ":" ++ t ++ "," ++ tail
end

end JSON

/-! ## Browser storage, network and world -/

/-- A JavaScript object with text values (a header set), or a storage area: an
association list in insertion order with unique keys. -/
abbrev Dict := List (String × String)

/-- The value under a key, if any. -/
def Dict.get (d : Dict) (key : String) : Option String := d.lookup key

/-- Assignment `d[key] = value`: replaces in place, or appends a new key. -/
def Dict.set : Dict → String → String → Dict
  | [], key, value => [(key, value)]
  | (k, v) :: rest, key, value =>
    if k = key then (k, value) :: rest else (k, v) :: Dict.set rest key value

/-- Removal `delete d[key]`. -/
def Dict.remove (d : Dict) (key : String) : Dict := d.filter (fun p => p.1 != key)

/-- Object spread of `extra` over `base`: every entry of `extra` is assigned in order. -/
def Dict.spread (base extra : Dict) : Dict :=
  extra.foldl (fun acc p => Dict.set acc p.1 p.2) base

/-- The options object of `fetch` and of `api.request`; `none` is an absent key. -/
structure RequestInit where
  method : Option String := none
  headers : Option Dict := none
  body : Option String := none
  credentials : Option String := none

/-- Object spread `{...base, ...over}` on options objects: keys of `over` win. -/
def RequestInit.spread (base over : RequestInit) : RequestInit where
  method := over.method <|> base.method
  headers := over.headers <|> base.headers
  body := over.body <|> base.body
  credentials := over.credentials <|> base.credentials

/-- One call handed to the network. -/
structure Request where
  url : String
  init : RequestInit

/-- The body of a response: text that parses as JSON to a value (for a mock response,
the value its `json()` hands out), or text that does not parse. -/
inductive Body where
  | json (v : JsVal)
  | text (raw : String)

/-- A response as seen by the client. -/
structure Response where
  status : Nat
  ok : Bool
  body : Body

/-- The result of `await response.json()`. -/
def Response.json (r : Response) : Except Thrown JsVal :=
  match r.body with
  | .json v => .ok v
  | .text _ => .error Thrown.syntaxError

/-- How a network call ends: the promise rejects, or resolves to a response. -/
inductive FetchOutcome where
  | rejected
  | resolved (r : Response)

/-- The server and network: any function of the calls made so far and the call at hand. -/
abbrev Server := List Request → Request → FetchOutcome

/-- The browser state the session layer touches. -/
structure World where
  localStorage : Dict
  navigations : List String
  trace : List Request

/-- The call `fetch(url, init)`: records the call and asks the server. -/
def fetch (net : Server) (url : String) (init : RequestInit) (w : World) :
    FetchOutcome × World :=
  let req : Request := { url := url, init := init }
  (net w.trace req, { w with trace := w.trace ++ [req] })

/-- Build-time environment variables. -/
structure Env where
  NODE_ENV : Option String
  VITE_API_BASE_URL : Option String
  VITE_API_URL : Option String
  VITE_ENVIRONMENT : Option String := none

/-- The expression `a || b` on an optional text and a text. -/
def orElseStr (a : Option String) (b : String) : String :=
  match a with
  | some s => if s = "" then b else s
  | none => b

/-! ## The auth context, shared by both variants -/

/-- What `login` and `register` resolve to: `{success: true, user}` or
`{success: false, error}`. -/
inductive AuthResult where
  | success (user : JsVal)
  | failure (error : JsVal)

/-- The browser world together with the React state of the provider component. -/
structure AuthState where
  world : World
  user : JsVal
  loading : Bool

/-- The context value `isAuthenticated`, which is `!!user`. -/
def AuthState.isAuthenticated (s : AuthState) : Bool := s.user.truthy

/-- One call on the auth context. -/
inductive AuthCall where
  | login (email password : String)
  | register (userData : JsVal)
  | logout

/-- A credential call on the auth context: `login(email, password)` or
`register(userData)`. -/
inductive AuthAttempt where
  | login (email password : String)
  | register (userData : JsVal)

/-! ## src/App.jsx: the fetch based client -/

namespace RootApp

/-- The constant `API_BASE_URL` of src/App.jsx. -/
def API_BASE_URL (env : Env) : String :=
  orElseStr env.VITE_API_BASE_URL
    (if env.NODE_ENV = some "production" then "/api/v1" else "http://localhost:5000/api/v1")

/-- The table `mockApiResponses`. -/
def mockApiResponses : List (String × JsVal) :=
  [ ("/auth/login", .obj
      [ ("access_token", .str "mock_access_token_12345"),
        ("refresh_token", .str "mock_refresh_token_12345"),
        ("user", .obj
          [ ("id", .str "mock_user_id"),
            ("email", .str "admin@example.com"),
            ("first_name", .str "Admin"),
            ("last_name", .str "User"),
            ("role", .str "admin") ]) ]),
    ("/users/mock_user_id/stats", .obj
      [ ("total_projects", .num "1"),
        ("active_credentials", .num "1"),
        ("data_sources", .num "0"),
        ("webhooks", .num "0") ]),
    ("/projects", .obj
      [ ("projects", .arr
          [ .obj
              [ ("id", .str "mock_project_id"),
                ("name", .str "Test Marketing Project"),
                ("description", .str "Demo project for testing"),
                ("created_at", .str "2025-07-01T00:00:00Z"),
                ("active_credentials_count", .num "1"),
                ("active_data_sources_count", .num "0") ] ]),
        ("total", .num "1"),
        ("page", .num "1"),
        ("per_page", .num "10") ]) ]

/-- The property read `mockApiResponses[endpoint]`: the entry under an own key, else the
member of `Object.prototype` of that name, else `undefined`. -/
def mockResponseOf (endpoint : String) : JsVal :=
  match mockApiResponses.lookup endpoint with
  | some entry => entry
  | none => if endpoint ∈ objectPrototypeNames then .builtin endpoint else .undefined

/-- The function `mockApiRequest`; the simulated delay has no effect on the result. The
body of the response is the value its `json()` resolves to. -/
def mockApiRequest (endpoint : String) (_options : RequestInit) : Response :=
  let mockResponse := mockResponseOf endpoint
  if mockResponse.truthy then { status := 200, ok := true, body := .json mockResponse }
  else
    { status := 200, ok := true,
      body := .json (.obj [("message", .str "Mock API response"), ("data", .obj [])]) }

/-- The spread `...(token && { Authorization: ... })` inside the header literal. -/
def authHeader (token : Option String) : Dict :=
  match token with
  | some t => if t = "" then [] else [("Authorization", "Bearer " ++ t)]
  | none => []

/-- The object `config` built by `api.request`: the header literal merges the defaults
with `options.headers`, and `...options` is then spread over the whole object. -/
def buildConfig (token : Option String) (options : RequestInit) : RequestInit :=
  RequestInit.spread
    { headers := some (Dict.spread
        (Dict.spread [("Content-Type", "application/json")] (authHeader token))
        (options.headers.getD [])) }
    options

/-- The init object of the call to `/auth/refresh`. -/
def refreshInit (refreshToken : String) : RequestInit :=
  { method := some "POST",
    headers := some [("Content-Type", "application/json"),
                     ("Authorization", "Bearer " ++ refreshToken)] }

/-- The statement `config.headers.Authorization = value`. -/
def setAuthorization (config : RequestInit) (value : String) : Except Thrown RequestInit :=
  match config.headers with
  | some h => .ok { config with headers := some (Dict.set h "Authorization" value) }
  | none => .error (Thrown.typeError "undefined" "Authorization")

/-- The result of the retried `fetch`, returned without `await` from inside the `try`:
its rejection passes to the caller of `request`. -/
def settle (o : FetchOutcome × World) : Except Thrown (Option Response) × World :=
  match o.1 with
  | .rejected => (.error Thrown.networkError, o.2)
  | .resolved r => (.ok (some r), o.2)

/-- The `try` block of `api.request` for a truthy refresh token. `some` is the
`return` from inside the block; `none` means the block was left without returning
(response not ok, or an exception caught), with the world as it then stands. -/
def tryRefresh (env : Env) (net : Server) (endpoint : String) (config : RequestInit)
    (refreshToken : String) (w : World) :
    Option (Except Thrown (Option Response)) × World :=
  match fetch net (API_BASE_URL env ++ "/auth/refresh") (refreshInit refreshToken) w with
  | (.rejected, w1) => (none, w1)
  | (.resolved refreshResponse, w1) =>
    if refreshResponse.ok then
      match refreshResponse.json with
      | .error _ => (none, w1)
      | .ok refreshData =>
        match refreshData.getProp "access_token" with
        | .error _ => (none, w1)
        | .ok accessToken =>
          let w2 := { w1 with
            localStorage := Dict.set w1.localStorage "access_token" accessToken.toStr }
          match setAuthorization config ("Bearer " ++ accessToken.toStr) with
          | .error _ => (none, w2)
          | .ok config2 =>
            let r := settle (fetch net (API_BASE_URL env ++ endpoint) config2 w2)
            (some r.1, r.2)
    else (none, w1)

/-- The tail of the 401 branch: clear both tokens, go to the login page, return
`undefined`. -/
def clearAndRedirect (w : World) : Except Thrown (Option Response) × World :=
  (.ok none,
   { w with
     localStorage := Dict.remove (Dict.remove w.localStorage "access_token") "refresh_token",
     navigations := w.navigations ++ ["/login"] })

/-- The method `api.request(endpoint, options)`. The result is the response, or `none`
for `undefined`. -/
def api.request (env : Env) (net : Server) (endpoint : String) (options : RequestInit)
    (w : World) : Except Thrown (Option Response) × World :=
  if env.NODE_ENV = some "production" then
    (.ok (some (mockApiRequest endpoint options)), w)
  else
    let token := Dict.get w.localStorage "access_token"
    let config := buildConfig token options
    match fetch net (API_BASE_URL env ++ endpoint) config w with
    | (.rejected, w1) => (.error Thrown.networkError, w1)
    | (.resolved response, w1) =>
      if response.status = 401 then
        match Dict.get w1.localStorage "refresh_token" with
        | some refreshToken =>
          if refreshToken = "" then clearAndRedirect w1
          else
            match tryRefresh env net endpoint config refreshToken w1 with
            | (some result, w2) => (result, w2)
            | (none, w2) => clearAndRedirect w2
        | none => clearAndRedirect w1
      else (.ok (some response), w1)

/-- The expression `response?.json()` awaited by the helpers. -/
def jsonOf (r : Except Thrown (Option Response) × World) : Except Thrown JsVal × World :=
  match r.1 with
  | .error e => (.error e, r.2)
  | .ok none => (.ok .undefined, r.2)
  | .ok (some response) => (response.json, r.2)

/-- The helper `api.get(endpoint)`. -/
def api.get (env : Env) (net : Server) (endpoint : String) (w : World) :
    Except Thrown JsVal × World :=
  jsonOf (api.request env net endpoint {} w)

/-- The helper `api.post(endpoint, data)`. -/
def api.post (env : Env) (net : Server) (endpoint : String) (data : JsVal) (w : World) :
    Except Thrown JsVal × World :=
  jsonOf (api.request env net endpoint
    { method := some "POST", body := JSON.stringify data } w)

/-- The helper `api.put(endpoint, data)`. -/
def api.put (env : Env) (net : Server) (endpoint : String) (data : JsVal) (w : World) :
    Except Thrown JsVal × World :=
  jsonOf (api.request env net endpoint
    { method := some "PUT", body := JSON.stringify data } w)

/-- The helper `api.delete(endpoint)`. -/
def api.delete (env : Env) (net : Server) (endpoint : String) (w : World) :
    Except Thrown JsVal × World :=
  jsonOf (api.request env net endpoint { method := some "DELETE" } w)

/-- The four helpers of `api`, with the data they are given. -/
inductive Helper where
  | get
  | post (data : JsVal)
  | put (data : JsVal)
  | delete

/-- A call of one of the helpers `api.get`, `api.post`, `api.put`, `api.delete`. -/
def api.call (env : Env) (net : Server) (h : Helper) (endpoint : String) (w : World) :
    Except Thrown JsVal × World :=
  match h with
  | .get => api.get env net endpoint w
  | .post data => api.post env net endpoint data w
  | .put data => api.put env net endpoint data w
  | .delete => api.delete env net endpoint w

/-- The options object a helper hands to `request`. -/
def Helper.options : Helper → RequestInit
  | .get => {}
  | .post data => { method := some "POST", body := JSON.stringify data }
  | .put data => { method := some "PUT", body := JSON.stringify data }
  | .delete => { method := some "DELETE" }

/-- The first call `request` makes for an endpoint and options, given the stored
access token. -/
def originalRequest (env : Env) (endpoint : String) (options : RequestInit) (w : World) :
    Request :=
  { url := API_BASE_URL env ++ endpoint,
    init := buildConfig (Dict.get w.localStorage "access_token") options }

/-- The call `request` makes to `/auth/refresh` for a refresh token. -/
def refreshRequest (env : Env) (refreshToken : String) : Request :=
  { url := API_BASE_URL env ++ "/auth/refresh", init := refreshInit refreshToken }

/-- The original call with its `Authorization` header set to the bearer of a new
access token. -/
def retryRequest (env : Env) (endpoint : String) (options : RequestInit) (w : World)
    (accessToken : String) : Request :=
  let orig := originalRequest env endpoint options w
  { orig with
    init := { orig.init with
      headers := orig.init.headers.map
        (fun h => Dict.set h "Authorization" ("Bearer " ++ accessToken)) } }

/-! ### AuthProvider of src/App.jsx -/

/-- The statements of `login`/`register` after the `fetch` has been awaited, inside
the `try` block; `fallback` is the message used when the body has no truthy `error`. -/
def handleAuthResponse (fallback : String) (o : FetchOutcome × World) (s : AuthState) :
    Except Thrown AuthResult × AuthState :=
  match o.1 with
  | .rejected => (.error Thrown.networkError, { s with world := o.2 })
  | .resolved response =>
    match response.json with
    | .error e => (.error e, { s with world := o.2 })
    | .ok data =>
      if response.ok then
        match data.getProp "access_token" with
        | .error e => (.error e, { s with world := o.2 })
        | .ok accessToken =>
          let ls1 := Dict.set o.2.localStorage "access_token" accessToken.toStr
          match data.getProp "refresh_token" with
          | .error e => (.error e, { s with world := { o.2 with localStorage := ls1 } })
          | .ok refreshToken =>
            let ls2 := Dict.set ls1 "refresh_token" refreshToken.toStr
            match data.getProp "user" with
            | .error e => (.error e, { s with world := { o.2 with localStorage := ls2 } })
            | .ok user =>
              (.ok (.success user),
               { s with world := { o.2 with localStorage := ls2 }, user := user })
      else
        match data.getProp "error" with
        | .error e => (.error e, { s with world := o.2 })
        | .ok err => (.ok (.failure (err.or (.str fallback))), { s with world := o.2 })

/-- The `catch` block of `login`/`register`: any exception becomes the failure shape. -/
def catchNetworkError (r : Except Thrown AuthResult × AuthState) :
    Except Thrown AuthResult × AuthState :=
  match r.1 with
  | .error _ => (.ok (.failure (.str "Network error")), r.2)
  | .ok v => (.ok v, r.2)

/-- The init object of the credential calls: a JSON `POST`. -/
def postInit (body : Option String) : RequestInit :=
  { method := some "POST",
    headers := some [("Content-Type", "application/json")],
    body := body }

/-- The function `login(email, password)` of `AuthProvider`. -/
def login (env : Env) (net : Server) (email password : String) (s : AuthState) :
    Except Thrown AuthResult × AuthState :=
  catchNetworkError
    (handleAuthResponse "Login failed"
      (fetch net (API_BASE_URL env ++ "/auth/login")
        (postInit (JSON.stringify (.obj [("email", .str email), ("password", .str password)])))
        s.world) s)

/-- The function `register(userData)` of `AuthProvider`. -/
def register (env : Env) (net : Server) (userData : JsVal) (s : AuthState) :
    Except Thrown AuthResult × AuthState :=
  catchNetworkError
    (handleAuthResponse "Registration failed"
      (fetch net (API_BASE_URL env ++ "/auth/register")
        (postInit (JSON.stringify userData)) s.world) s)

/-- The function `logout()` of `AuthProvider`. -/
def logout (s : AuthState) : AuthState :=
  { s with
    world := { s.world with
      localStorage :=
        Dict.remove (Dict.remove s.world.localStorage "access_token") "refresh_token" },
    user := .null }

/-- The state after one call on the auth context of src/App.jsx. -/
def step (env : Env) (net : Server) (s : AuthState) : AuthCall → AuthState
  | .login email password => (login env net email password s).2
  | .register userData => (register env net userData s).2
  | .logout => logout s

/-- The state after a sequence of calls on the auth context of src/App.jsx. -/
def run (env : Env) (net : Server) (s : AuthState) (calls : List AuthCall) : AuthState :=
  calls.foldl (step env net) s

/-- A credential call on the auth context of src/App.jsx. -/
def attempt (env : Env) (net : Server) (a : AuthAttempt) (s : AuthState) :
    Except Thrown AuthResult × AuthState :=
  match a with
  | .login email password => login env net email password s
  | .register userData => register env net userData s

/-- The network call a credential call of src/App.jsx makes. -/
def attemptRequest (env : Env) : AuthAttempt → Request
  | .login email password =>
    { url := API_BASE_URL env ++ "/auth/login",
      init := postInit
        (JSON.stringify (.obj [("email", .str email), ("password", .str password)])) }
  | .register userData =>
    { url := API_BASE_URL env ++ "/auth/register",
      init := postInit (JSON.stringify userData) }

end RootApp

/-! ## src/src/App.jsx: the axios based client -/

namespace SrcApp

/-- The constant `API_BASE_URL` of src/src/App.jsx. -/
def API_BASE_URL (env : Env) : String :=
  orElseStr env.VITE_API_URL "http://localhost:8000/api/v1"

/-- Drop leading slashes. -/
def dropSlashes : List Char → List Char
  | [] => []
  | c :: cs => if c.toNat = 47 then dropSlashes cs else c :: cs

/-- How axios joins `baseURL` and a relative endpoint: at most two trailing slashes of
the base and all leading slashes of the endpoint give way to a single slash. -/
def combineURLs (baseURL relativeURL : String) : String :=
  if relativeURL = "" then baseURL
  else
    let rev := baseURL.toList.reverse
    let base := match rev with
      | a :: b :: rest =>
        if a.toNat = 47 then (if b.toNat = 47 then rest else b :: rest) else rev
      | [a] => if a.toNat = 47 then [] else rev
      | [] => rev
    String.mk base.reverse ++ "/" ++ String.mk (dropSlashes relativeURL.toList)

/-- The request interceptor: adds the bearer header when `token` is stored and truthy. -/
def requestInterceptor (w : World) (config : RequestInit) : RequestInit :=
  match Dict.get w.localStorage "token" with
  | some token =>
    if token = "" then config
    else { config with
      headers := some (Dict.set (config.headers.getD []) "Authorization" ("Bearer " ++ token)) }
  | none => config

/-- The field `response.data` axios fills in: the parsed body, or the raw text when
the body is not JSON. -/
def responseData (r : Response) : JsVal :=
  match r.body with
  | .json v => v
  | .text raw => .str raw

/-- The error handler of the response interceptor, for an error that carries a
response: a 401 clears the stored session and goes to the login page; the promise is
rejected with `error.response.data || error`. -/
def onResponseError (r : Response) (w : World) : Except Thrown JsVal × World :=
  let w1 : World :=
    if r.status = 401 then
      { w with
        localStorage := Dict.remove (Dict.remove w.localStorage "token") "user",
        navigations := w.navigations ++ ["/login"] }
    else w
  let data := responseData r
  (.error (if data.truthy then .value data
           else .error "AxiosError" ("Request failed with status code " ++ toString r.status)),
   w1)

/-- The call `api.post(endpoint, data)` hands to the network, after the request
interceptor has run; `data` is an object, as at both call sites, which axios writes as
JSON text. -/
def postRequest (env : Env) (w : World) (endpoint : String) (data : JsVal) : Request :=
  { url := combineURLs (API_BASE_URL env) endpoint,
    init := requestInterceptor w
      { method := some "POST",
        headers := some [("Content-Type", "application/json")],
        body := JSON.stringify data } }

/-- The method `api.post(endpoint, data)` of the axios instance with both interceptors:
a status from 200 to 299 resolves to `response.data`, every other outcome rejects. -/
def api.post (env : Env) (net : Server) (endpoint : String) (data : JsVal) (w : World) :
    Except Thrown JsVal × World :=
  let req := postRequest env w endpoint data
  match fetch net req.url req.init w with
  | (.rejected, w1) => (.error (.error "AxiosError" "Network Error"), w1)
  | (.resolved r, w1) =>
    if 200 ≤ r.status ∧ r.status < 300 then (.ok (responseData r), w1)
    else onResponseError r w1

/-- The statements of `login`/`register` after `api.post` has been awaited, inside the
`try` block. -/
def handleApiResult (fallback : String) (r : Except Thrown JsVal × World) (s : AuthState) :
    Except Thrown AuthResult × AuthState :=
  match r.1 with
  | .error e => (.error e, { s with world := r.2 })
  | .ok response =>
    match (if response.truthy then response.getProp "access_token" else .ok response) with
    | .error e => (.error e, { s with world := r.2 })
    | .ok cond =>
      if cond.truthy then
        match response.getProp "access_token" with
        | .error e => (.error e, { s with world := r.2 })
        | .ok accessToken =>
          let ls1 := Dict.set r.2.localStorage "token" accessToken.toStr
          match response.getProp "user" with
          | .error e => (.error e, { s with world := { r.2 with localStorage := ls1 } })
          | .ok user =>
            let ls2 := Dict.set ls1 "user" ((JSON.stringify user).getD "undefined")
            (.ok (.success user),
             { s with world := { r.2 with localStorage := ls2 }, user := user })
      else
        match response.getProp "error" with
        | .error e => (.error e, { s with world := r.2 })
        | .ok err => (.ok (.failure (err.or (.str fallback))), { s with world := r.2 })

/-- The `catch` block of `login`/`register`: `error.message || 'Network error'`. -/
def catchMessage (r : Except Thrown AuthResult × AuthState) :
    Except Thrown AuthResult × AuthState :=
  match r.1 with
  | .error e =>
    match e.getMessage with
    | .error e2 => (.error e2, r.2)
    | .ok message => (.ok (.failure (message.or (.str "Network error"))), r.2)
  | .ok v => (.ok v, r.2)

/-- The function `login(email, password)` of `App`. -/
def login (env : Env) (net : Server) (email password : String) (s : AuthState) :
    Except Thrown AuthResult × AuthState :=
  catchMessage
    (handleApiResult "Login failed"
      (api.post env net "/auth/login"
        (.obj [("email", .str email), ("password", .str password)]) s.world) s)

/-- The function `register(userData)` of `App`. -/
def register (env : Env) (net : Server) (userData : JsVal) (s : AuthState) :
    Except Thrown AuthResult × AuthState :=
  catchMessage
    (handleApiResult "Registration failed" (api.post env net "/auth/register" userData s.world) s)

/-- The function `logout()` of `App`. -/
def logout (s : AuthState) : AuthState :=
  { s with
    world := { s.world with
      localStorage := Dict.remove (Dict.remove s.world.localStorage "token") "user" },
    user := .null }

/-- The state after one call on the auth context of src/src/App.jsx. -/
def step (env : Env) (net : Server) (s : AuthState) : AuthCall → AuthState
  | .login email password => (login env net email password s).2
  | .register userData => (register env net userData s).2
  | .logout => logout s

/-- The state after a sequence of calls on the auth context of src/src/App.jsx. -/
def run (env : Env) (net : Server) (s : AuthState) (calls : List AuthCall) : AuthState :=
  calls.foldl (step env net) s

/-- A credential call on the auth context of src/src/App.jsx. -/
def attempt (env : Env) (net : Server) (a : AuthAttempt) (s : AuthState) :
    Except Thrown AuthResult × AuthState :=
  match a with
  | .login email password => login env net email password s
  | .register userData => register env net userData s

/-- The network call a credential call of src/src/App.jsx makes. -/
def attemptRequest (env : Env) (w : World) : AuthAttempt → Request
  | .login email password =>
    postRequest env w "/auth/login"
      (.obj [("email", .str email), ("password", .str password)])
  | .register userData => postRequest env w "/auth/register" userData

end SrcApp

/-! ## src/App.jsx: the route guards -/

namespace RootApp

/-- What a route element is rendered in: the value of the auth context and the location
the router is at. -/
structure RouteContext where
  auth : AuthState
  location : String

/-- What a guard returns: its children, or the element `<Navigate to=... replace />`. -/
inductive Rendered (α : Type) where
  | children (c : α)
  | navigate (target : String) (replace : Bool)

/-- The component `ProtectedRoute`; it reads `isAuthenticated` from `useAuth()`. -/
def ProtectedRoute {α : Type} (ctx : RouteContext) (children : α) : Rendered α :=
  if !ctx.auth.isAuthenticated then .navigate "/login" true
  else .children children

/-- The component `PublicRoute`; it reads `isAuthenticated` from `useAuth()`. -/
def PublicRoute {α : Type} (ctx : RouteContext) (children : α) : Rendered α :=
  if ctx.auth.isAuthenticated then .navigate "/dashboard" true
  else .children children

end RootApp

/-! ## RegisterPage.jsx -/

/-- The property `length` of a string: its number of UTF-16 code units, two for a
character outside the basic plane. -/
def jsLength (s : String) : Nat :=
  (s.toList.map (fun c => if c.toNat < 65536 then 1 else 2)).sum

namespace RegisterPage

/-- The object `validatePassword` returns. -/
structure PasswordValidation where
  minLength : Bool
  hasUpper : Bool
  hasLower : Bool
  hasNumber : Bool
  isValid : Bool

/-- The function `validatePassword`; the three tests are the regular expressions
`[A-Z]`, `[a-z]` and `\d`, which look for one character in the range. -/
def validatePassword (password : String) : PasswordValidation :=
  let minLength := decide (jsLength password ≥ 8)
  let hasUpper := password.toList.any (fun c => decide ('A' ≤ c) && decide (c ≤ 'Z'))
  let hasLower := password.toList.any (fun c => decide ('a' ≤ c) && decide (c ≤ 'z'))
  let hasNumber := password.toList.any (fun c => decide ('0' ≤ c) && decide (c ≤ '9'))
  { minLength := minLength,
    hasUpper := hasUpper,
    hasLower := hasLower,
    hasNumber := hasNumber,
    isValid := minLength && hasUpper && hasLower && hasNumber }

/-- The state `formData` of the page: five texts, kept under these five keys by
`handleChange`. -/
structure FormData where
  email : String
  password : String
  confirmPassword : String
  first_name : String
  last_name : String

/-- The React state of the page, and the targets handed to `navigate`. -/
structure PageState where
  formData : FormData
  loading : Bool
  error : JsVal
  navigated : List String

/-- The object `userData` of `const { confirmPassword, ...userData } = formData`. -/
def userDataOf (f : FormData) : JsVal :=
  .obj [("email", .str f.email), ("password", .str f.password),
        ("first_name", .str f.first_name), ("last_name", .str f.last_name)]

/-- The handler `handleSubmit`, for the `register` function of the auth context, which
acts on a state of type `σ`. The result carries the page state after the handler and the
state `register` left. -/
def handleSubmit {σ : Type} (register : JsVal → σ → Except Thrown AuthResult × σ)
    (p : PageState) (s : σ) : Except Thrown Unit × PageState × σ :=
  let p1 := { p with loading := true, error := .str "" }
  if p.formData.password ≠ p.formData.confirmPassword then
    (.ok (), { p1 with error := .str "Passwords do not match", loading := false }, s)
  else if !(validatePassword p.formData.password).isValid then
    (.ok (), { p1 with error := .str "Password does not meet requirements",
                       loading := false }, s)
  else
    match register (userDataOf p.formData) s with
    | (.error e, s1) => (.error e, p1, s1)
    | (.ok (.success _), s1) =>
      (.ok (), { p1 with navigated := p1.navigated ++ ["/dashboard"], loading := false }, s1)
    | (.ok (.failure err), s1) => (.ok (), { p1 with error := err, loading := false }, s1)

/-- A stand-in for `register` that records its arguments and resolves to a fixed
result. -/
def recording (result : AuthResult) (userData : JsVal) (calls : List JsVal) :
    Except Thrown AuthResult × List JsVal :=
  (.ok result, calls ++ [userData])

end RegisterPage

/-! ## The initial mount of the two providers -/

/-- The expression `v?.key`: `undefined` when `v` is `undefined` or `null`, the property
otherwise. -/
def JsVal.optProp (v : JsVal) (key : String) : JsVal :=
  match v with
  | .obj fields => (fields.lookup key).getD .undefined
  | _ => .undefined

/-- What a provider renders: the loading indicator alone, or the context provider with
the routes below it, which see the context value `isAuthenticated`. -/
inductive View where
  | loadingSpinner
  | routes (isAuthenticated : Bool)

namespace RootApp

/-- The state `AuthProvider` is created with: `user` is `null` and `loading` is true. -/
def initialState (w : World) : AuthState :=
  { world := w, user := .null, loading := true }

/-- What `AuthProvider` returns for a state. -/
def render (s : AuthState) : View :=
  if s.loading then .loadingSpinner else .routes s.isAuthenticated

/-- The body of the mount effect up to the point where it returns: with a truthy
`access_token` the verification `api.get('/auth/profile')` is started and left pending
(second component true); otherwise `setLoading(false)` runs at once. -/
def mountEffect (s : AuthState) : AuthState × Bool :=
  match Dict.get s.world.localStorage "access_token" with
  | some token => if token = "" then ({ s with loading := false }, false) else (s, true)
  | none => ({ s with loading := false }, false)

/-- The two `removeItem` calls of the mount effect. -/
def dropTokens (s : AuthState) : AuthState :=
  { s with world := { s.world with
      localStorage :=
        Dict.remove (Dict.remove s.world.localStorage "access_token") "refresh_token" } }

/-- The handlers `then`, `catch` and `finally` of the mount effect, run when the pending
`api.get('/auth/profile')` settles. -/
def verificationSettled (env : Env) (net : Server) (s : AuthState) : AuthState :=
  let r := api.get env net "/auth/profile" s.world
  let s1 : AuthState := { s with world := r.2 }
  let s2 : AuthState :=
    match r.1 with
    | .ok data =>
      if (data.optProp "user").truthy then { s1 with user := data.optProp "user" }
      else dropTokens s1
    | .error _ => dropTokens s1
  { s2 with loading := false }

/-- The provider after its mount effect and, if one was started, the verification have
run to the end, on the storage the browser holds. -/
def mount (env : Env) (net : Server) (w : World) : AuthState :=
  let started := mountEffect (initialState w)
  if started.2 then verificationSettled env net started.1 else started.1

end RootApp

namespace SrcApp

/-- The call `api.get(endpoint)` hands to the network, after the request interceptor has
run; axios sends no `Content-Type` with a call that has no data. -/
def getRequest (env : Env) (w : World) (endpoint : String) : Request :=
  { url := combineURLs (API_BASE_URL env) endpoint,
    init := requestInterceptor w { method := some "GET", headers := some [] } }

/-- The method `api.get(endpoint)` of the axios instance with both interceptors. -/
def api.get (env : Env) (net : Server) (endpoint : String) (w : World) :
    Except Thrown JsVal × World :=
  let req := getRequest env w endpoint
  match fetch net req.url req.init w with
  | (.rejected, w1) => (.error (.error "AxiosError" "Network Error"), w1)
  | (.resolved r, w1) =>
    if 200 ≤ r.status ∧ r.status < 300 then (.ok (responseData r), w1)
    else onResponseError r w1

/-- The state `App` is created with: `user` is `null` and `loading` is true. -/
def initialState (w : World) : AuthState :=
  { world := w, user := .null, loading := true }

/-- What `App` returns for a state. -/
def render (s : AuthState) : View :=
  if s.loading then .loadingSpinner else .routes s.isAuthenticated

/-- The body of the mount effect up to the point where it returns, for the function
`JSON.parse` given as `parse`: with `token` and `user` both stored and truthy the cached
profile is parsed into `user` (an exception of `JSON.parse` leaves the effect) and the
verification `api.get('/auth/profile')` is started and left pending (second component
true); otherwise `setLoading(false)` runs at once. -/
def mountEffect (parse : String → Except Thrown JsVal) (s : AuthState) :
    Except Thrown (AuthState × Bool) :=
  let token := (Dict.get s.world.localStorage "token").getD ""
  let storedUser := (Dict.get s.world.localStorage "user").getD ""
  if token ≠ "" ∧ storedUser ≠ "" then
    match parse storedUser with
    | .error e => .error e
    | .ok u => .ok ({ s with user := u }, true)
  else .ok ({ s with loading := false }, false)

/-- The handler `then` of the mount effect. -/
def onProfile (data : JsVal) (s : AuthState) : Except Thrown AuthState :=
  match data.getProp "user" with
  | .error e => .error e
  | .ok u =>
    .ok { s with
      user := u,
      world := { s.world with
        localStorage := Dict.set s.world.localStorage "user"
          ((JSON.stringify u).getD "undefined") } }

/-- The handler `catch` of the mount effect. -/
def onInvalid (s : AuthState) : AuthState :=
  { s with
    world := { s.world with
      localStorage := Dict.remove (Dict.remove s.world.localStorage "token") "user" },
    user := .null }

/-- The handlers `then`, `catch` and `finally` of the mount effect, run when the pending
`api.get('/auth/profile')` settles. -/
def verificationSettled (env : Env) (net : Server) (s : AuthState) : AuthState :=
  let r := api.get env net "/auth/profile" s.world
  let s1 : AuthState := { s with world := r.2 }
  let s2 : AuthState :=
    match r.1 with
    | .ok data =>
      match onProfile data s1 with
      | .ok s3 => s3
      | .error _ => onInvalid s1
    | .error _ => onInvalid s1
  { s2 with loading := false }

/-- The component after its mount effect and, if one was started, the verification have
run to the end, on the storage the browser holds. -/
def mount (parse : String → Except Thrown JsVal) (env : Env) (net : Server) (w : World) :
    Except Thrown AuthState :=
  match mountEffect parse (initialState w) with
  | .error e => .error e
  | .ok started =>
    .ok (if started.2 then verificationSettled env net started.1 else started.1)

end SrcApp

/-! ## The running application of src/App.jsx -/

namespace RootApp

/-- One call made by the pages of the mounted application. -/
inductive AppCall where
  | login (email password : String)
  | register (userData : JsVal)
  | logout
  | request (endpoint : String) (options : RequestInit)

/-- The state after one call. An assignment to `window.location.href` reloads the page:
the provider is created and mounted again on the storage the call left. -/
def appStep (env : Env) (net : Server) (s : AuthState) : AppCall → AuthState
  | .login email password => (login env net email password s).2
  | .register userData => (register env net userData s).2
  | .logout => logout s
  | .request endpoint options =>
    let r := api.request env net endpoint options s.world
    if r.2.navigations.length > s.world.navigations.length then mount env net r.2
    else { s with world := r.2 }

/-- The state after the initial mount on a persisted storage and a sequence of calls. -/
def runApp (env : Env) (net : Server) (w : World) (calls : List AppCall) : AuthState :=
  calls.foldl (appStep env net) (mount env net w)

/-- A storage holds `access_token`. -/
def hasAccessToken (d : Dict) : Prop := (Dict.get d "access_token").isSome = true

instance (d : Dict) : Decidable (hasAccessToken d) := by
  unfold hasAccessToken
  infer_instance

/-- A persisted storage as the application leaves it behind: a non-empty access token,
or no access token and no non-empty refresh token. -/
def CleanStorage (d : Dict) : Prop :=
  Dict.get d "access_token" ≠ some ""
  ∧ (Dict.get d "access_token" = none → ∀ r, Dict.get d "refresh_token" = some r → r = "")

/-- The session invariant: `user` is `null` or truthy, it is truthy exactly when an
access token is stored, and without an access token no non-empty refresh token is
stored. -/
def SessionInvariant (s : AuthState) : Prop :=
  (s.user = .null ∨ s.user.truthy = true)
  ∧ (s.user.truthy = true ↔ hasAccessToken s.world.localStorage)
  ∧ (¬ hasAccessToken s.world.localStorage →
      ∀ r, Dict.get s.world.localStorage "refresh_token" = some r → r = "")

/-- The server keeps to the interface of `/auth/login` and `/auth/register`: whenever it
answers such a call ok with a JSON body, the `user` of the body is truthy (a profile
object). -/
def ServerSendsUser (env : Env) (net : Server) : Prop :=
  ∀ (tr : List Request) (req : Request) (resp : Response) (data u : JsVal),
    net tr req = .resolved resp →
    (req.url = API_BASE_URL env ++ "/auth/login"
      ∨ req.url = API_BASE_URL env ++ "/auth/register") →
    resp.ok = true → resp.body = .json data → data.getProp "user" = .ok u →
    u.truthy = true

end RootApp

/-! ## src/src/App.jsx: the object `auth` -/

namespace SrcApp

/-- The init object of the call `auth.logout` makes; the template literal writes `null`
for a missing token. -/
def logoutInit (w : World) : RequestInit :=
  { method := some "POST",
    credentials := some "include",
    headers := some [("Content-Type", "application/json"),
                     ("Authorization",
                      "Bearer " ++ (Dict.get w.localStorage "token").getD "null")] }

/-- The method `auth.logout()`: the two `removeItem` calls stand in the `try` block after
the awaited `fetch`, and the `catch` block returns `false`. -/
def auth.logout (env : Env) (net : Server) (w : World) : Except Thrown Bool × World :=
  match fetch net (API_BASE_URL env ++ "/auth/logout") (logoutInit w) w with
  | (.rejected, w1) => (.ok false, w1)
  | (.resolved response, w1) =>
    (.ok response.ok,
     { w1 with localStorage := Dict.remove (Dict.remove w1.localStorage "token") "user" })

end SrcApp

/-! ## config.js -/

namespace Config

/-- One entry of the object `config`. -/
structure Entry where
  API_BASE_URL : String
  ENVIRONMENT : String

/-- The object `config`, by its own keys. -/
def config : List (String × Entry) :=
  [ ("development",
      { API_BASE_URL := "http://localhost:5000/api/v1", ENVIRONMENT := "development" }),
    ("production",
      { API_BASE_URL := "https://marketing-analytics-api.onrender.com/api/v1",
        ENVIRONMENT := "production" }) ]

/-- The constant `environment`: `process.env.NODE_ENV || 'development'`. -/
def environment (env : Env) : String := orElseStr env.NODE_ENV "development"

/-- What the module exports: the default export (`none` for `undefined`) and the two
named constants. -/
structure Exports where
  defaultExport : Option Entry
  API_BASE_URL : String
  ENVIRONMENT : String

/-- The expression `override || config[environment].field`: the right side is read only
when the override is missing or empty, and reading a field of a missing entry throws. -/
def overrideOr (override : Option String) (entry : Option Entry) (field : Entry → String) :
    Except Thrown String :=
  match override with
  | some u =>
    if u = "" then
      match entry with
      | some e => .ok (field e)
      | none => .error (Thrown.typeError "undefined" "field")
    else .ok u
  | none =>
    match entry with
    | some e => .ok (field e)
    | none => .error (Thrown.typeError "undefined" "field")

/-- The evaluation of the module config.js, top to bottom. -/
def load (env : Env) : Except Thrown Exports :=
  let entry := config.lookup (environment env)
  match overrideOr env.VITE_API_BASE_URL entry Entry.API_BASE_URL with
  | .error e => .error e
  | .ok apiBaseUrl =>
    match overrideOr env.VITE_ENVIRONMENT entry Entry.ENVIRONMENT with
    | .error e => .error e
    | .ok environmentName =>
      .ok { defaultExport := entry, API_BASE_URL := apiBaseUrl,
            ENVIRONMENT := environmentName }

end Config

/-! ## Dashboard.jsx -/

namespace Dashboard

/-- The constant `diffInMinutes` of `formatTimeAgo`, for the clock reading `now` and the
time of the timestamp, both in milliseconds: `Math.floor((now - time) / (1000 * 60))`. -/
def diffInMinutes (now time : Int) : Int := (now - time) / (1000 * 60)

/-- The function `formatTimeAgo`, for the clock reading `now` and the time of the
timestamp, both in milliseconds. -/
def formatTimeAgo (now time : Int) : String :=
  let diffInMinutes := diffInMinutes now time
  if diffInMinutes < 60 then toString diffInMinutes ++ "m ago"
  else if diffInMinutes < 1440 then toString (diffInMinutes / 60) ++ "h ago"
  else toString (diffInMinutes / 1440) ++ "d ago"

end Dashboard

/-! ## Form state of the pages of src/src/components -/

/-- A JavaScript object with arbitrary values, by its own keys in insertion order. -/
abbrev JsObj := List (String × JsVal)

/-- The property read `o[key]` on an object: `undefined` for a missing key. -/
def JsObj.get (o : JsObj) (key : String) : JsVal := (o.lookup key).getD .undefined

/-- The object `{...o, [key]: value}`: replaces in place, or appends a new key. -/
def JsObj.set : JsObj → String → JsVal → JsObj
  | [], key, value => [(key, value)]
  | (k, v) :: rest, key, value =>
    if k = key then (k, value) :: rest else (k, v) :: JsObj.set rest key value

/-- The own fields `...v` spreads into an object literal, for the values the forms keep
there: the fields of an object, none for `undefined` and `null`. -/
def JsVal.spreadFields : JsVal → JsObj
  | .obj fields => fields
  | _ => []

/-- White space in the sense of `String.prototype.trim`. -/
def isJsWhitespace (c : Char) : Bool :=
  let n := c.toNat
  (9 ≤ n && n ≤ 13) || n = 32 || n = 160 || n = 5760 || (8192 ≤ n && n ≤ 8202)
    || n = 8232 || n = 8233 || n = 8239 || n = 8287 || n = 12288 || n = 65279

/-- The method `trim` of a string. -/
def jsTrim (s : String) : String :=
  String.mk ((s.toList.dropWhile isJsWhitespace).reverse.dropWhile isJsWhitespace).reverse

/-- The call `v.trim()`: it throws unless `v` is a string. -/
def JsVal.trim : JsVal → Except Thrown JsVal
  | .str s => .ok (.str (jsTrim s))
  | .undefined => .error (Thrown.typeError "undefined" "trim")
  | .null => .error (Thrown.typeError "null" "trim")
  | _ => .error (.error "TypeError" "trim is not a function")

/-- The test `x !== v` for a string `v`. -/
def JsVal.differsFrom (x : JsVal) (v : String) : Bool :=
  match x with
  | .str s => s != v
  | _ => true

namespace CredentialsPage

/-- The handler `handleSelectChange(name, value)` as the function it applies to the form
state: the three functional updates of `setFormData`, in order. -/
def handleSelectChange (name : String) (value : JsVal) (prev : JsObj) : JsObj :=
  let s1 := JsObj.set prev name value
  let s2 :=
    if name = "platform" then
      JsObj.set (JsObj.set s1 "credential_type" (.str "")) "config" (.obj [])
    else s1
  if name = "credential_type" then JsObj.set s2 "config" (.obj []) else s2

/-- The form state with its four keys. -/
def formOf (name platform credential_type config : JsVal) : JsObj :=
  [("name", name), ("platform", platform), ("credential_type", credential_type),
   ("config", config)]

end CredentialsPage

namespace DataSourcesPage

/-- A field of `configFields`, with what the handlers read of it; `required` is false
where the key is absent. -/
structure ConfigField where
  name : String
  label : String
  type : String
  required : Bool
  options : List (String × String)

/-- An entry of `PLATFORMS`. -/
structure Platform where
  name : String
  description : String
  configFields : List ConfigField

/-- The options of the field `date_range`. -/
def dateRangeOptions : List (String × String) :=
  [("last_30_days", "Last 30 Days"), ("last_90_days", "Last 90 Days"),
   ("last_year", "Last Year"), ("lifetime", "Lifetime")]

/-- The object `PLATFORMS` of DataSourcesPage.jsx, by its own keys. -/
def PLATFORMS : List (String × Platform) :=
  [ ("facebook_ads",
      { name := "Facebook Ads",
        description := "Connect to Facebook Ads for campaign and performance data",
        configFields :=
          [ { name := "account_id", label := "Ad Account ID", type := "text",
              required := true, options := [] },
            { name := "date_range", label := "Date Range", type := "select",
              required := true, options := dateRangeOptions },
            { name := "metrics", label := "Metrics", type := "multiselect",
              required := false,
              options := [("impressions", "Impressions"), ("clicks", "Clicks"),
                          ("spend", "Spend"), ("conversions", "Conversions"),
                          ("ctr", "CTR"), ("cpc", "CPC")] } ] }),
    ("google_ads",
      { name := "Google Ads",
        description := "Connect to Google Ads for campaign and performance data",
        configFields :=
          [ { name := "customer_id", label := "Customer ID", type := "text",
              required := true, options := [] },
            { name := "date_range", label := "Date Range", type := "select",
              required := true, options := dateRangeOptions },
            { name := "metrics", label := "Metrics", type := "multiselect",
              required := false,
              options := [("impressions", "Impressions"), ("clicks", "Clicks"),
                          ("cost", "Cost"), ("conversions", "Conversions"),
                          ("ctr", "CTR"), ("cpc", "CPC")] } ] }) ]

/-- The initial value of `formData`. -/
def initialFormData : JsObj :=
  [ ("credential_id", .str ""), ("platform", .str ""), ("source_name", .str ""),
    ("extraction_config", .obj []),
    ("schedule_config", .obj
      [ ("frequency", .str "daily"), ("time", .str "00:00"), ("day_of_week", .num "1"),
        ("day_of_month", .num "1"), ("enabled", .bool true) ]) ]

/-- The handler `handleConfigChange(field, value)` as the function it applies to the
form state. -/
def handleConfigChange (field : String) (value : JsVal) (prev : JsObj) : JsObj :=
  JsObj.set prev "extraction_config"
    (.obj (JsObj.set (prev.get "extraction_config").spreadFields field value))

/-- The list `newValues` of the `onChange` of a multiselect checkbox; only an array can
be spread into an array and has `filter`, and a string can be spread. -/
def newValues (currentValues : JsVal) (optionValue : String) (checked : Bool) :
    Except Thrown JsVal :=
  match currentValues with
  | .arr items =>
    .ok (.arr (if checked then items ++ [.str optionValue]
               else items.filter (fun v => v.differsFrom optionValue)))
  | .str s =>
    if checked then
      .ok (.arr (s.toList.map (fun c => .str (String.singleton c)) ++ [.str optionValue]))
    else .error (.error "TypeError" "currentValues.filter is not a function")
  | _ =>
    if checked then .error (.error "TypeError" "currentValues is not iterable")
    else .error (.error "TypeError" "currentValues.filter is not a function")

/-- The `onChange` of the checkbox of an option of a multiselect field, as a function of
the form state. -/
def toggleOption (fieldName optionValue : String) (checked : Bool) (formData : JsObj) :
    Except Thrown JsObj :=
  match (formData.get "extraction_config").getProp fieldName with
  | .error e => .error e
  | .ok stored =>
    match newValues (stored.or (.arr [])) optionValue checked with
    | .error e => .error e
    | .ok values => .ok (handleConfigChange fieldName values formData)

/-- The attribute `checked` of the checkbox of an option. -/
def isChecked (fieldName optionValue : String) (formData : JsObj) : Bool :=
  match ((formData.get "extraction_config").optProp fieldName).or (.arr []) with
  | .arr items => items.any (fun v => !v.differsFrom optionValue)
  | _ => false

end DataSourcesPage

/-! ## Submitting the forms of the credentials and data-sources pages -/

/-- The list `Object.values(v)` for a truthy value. -/
def objectValues : JsVal → List JsVal
  | .obj fields => fields.map (fun p => p.2)
  | .arr items => items
  | .str s => s.toList.map (fun c => .str (String.singleton c))
  | _ => []

/-- The method `flat()` of an array: arrays among the items give way to their items. -/
def flat (items : List JsVal) : List JsVal :=
  items.flatMap (fun x => match x with
    | .arr inner => inner
    | y => [y])

/-- The method `join(separator)` of an array. -/
def joinWith (separator : String) (items : List JsVal) : String :=
  String.intercalate separator (items.map JsVal.elemStr)

/-- The `catch` block the two submit handlers share, for the fallback text of the page:
the joined `details` of the error when it has them, else its `message`, else the
fallback. -/
def submitErrorMessage (fallback : String) (err : Thrown) : Except Thrown JsVal :=
  let details : Except Thrown JsVal :=
    match err with
    | .value v => v.getProp "details"
    | .error _ _ => .ok .undefined
  match details with
  | .error e => .error e
  | .ok d =>
    if d.truthy then .ok (.str (joinWith ", " (flat (objectValues d))))
    else
      match err.getMessage with
      | .error e => .error e
      | .ok message => .ok (message.or (.str fallback))

namespace DataSourcesPage

/-- The React state of the page that `handleSubmit` reads and writes. -/
structure PageState where
  formData : JsObj
  formError : JsVal
  isSubmitting : Bool
  dataSources : List JsVal
  activeTab : String

/-- The loop over `configFields`: the first field that is required and has no truthy
value in `extraction_config`, if any. -/
def firstMissing : List ConfigField → JsVal → Except Thrown (Option ConfigField)
  | [], _ => .ok none
  | field :: rest, extractionConfig =>
    if field.required then
      match extractionConfig.getProp field.name with
      | .error e => .error e
      | .ok v => if v.truthy then firstMissing rest extractionConfig else .ok (some field)
    else firstMissing rest extractionConfig

/-- The validation block of `handleSubmit`: the message of the first check that fails,
or `none` when all pass. The read `PLATFORMS[formData.platform]` finds the entry of an own
key; for a name of `Object.prototype` it finds the inherited member, which is truthy and
has no `configFields`, so that the `for...of` loop throws; for any other name it finds
nothing. -/
def validate (formData : JsObj) : Except Thrown (Option String) :=
  if !(formData.get "credential_id").truthy then .ok (some "Please select a credential")
  else
    match (formData.get "source_name").trim with
    | .error e => .error e
    | .ok trimmed =>
      if !trimmed.truthy then .ok (some "Please enter a name for this data source")
      else if (formData.get "platform").truthy then
        match PLATFORMS.lookup (formData.get "platform").toStr with
        | some platform =>
          match firstMissing platform.configFields (formData.get "extraction_config") with
          | .error e => .error e
          | .ok (some field) =>
            .ok (some ("Please fill in the required field: " ++ field.label))
          | .ok none => .ok none
        | none =>
          if (formData.get "platform").toStr ∈ objectPrototypeNames then
            .error (.error "TypeError" "platform.configFields is not iterable")
          else .ok none
      else .ok none

/-- The `try` and `catch` blocks of `handleSubmit` after `api.post` has been awaited. -/
def onPosted (posted : Except Thrown JsVal) (p : PageState) : Except Thrown Unit × PageState :=
  match posted with
  | .ok response =>
    if (response.and (response.optProp "data_source")).truthy then
      (.ok (),
       { p with
         dataSources := p.dataSources ++ [response.optProp "data_source"],
         formData := initialFormData,
         activeTab := "list" })
    else
      (.ok (), { p with formError := .str "Failed to create data source. Please try again." })
  | .error err =>
    match submitErrorMessage "Failed to create data source. Please try again." err with
    | .error e => (.error e, p)
    | .ok message => (.ok (), { p with formError := message })

/-- The handler `handleSubmit` for the project of the page. -/
def handleSubmit (env : Env) (net : Server) (projectId : String) (p : PageState)
    (w : World) : Except Thrown Unit × PageState × World :=
  let p0 := { p with formError := .null }
  match validate p.formData with
  | .error e => (.error e, p0, w)
  | .ok (some message) => (.ok (), { p0 with formError := .str message }, w)
  | .ok none =>
    let posted := SrcApp.api.post env net ("/projects/" ++ projectId ++ "/data-sources")
      (.obj p.formData) w
    let r := onPosted posted.1 { p0 with isSubmitting := true }
    (r.1, { r.2 with isSubmitting := false }, posted.2)

/-- The form state with its five keys, the first three texts and `extraction_config` an
object. -/
def formOf (credential_id platform source_name : String) (extraction_config : JsObj)
    (schedule_config : JsVal) : JsObj :=
  [ ("credential_id", .str credential_id), ("platform", .str platform),
    ("source_name", .str source_name), ("extraction_config", .obj extraction_config),
    ("schedule_config", schedule_config) ]

/-- All checks of `handleSubmit` pass: a credential is chosen, the name is not blank, and
if the platform is a key of `PLATFORMS` each of its required fields has a truthy value. -/
def Valid (credential_id platform source_name : String) (extraction_config : JsObj) : Prop :=
  credential_id ≠ "" ∧ jsTrim source_name ≠ ""
  ∧ ∀ entry, PLATFORMS.lookup platform = some entry →
      ∀ field ∈ entry.configFields, field.required = true →
        (extraction_config.get field.name).truthy = true

end DataSourcesPage

/-! ## The detour from the data-sources page to the credentials page -/

/-- The pieces of a list of characters between occurrences of a separator. -/
def splitChars (sep : Char) : List Char → List (List Char)
  | [] => [[]]
  | c :: cs =>
    if c = sep then [] :: splitChars sep cs
    else
      match splitChars sep cs with
      | [] => [[c]]
      | piece :: pieces => (c :: piece) :: pieces

/-- The part of a location before the question mark. -/
def pathnameOf (location : String) : String :=
  match splitChars (Char.ofNat 63) location.toList with
  | path :: _ => String.mk path
  | [] => ""

/-- The value `new URLSearchParams(location.search).get(key)` for a location whose query
needs no decoding: the text after `key=` in the first parameter of that name. -/
def queryParam (location key : String) : Option String :=
  match splitChars (Char.ofNat 63) location.toList with
  | _ :: search :: more =>
    let query := List.intercalate [Char.ofNat 63] (search :: more)
    let pairs := (splitChars (Char.ofNat 38) query).map (fun param =>
      match splitChars (Char.ofNat 61) param with
      | k :: v => (String.mk k, String.mk (List.intercalate [Char.ofNat 61] v))
      | [] => ("", ""))
    pairs.lookup key
  | _ => none

/-- A list of characters begins with another. -/
def startsWithChars : List Char → List Char → Bool
  | [], _ => true
  | _ :: _, [] => false
  | a :: as, b :: bs => a == b && startsWithChars as bs

/-- The method `includes` of a string. -/
def jsIncludes (text part : String) : Bool :=
  text.toList.tails.any (fun t => startsWithChars part.toList t)

namespace DataSourcesPage

/-- The state the page is created with by its `useState` calls, for the part
`handleSubmit` uses. -/
def initialState : PageState :=
  { formData := initialFormData, formError := .null, isSubmitting := false,
    dataSources := [], activeTab := "list" }

/-- The handler `handleAddCredential`: the session storage after it and the location it
navigates to. -/
def handleAddCredential (projectId : String) (p : PageState) (sessionStorage : Dict) :
    Dict × String :=
  (Dict.set sessionStorage "dataSourceFormData"
     ((JSON.stringify (.obj p.formData)).getD "undefined"),
   "/projects/" ++ projectId ++ "/credentials/new?platform="
     ++ (p.formData.get "platform").toStr ++ "&returnTo=data-sources")

end DataSourcesPage

namespace CredentialsPage

/-- A field of a credential type. -/
structure Field where
  name : String
  label : String
  type : String
  required : Bool

/-- An entry of `credentialTypes`. -/
structure CredentialType where
  type : String
  name : String
  fields : List Field

/-- An entry of `PLATFORMS`. -/
structure Platform where
  name : String
  description : String
  credentialTypes : List CredentialType

/-- The object `PLATFORMS` of CredentialsPage.jsx, by its own keys. -/
def PLATFORMS : List (String × Platform) :=
  [ ("facebook_ads",
      { name := "Facebook Ads",
        description := "Connect to Facebook Ads for campaign and performance data",
        credentialTypes :=
          [ { type := "oauth", name := "OAuth",
              fields :=
                [ { name := "app_id", label := "App ID", type := "text", required := true },
                  { name := "app_secret", label := "App Secret", type := "password",
                    required := true },
                  { name := "access_token", label := "Access Token", type := "password",
                    required := true } ] } ] }),
    ("google_ads",
      { name := "Google Ads",
        description := "Connect to Google Ads for campaign and performance data",
        credentialTypes :=
          [ { type := "service_account", name := "Service Account",
              fields :=
                [ { name := "client_id", label := "Client ID", type := "text",
                    required := true },
                  { name := "client_secret", label := "Client Secret", type := "password",
                    required := true },
                  { name := "refresh_token", label := "Refresh Token", type := "password",
                    required := true },
                  { name := "developer_token", label := "Developer Token",
                    type := "password", required := true } ] } ] }) ]

/-- The React state of the page that `handleSubmit` reads and writes. -/
structure PageState where
  formData : JsObj
  formError : JsVal
  isSubmitting : Bool
  credentials : List JsVal
  activeTab : String

/-- The state the page is created with at a location, for the part `handleSubmit`
uses. -/
def initialState (location : String) : PageState :=
  { formData := formOf (.str "")
      (.str (orElseStr (queryParam location "platform") "")) (.str "") (.obj []),
    formError := .null, isSubmitting := false, credentials := [],
    activeTab := if jsIncludes (pathnameOf location) "/new" then "add" else "list" }

/-- The loop over the fields of the credential type: the first field that is required
and has no truthy value in `config`, if any. -/
def firstMissing : List Field → JsVal → Except Thrown (Option Field)
  | [], _ => .ok none
  | field :: rest, config =>
    if field.required then
      match config.getProp field.name with
      | .error e => .error e
      | .ok v => if v.truthy then firstMissing rest config else .ok (some field)
    else firstMissing rest config

/-- The validation block of `handleSubmit`: the message of the first check that fails,
or `none` when all pass. The read `PLATFORMS[formData.platform]` finds the entry of an own
key; for a name of `Object.prototype` it finds the inherited member, which is truthy and
has no `credentialTypes`, so that the call of `find` throws. -/
def validate (formData : JsObj) : Except Thrown (Option String) :=
  match (formData.get "name").trim with
  | .error e => .error e
  | .ok trimmed =>
    if !trimmed.truthy then .ok (some "Please enter a name for this credential")
    else if !(formData.get "platform").truthy then .ok (some "Please select a platform")
    else if !(formData.get "credential_type").truthy then
      .ok (some "Please select a credential type")
    else
      match PLATFORMS.lookup (formData.get "platform").toStr with
      | some platform =>
        match platform.credentialTypes.find?
            (fun ct => !(formData.get "credential_type").differsFrom ct.type) with
        | some credType =>
          match firstMissing credType.fields (formData.get "config") with
          | .error e => .error e
          | .ok (some field) =>
            .ok (some ("Please fill in the required field: " ++ field.label))
          | .ok none => .ok none
        | none => .ok none
      | none =>
        if (formData.get "platform").toStr ∈ objectPrototypeNames then
          .error (Thrown.typeError "undefined" "find")
        else .ok none

/-- What `handleSubmit` leaves behind: the page state, the session storage and the
locations handed to `navigate`. -/
structure Outcome where
  page : PageState
  sessionStorage : Dict
  navigated : List String

/-- The `try` and `catch` blocks of `handleSubmit` after `api.post` has been awaited,
for the query parameter `returnTo`. -/
def onPosted (projectId : String) (returnTo : Option String) (posted : Except Thrown JsVal)
    (o : Outcome) : Except Thrown Unit × Outcome :=
  match posted with
  | .ok response =>
    if (response.and (response.optProp "credential")).truthy then
      let page := { o.page with
        credentials := o.page.credentials ++ [response.optProp "credential"],
        formData := formOf (.str "") (.str "") (.str "") (.obj []) }
      if returnTo = some "data-sources" then
        let savedFormData := (Dict.get o.sessionStorage "dataSourceFormData").getD ""
        (.ok (),
         { page := page,
           sessionStorage :=
             if savedFormData ≠ "" then Dict.remove o.sessionStorage "dataSourceFormData"
             else o.sessionStorage,
           navigated := o.navigated ++ ["/projects/" ++ projectId ++ "/data-sources"] })
      else (.ok (), { o with page := { page with activeTab := "list" } })
    else
      (.ok (), { o with page := { o.page with
        formError := .str "Failed to create credential. Please try again." } })
  | .error err =>
    match submitErrorMessage "Failed to create credential. Please try again." err with
    | .error e => (.error e, o)
    | .ok message => (.ok (), { o with page := { o.page with formError := message } })

/-- The handler `handleSubmit` of the page at a location, for the project of the page. -/
def handleSubmit (env : Env) (net : Server) (projectId location : String) (o : Outcome)
    (w : World) : Except Thrown Unit × Outcome × World :=
  let o0 := { o with page := { o.page with formError := .null } }
  match validate o.page.formData with
  | .error e => (.error e, o0, w)
  | .ok (some message) =>
    (.ok (), { o0 with page := { o0.page with formError := .str message } }, w)
  | .ok none =>
    let posted := SrcApp.api.post env net ("/projects/" ++ projectId ++ "/credentials")
      (.obj o.page.formData) w
    let r := onPosted projectId (queryParam location "returnTo") posted.1
      { o0 with page := { o0.page with isSubmitting := true } }
    (r.1, { r.2 with page := { r.2.page with isSubmitting := false } }, posted.2)

end CredentialsPage

/-! ## The route table of src/src/App.jsx -/

namespace SrcApp

/-- The pages the routes render. -/
inductive Page where
  | login
  | register
  | dashboard
  | projects
  | projectDetail
  | dataSources
  | credentials
  | webhooks
  | settings

/-- What the element of a route comes to: a page, or `<Navigate to=... />`. -/
inductive Element where
  | page (p : Page)
  | navigate (target : String)

/-- A segment of a route path: a fixed text, or a parameter such as `:projectId`. -/
inductive Segment where
  | fixed (text : String)
  | param (name : String)

/-- A declared route other than `*`: the segments of its full path and its element, by
whether `user` is truthy. The children of the route `/` carry the element of their
parent, which renders the child inside `Layout` for a user and navigates to `/login`
otherwise. -/
structure Route where
  path : List Segment
  element : Bool → Element

/-- The element of a child of the route `/`. -/
def underLayout (p : Page) (signedIn : Bool) : Element :=
  if signedIn then .page p else .navigate "/login"

/-- The declared routes other than `*`, in the order of the source. -/
def routes : List Route :=
  [ { path := [.fixed "login"],
      element := fun signedIn => if !signedIn then .page .login else .navigate "/" },
    { path := [.fixed "register"],
      element := fun signedIn => if !signedIn then .page .register else .navigate "/" },
    { path := [], element := underLayout .dashboard },
    { path := [.fixed "projects"], element := underLayout .projects },
    { path := [.fixed "projects", .param "projectId"],
      element := underLayout .projectDetail },
    { path := [.fixed "projects", .param "projectId", .fixed "data-sources"],
      element := underLayout .dataSources },
    { path := [.fixed "projects", .param "projectId", .fixed "credentials"],
      element := underLayout .credentials },
    { path := [.fixed "projects", .param "projectId", .fixed "credentials", .fixed "new"],
      element := underLayout .credentials },
    { path := [.fixed "projects", .param "projectId", .fixed "webhooks"],
      element := underLayout .webhooks },
    { path := [.fixed "settings"], element := underLayout .settings } ]

/-- The segments of the pathname of a location: the pieces between slashes after the
leading slash, without the empty pieces that trailing slashes leave. A doubled slash
inside the pathname leaves an empty segment, which no route segment matches. -/
def segmentsOf (location : String) : List String :=
  let pieces := splitChars (Char.ofNat 47) (pathnameOf location).toList
  let afterLeading := match pieces with
    | [] :: rest => rest
    | other => other
  (afterLeading.reverse.dropWhile (fun piece => piece.isEmpty)).reverse.map String.mk

/-- A route path matches a list of segments: the same number of segments, fixed texts
equal without regard to case, a parameter matching any segment that is not empty. -/
def matchesPath : List Segment → List String → Bool
  | [], [] => true
  | .fixed text :: rest, seg :: segs =>
    (String.mk (seg.toList.map Char.toLower) == String.mk (text.toList.map Char.toLower))
      && matchesPath rest segs
  | .param _ :: rest, seg :: segs => seg != "" && matchesPath rest segs
  | _, _ => false

/-- What `Routes` renders at a location: the element of the declared route that matches,
and the element of the route `*`, `<Navigate to="/dashboard" replace />`, when none
does. -/
def resolve (signedIn : Bool) (location : String) : Element :=
  match routes.find? (fun r => matchesPath r.path (segmentsOf location)) with
  | some r => r.element signedIn
  | none => .navigate "/dashboard"

/-- What is rendered after following at most `fuel` navigations from a location. -/
def follow (signedIn : Bool) : Nat → String → Element
  | 0, location => resolve signedIn location
  | fuel + 1, location =>
    match resolve signedIn location with
    | .page p => .page p
    | .navigate target => follow signedIn fuel target

end SrcApp

/-! ## Concrete scenarios -/

namespace Scenario

/-- A development build without overrides of the base URL. -/
def devEnv : Env :=
  { NODE_ENV := some "development", VITE_API_BASE_URL := none, VITE_API_URL := none }

/-- A server that answers the n-th call of a session with the n-th outcome of a script,
and rejects once the script is used up. -/
def scripted (script : List FetchOutcome) : Server :=
  fun tr _ => script.getD tr.length .rejected

/-- A browser holding an expired access token and a refresh token. -/
def expiredSession : World :=
  { localStorage := [("access_token", "old"), ("refresh_token", "r1")],
    navigations := [], trace := [] }

/-- A browser holding an expired access token and no refresh token. -/
def accessOnly : World :=
  { localStorage := [("access_token", "old")], navigations := [], trace := [] }

/-- The answer 401 of a server that no longer accepts the access token. -/
def unauthorized : Response :=
  { status := 401, ok := false, body := .json (.obj [("error", .str "Token has expired")]) }

/-- The answer of `/auth/refresh` with the new access token `new`. -/
def refreshed : Response :=
  { status := 200, ok := true, body := .json (.obj [("access_token", .str "new")]) }

/-- The list of projects, empty. -/
def projectList : JsVal := .obj [("projects", .arr []), ("total", .num "0")]

/-- The answer 200 carrying the list of projects. -/
def projectsOk : Response := { status := 200, ok := true, body := .json projectList }

/-- A freshly mounted provider: nothing stored, nobody signed in. -/
def signedOut : AuthState :=
  { world := { localStorage := [], navigations := [], trace := [] },
    user := .null, loading := false }

/-- The profile of the administrator with id `u1`. -/
def adminUser : JsVal :=
  .obj [("id", .str "u1"), ("email", .str "admin@example.com"), ("role", .str "admin")]

/-- The answer of `/auth/login` for accepted credentials: tokens `t1`/`r1` and the
administrator profile. -/
def loginOk : Response :=
  { status := 200, ok := true,
    body := .json (.obj [("access_token", .str "t1"), ("refresh_token", .str "r1"),
      ("user", adminUser)]) }

/-- The answer 422 of a server that reports field errors as an object. -/
def fieldErrors : Response :=
  { status := 422, ok := false,
    body := .json (.obj [("error", .obj [("email", .str "Not a valid email address.")])]) }

/-- The answer 401 of `/auth/login` for wrong credentials. -/
def badCredentials : Response :=
  { status := 401, ok := false, body := .json (.obj [("error", .str "Invalid credentials")]) }

/-- The login page of src/src/App.jsx open in one tab (no user in the React state)
while `localStorage`, shared by the tabs of the origin, holds the session of a sign-in
made in another tab. -/
def storedSession : AuthState :=
  { world := { localStorage := [("token", "tok"),
                                ("user", (JSON.stringify adminUser).getD "")],
               navigations := [], trace := [] },
    user := .null, loading := false }

/-- A browser with nothing stored. -/
def emptyBrowser : World := { localStorage := [], navigations := [], trace := [] }

/-- A browser in which only a refresh token is left. -/
def refreshOnly : World :=
  { localStorage := [("refresh_token", "r1")], navigations := [], trace := [] }

/-- A browser in which the access token is stored as the empty text. -/
def emptyAccessToken : World :=
  { localStorage := [("access_token", "")], navigations := [], trace := [] }

/-- The answer of a server that accepts the credentials and sends tokens with `null` in
place of the profile. -/
def loginWithoutUser : Response :=
  { status := 200, ok := true,
    body := .json (.obj [("access_token", .str "t1"), ("refresh_token", .str "r1"),
      ("user", .null)]) }

/-- A server that answers by the URL of the call: the credential calls with tokens and
the administrator profile, the refresh call with a new access token, every other call
with the list of projects. -/
def backend : Server :=
  fun _ req =>
    if req.url = "http://localhost:5000/api/v1/auth/login" then .resolved loginOk
    else if req.url = "http://localhost:5000/api/v1/auth/register" then .resolved loginOk
    else if req.url = "http://localhost:5000/api/v1/auth/refresh" then .resolved refreshed
    else .resolved projectsOk

/-- A production build without overrides. -/
def prodEnv : Env :=
  { NODE_ENV := some "production", VITE_API_BASE_URL := none, VITE_API_URL := none }

/-- The answer 409 of `/auth/register` for an address that is taken. -/
def emailTaken : Response :=
  { status := 409, ok := false,
    body := .json (.obj [("error", .str "Email already registered")]) }

/-- The data of a registration. -/
def newUser : JsVal :=
  .obj [("email", .str "new@example.com"), ("password", .str "Abcdefg1"),
        ("first_name", .str "New"), ("last_name", .str "User")]

/-- The data-sources page with a source for Facebook Ads half filled in and no credential
to choose from. -/
def sourceDraft : DataSourcesPage.PageState :=
  { formData := DataSourcesPage.formOf "" "facebook_ads" "Campaign data"
      [("account_id", .str "act_1"), ("metrics", .arr [.str "clicks"])]
      (DataSourcesPage.initialFormData.get "schedule_config"),
    formError := .null, isSubmitting := false, dataSources := [], activeTab := "add" }

/-- The form of the credentials page filled in for a Facebook Ads credential. -/
def credentialForm : JsObj :=
  CredentialsPage.formOf (.str "Facebook main") (.str "facebook_ads") (.str "oauth")
    (.obj [("app_id", .str "123"), ("app_secret", .str "s3cret"),
           ("access_token", .str "EAAB")])

/-- The answer 201 of the server to the creation of a credential. -/
def credentialCreated : Response :=
  { status := 201, ok := true,
    body := .json (.obj [("credential", .obj [("id", .str "c1"),
      ("name", .str "Facebook main"), ("platform", .str "facebook_ads")])]) }

/-- The answer 201 of the server to the creation of a data source. -/
def sourceCreated : Response :=
  { status := 201, ok := true,
    body := .json (.obj [("data_source", .obj [("id", .str "ds1"),
      ("source_name", .str "Campaign data"), ("platform", .str "facebook_ads")])]) }

/-- A browser in which `token` is stored without a cached profile. -/
def tokenOnly : World :=
  { localStorage := [("token", "tok")], navigations := [], trace := [] }

/-- A stand-in for `JSON.parse` that knows the text of the administrator profile and
rejects every other text. -/
def parseCached (text : String) : Except Thrown JsVal :=
  if text = (JSON.stringify adminUser).getD "" then .ok adminUser
  else .error Thrown.syntaxError

end Scenario

/-! ## Decidable equality of the embedded data -/

mutual
theorem JsVal.beq_iff : ∀ (a b : JsVal), JsVal.beq a b = true ↔ a = b
  | .undefined, b => by cases b <;> simp [JsVal.beq]
  | .null, b => by cases b <;> simp [JsVal.beq]
  | .bool a, b => by cases b <;> simp [JsVal.beq]
  | .num a, b => by cases b <;> simp [JsVal.beq]
  | .str a, b => by cases b <;> simp [JsVal.beq]
  | .arr a, b => by cases b <;> simp [JsVal.beq, JsVal.beqList_iff a]
  | .obj a, b => by cases b <;> simp [JsVal.beq, JsVal.beqFields_iff a]
  | .builtin a, b => by cases b <;> simp [JsVal.beq]
theorem JsVal.beqList_iff : ∀ (a b : List JsVal), JsVal.beqList a b = true ↔ a = b
  | [], b => by cases b <;> simp [JsVal.beqList]
  | x :: xs, b => by
    cases b <;> simp [JsVal.beqList, JsVal.beq_iff x, JsVal.beqList_iff xs]
theorem JsVal.beqFields_iff :
    ∀ (a b : List (String × JsVal)), JsVal.beqFields a b = true ↔ a = b
  | [], b => by cases b <;> simp [JsVal.beqFields]
  | (k, x) :: xs, b => by
    cases b with
    | nil => simp [JsVal.beqFields]
    | cons h t =>
      obtain ⟨l, y⟩ := h
      simp [JsVal.beqFields, JsVal.beq_iff x, JsVal.beqFields_iff xs, and_assoc]
end

instance : DecidableEq JsVal := fun a b =>
  decidable_of_iff (JsVal.beq a b = true) (JsVal.beq_iff a b)


deriving instance DecidableEq for Thrown, RequestInit, Request, Body, Response,
  FetchOutcome, World, AuthResult, AuthState, Except

deriving instance DecidableEq for RootApp.Rendered, RegisterPage.PasswordValidation,
  RegisterPage.FormData, RegisterPage.PageState, View

deriving instance DecidableEq for Config.Entry, Config.Exports

deriving instance DecidableEq for DataSourcesPage.ConfigField, DataSourcesPage.Platform,
  DataSourcesPage.PageState

deriving instance DecidableEq for CredentialsPage.Field, CredentialsPage.CredentialType,
  CredentialsPage.Platform, CredentialsPage.PageState, CredentialsPage.Outcome

deriving instance DecidableEq for SrcApp.Page, SrcApp.Element, SrcApp.Segment

/-! ## Storage lemmas -/

theorem Dict.get_remove_self (d : Dict) (k : String) : Dict.get (Dict.remove d k) k = none := by
  induction d with
  | nil => rfl
  | cons p rest ih =>
    obtain ⟨a, b⟩ := p
    unfold Dict.get Dict.remove at ih ⊢
    by_cases h : a = k
    · simpa [List.filter_cons, h] using ih
    · have h2 : (k == a) = false := by simpa using Ne.symm h
      simpa [List.filter_cons, h, List.lookup, h2] using ih

theorem Dict.get_remove_of_ne (d : Dict) (k j : String) (hne : j ≠ k) :
    Dict.get (Dict.remove d k) j = Dict.get d j := by
  induction d with
  | nil => rfl
  | cons p rest ih =>
    obtain ⟨a, b⟩ := p
    unfold Dict.get Dict.remove at ih ⊢
    by_cases h : a = k
    · subst h
      have h2 : (j == a) = false := by simpa using hne
      simpa [List.filter_cons, List.lookup, h2] using ih
    · by_cases hj : j = a
      · subst hj
        simp [List.filter_cons, List.lookup, h]
      · have h2 : (j == a) = false := by simpa using hj
        simpa [List.filter_cons, List.lookup, h, h2] using ih

theorem Dict.get_set_self (d : Dict) (k v : String) : Dict.get (Dict.set d k v) k = some v := by
  induction d with
  | nil => simp [Dict.set, Dict.get, List.lookup]
  | cons p rest ih =>
    obtain ⟨a, b⟩ := p
    by_cases h : a = k
    · simp [Dict.set, Dict.get, List.lookup, h]
    · have h2 : (k == a) = false := by simpa using Ne.symm h
      simpa [Dict.set, Dict.get, List.lookup, h, h2] using ih

theorem Dict.get_set_of_ne (d : Dict) (k j v : String) (hne : j ≠ k) :
    Dict.get (Dict.set d k v) j = Dict.get d j := by
  induction d with
  | nil =>
    have h2 : (j == k) = false := by simpa using hne
    simp [Dict.set, Dict.get, List.lookup, h2]
  | cons p rest ih =>
    obtain ⟨a, b⟩ := p
    by_cases h : a = k
    · subst h
      have h2 : (j == a) = false := by simpa using hne
      simp [Dict.set, Dict.get, List.lookup, h2]
    · by_cases hj : j = a
      · subst hj
        simp [Dict.set, Dict.get, List.lookup, h]
      · have h2 : (j == a) = false := by simpa using hj
        simpa [Dict.set, Dict.get, List.lookup, h, h2] using ih

/-! ## The refresh protocol of src/App.jsx -/

namespace RootApp

theorem api.call_eq (env : Env) (net : Server) (h : Helper) (endpoint : String) (w : World) :
    api.call env net h endpoint w = jsonOf (api.request env net endpoint h.options w) := by
  cases h <;> rfl

theorem buildConfig_headers (token : Option String) (options : RequestInit) :
    ∃ h, (buildConfig token options).headers = some h := by
  unfold buildConfig RequestInit.spread
  cases options.headers <;> simp

/-- A 401 followed by an accepted refresh: `request` stores the new access token and
hands back whatever the retried call gives. -/
theorem api.request_of_refreshed (env : Env) (net : Server) (endpoint : String)
    (options : RequestInit) (w : World) (r : String) (first refreshResponse : Response)
    (data token : JsVal)
    (hdev : env.NODE_ENV ≠ some "production")
    (hr : Dict.get w.localStorage "refresh_token" = some r) (hr0 : r ≠ "")
    (h1 : net w.trace (originalRequest env endpoint options w) = .resolved first)
    (h401 : first.status = 401)
    (h2 : net (w.trace ++ [originalRequest env endpoint options w]) (refreshRequest env r)
      = .resolved refreshResponse)
    (hok : refreshResponse.ok = true)
    (hbody : refreshResponse.body = .json data)
    (htok : data.getProp "access_token" = .ok token) :
    api.request env net endpoint options w =
      settle (fetch net (retryRequest env endpoint options w token.toStr).url
        (retryRequest env endpoint options w token.toStr).init
        { localStorage := Dict.set w.localStorage "access_token" token.toStr,
          navigations := w.navigations,
          trace := w.trace ++
            [originalRequest env endpoint options w, refreshRequest env r] }) := by
  obtain ⟨hd, hhd⟩ := buildConfig_headers (Dict.get w.localStorage "access_token") options
  unfold originalRequest at h1 h2
  unfold refreshRequest at h2
  simp only [api.request, hdev, if_false, fetch, h1, h401, if_true, hr, hr0, tryRefresh, h2,
    hok, Response.json, hbody, htok, setAuthorization, hhd, retryRequest, originalRequest,
    refreshRequest, Option.map, List.append_assoc, List.cons_append, List.nil_append]

/-- C1. In development mode, with a non-empty refresh token `r` stored, when the
original call is answered 401, the refresh call is answered ok with a body whose
`access_token` is `t`, and the retried call is answered with a body that parses to `J`:
each of `api.get/post/put/delete` resolves to `J`, and the calls issued are exactly the
original one, one `POST /auth/refresh` carrying `Authorization: Bearer r`, and the
retry. -/
theorem refresh_then_retry_resolves_to_retried_body (env : Env) (net : Server) (h : Helper)
    (endpoint : String) (w : World) (r t : String) (first refreshResponse retried : Response)
    (data J : JsVal)
    (hdev : env.NODE_ENV ≠ some "production")
    (hr : Dict.get w.localStorage "refresh_token" = some r) (hr0 : r ≠ "")
    (h1 : net w.trace (originalRequest env endpoint h.options w) = .resolved first)
    (h401 : first.status = 401)
    (h2 : net (w.trace ++ [originalRequest env endpoint h.options w]) (refreshRequest env r)
      = .resolved refreshResponse)
    (hok : refreshResponse.ok = true)
    (hbody : refreshResponse.body = .json data)
    (htok : data.getProp "access_token" = .ok (.str t))
    (h3 : net (w.trace ++ [originalRequest env endpoint h.options w, refreshRequest env r])
      (retryRequest env endpoint h.options w t) = .resolved retried)
    (hJ : retried.body = .json J) :
    api.call env net h endpoint w =
      (.ok J,
       { localStorage := Dict.set w.localStorage "access_token" t,
         navigations := w.navigations,
         trace := w.trace ++ [originalRequest env endpoint h.options w,
           refreshRequest env r, retryRequest env endpoint h.options w t] })
    ∧ (refreshRequest env r).url = API_BASE_URL env ++ "/auth/refresh"
    ∧ (refreshRequest env r).init.method = some "POST"
    ∧ (refreshRequest env r).init.headers.bind (fun hs => Dict.get hs "Authorization")
        = some ("Bearer " ++ r) := by
  refine ⟨?_, rfl, rfl, ?_⟩
  · rw [api.call_eq,
      api.request_of_refreshed env net endpoint h.options w r first refreshResponse data
        (.str t) hdev hr hr0 h1 h401 h2 hok hbody htok]
    simp only [JsVal.toStr, settle, fetch, h3, jsonOf, Response.json, hJ, List.append_assoc,
      List.cons_append, List.nil_append]
  · simp [refreshRequest, refreshInit, Dict.get, List.lookup]

/-- C1, witness: `api.get('/projects')` with tokens `old`/`r1` stored, against a server
answering 401, then the refreshed token `new`, then the project list. -/
theorem refresh_then_retry_resolves_to_retried_body_witness :
    api.call Scenario.devEnv
        (Scenario.scripted [.resolved Scenario.unauthorized, .resolved Scenario.refreshed,
          .resolved Scenario.projectsOk])
        .get "/projects" Scenario.expiredSession
      = (.ok Scenario.projectList,
         { localStorage := [("access_token", "new"), ("refresh_token", "r1")],
           navigations := [],
           trace :=
             [ { url := "http://localhost:5000/api/v1/projects",
                 init := { headers := some [("Content-Type", "application/json"),
                                            ("Authorization", "Bearer old")] } },
               { url := "http://localhost:5000/api/v1/auth/refresh",
                 init := { method := some "POST",
                           headers := some [("Content-Type", "application/json"),
                                            ("Authorization", "Bearer r1")] } },
               { url := "http://localhost:5000/api/v1/projects",
                 init := { headers := some [("Content-Type", "application/json"),
                                            ("Authorization", "Bearer new")] } } ] }) :=
  (refresh_then_retry_resolves_to_retried_body Scenario.devEnv
    (Scenario.scripted [.resolved Scenario.unauthorized, .resolved Scenario.refreshed,
      .resolved Scenario.projectsOk])
    .get "/projects" Scenario.expiredSession "r1" "new" Scenario.unauthorized
    Scenario.refreshed Scenario.projectsOk (.obj [("access_token", .str "new")])
    Scenario.projectList (by decide) (by decide) (by decide) (by decide) (by decide)
    (by decide) (by decide) (by decide) (by decide) (by decide) (by decide)).1

theorem get_cleared_access (d : Dict) :
    Dict.get (Dict.remove (Dict.remove d "access_token") "refresh_token") "access_token"
      = none := by
  rw [Dict.get_remove_of_ne _ _ _ (by decide), Dict.get_remove_self]

theorem get_cleared_refresh (d : Dict) :
    Dict.get (Dict.remove (Dict.remove d "access_token") "refresh_token") "refresh_token"
      = none :=
  Dict.get_remove_self _ _

/-- C2. In development mode, for every endpoint and options, when no non-empty refresh
token is stored and the call is answered 401: `request` resolves to `undefined` (and so
does every helper, through `response?.json()`), both tokens are gone from
`localStorage`, `window.location.href` has been set to `/login`, and the only call
issued is the original one, so none went to `/auth/refresh`. -/
theorem unauthorized_without_refresh_token_clears_and_redirects (env : Env) (net : Server)
    (endpoint : String) (options : RequestInit) (w : World) (first : Response)
    (hdev : env.NODE_ENV ≠ some "production")
    (hnone : ∀ r, Dict.get w.localStorage "refresh_token" = some r → r = "")
    (h1 : net w.trace (originalRequest env endpoint options w) = .resolved first)
    (h401 : first.status = 401) :
    api.request env net endpoint options w =
      (.ok none,
       { localStorage :=
           Dict.remove (Dict.remove w.localStorage "access_token") "refresh_token",
         navigations := w.navigations ++ ["/login"],
         trace := w.trace ++ [originalRequest env endpoint options w] })
    ∧ (jsonOf (api.request env net endpoint options w)).1 = .ok .undefined
    ∧ Dict.get (api.request env net endpoint options w).2.localStorage "access_token" = none
    ∧ Dict.get (api.request env net endpoint options w).2.localStorage "refresh_token"
        = none := by
  have key : api.request env net endpoint options w =
      (.ok none,
       { localStorage :=
           Dict.remove (Dict.remove w.localStorage "access_token") "refresh_token",
         navigations := w.navigations ++ ["/login"],
         trace := w.trace ++ [originalRequest env endpoint options w] }) := by
    unfold originalRequest at h1
    cases hrt : Dict.get w.localStorage "refresh_token" with
    | none =>
      simp only [api.request, hdev, if_false, fetch, h1, h401, if_true, hrt,
        clearAndRedirect, originalRequest]
    | some r =>
      have hr := hnone r hrt
      subst hr
      simp only [api.request, hdev, if_false, fetch, h1, h401, if_true, hrt,
        clearAndRedirect, originalRequest]
  refine ⟨key, ?_, ?_, ?_⟩
  · rw [key]; rfl
  · rw [key]; exact get_cleared_access _
  · rw [key]; exact get_cleared_refresh _

/-- C2, witness: `request('/projects')` with only an access token stored, answered 401. -/
theorem unauthorized_without_refresh_token_clears_and_redirects_witness :
    api.request Scenario.devEnv (Scenario.scripted [.resolved Scenario.unauthorized])
        "/projects" {} Scenario.accessOnly
      = (.ok none,
         { localStorage := [],
           navigations := ["/login"],
           trace :=
             [ { url := "http://localhost:5000/api/v1/projects",
                 init := { headers := some [("Content-Type", "application/json"),
                                            ("Authorization", "Bearer old")] } } ] }) :=
  (unauthorized_without_refresh_token_clears_and_redirects Scenario.devEnv
    (Scenario.scripted [.resolved Scenario.unauthorized]) "/projects" {}
    Scenario.accessOnly Scenario.unauthorized (by decide) (by decide) (by decide)
    (by decide)).1

/-- C3. In development mode, with a non-empty refresh token stored and the original
call answered 401, when the refresh attempt fails (its fetch rejects, or its response is
not ok, or its body does not parse): `request` resolves to `undefined` without throwing,
both tokens are removed, `window.location.href` is set to `/login`, exactly as in the
case without a refresh token, and the calls issued are the original one and the refresh
call only: the original call is not issued again. -/
theorem failed_refresh_clears_and_redirects (env : Env) (net : Server)
    (endpoint : String) (options : RequestInit) (w : World) (r : String) (first : Response)
    (hdev : env.NODE_ENV ≠ some "production")
    (hr : Dict.get w.localStorage "refresh_token" = some r) (hr0 : r ≠ "")
    (h1 : net w.trace (originalRequest env endpoint options w) = .resolved first)
    (h401 : first.status = 401)
    (hfail :
      net (w.trace ++ [originalRequest env endpoint options w]) (refreshRequest env r)
        = .rejected ∨
      ∃ rr, net (w.trace ++ [originalRequest env endpoint options w]) (refreshRequest env r)
          = .resolved rr ∧ (rr.ok = false ∨ ∃ raw, rr.body = .text raw)) :
    api.request env net endpoint options w =
      (.ok none,
       { localStorage :=
           Dict.remove (Dict.remove w.localStorage "access_token") "refresh_token",
         navigations := w.navigations ++ ["/login"],
         trace := w.trace ++ [originalRequest env endpoint options w,
           refreshRequest env r] })
    ∧ (jsonOf (api.request env net endpoint options w)).1 = .ok .undefined
    ∧ Dict.get (api.request env net endpoint options w).2.localStorage "access_token" = none
    ∧ Dict.get (api.request env net endpoint options w).2.localStorage "refresh_token"
        = none := by
  have key : api.request env net endpoint options w =
      (.ok none,
       { localStorage :=
           Dict.remove (Dict.remove w.localStorage "access_token") "refresh_token",
         navigations := w.navigations ++ ["/login"],
         trace := w.trace ++ [originalRequest env endpoint options w,
           refreshRequest env r] }) := by
    unfold originalRequest at h1 hfail
    unfold refreshRequest at hfail
    rcases hfail with h2 | ⟨rr, h2, hnot | ⟨raw, hraw⟩⟩
    · simp only [api.request, hdev, if_false, fetch, h1, h401, if_true, hr, hr0, tryRefresh,
        h2, clearAndRedirect, originalRequest, refreshRequest, List.append_assoc,
        List.cons_append, List.nil_append]
    · simp [api.request, hdev, fetch, h1, h401, hr, hr0, tryRefresh,
        h2, hnot, clearAndRedirect, originalRequest, refreshRequest]
    · cases hokr : rr.ok <;>
        simp [api.request, hdev, fetch, h1, h401, hr, hr0, tryRefresh,
          h2, hokr, hraw, Response.json, clearAndRedirect, originalRequest, refreshRequest]
  refine ⟨key, ?_, ?_, ?_⟩
  · rw [key]; rfl
  · rw [key]; exact get_cleared_access _
  · rw [key]; exact get_cleared_refresh _

/-- C3, witness: `request('/projects')` with both tokens stored, answered 401, the
refresh call answered 401 as well. -/
theorem failed_refresh_clears_and_redirects_witness :
    api.request Scenario.devEnv
        (Scenario.scripted [.resolved Scenario.unauthorized, .resolved Scenario.unauthorized])
        "/projects" {} Scenario.expiredSession
      = (.ok none,
         { localStorage := [],
           navigations := ["/login"],
           trace :=
             [ { url := "http://localhost:5000/api/v1/projects",
                 init := { headers := some [("Content-Type", "application/json"),
                                            ("Authorization", "Bearer old")] } },
               { url := "http://localhost:5000/api/v1/auth/refresh",
                 init := { method := some "POST",
                           headers := some [("Content-Type", "application/json"),
                                            ("Authorization", "Bearer r1")] } } ] }) :=
  (failed_refresh_clears_and_redirects Scenario.devEnv
    (Scenario.scripted [.resolved Scenario.unauthorized, .resolved Scenario.unauthorized])
    "/projects" {} Scenario.expiredSession "r1" Scenario.unauthorized (by decide)
    (by decide) (by decide) (by decide) (by decide)
    (Or.inr ⟨Scenario.unauthorized, by decide, Or.inl (by decide)⟩)).1

/-! ## The auth context of src/App.jsx -/

/-- C5. For `login` and `register` of `AuthProvider`: when the server answers ok with a
JSON body whose `access_token` is `a`, `refresh_token` is `r` and `user` is `u`, the call
resolves to `{success: true, user: u}`, `localStorage` holds `a` under `access_token`
and `r` under `refresh_token`, and the context user is `u`. -/
theorem accepted_credentials_persist_session (env : Env) (net : Server) (c : AuthAttempt)
    (s : AuthState) (resp : Response) (data u : JsVal) (a r : String)
    (h1 : net s.world.trace (attemptRequest env c) = .resolved resp)
    (hok : resp.ok = true)
    (hbody : resp.body = .json data)
    (ha : data.getProp "access_token" = .ok (.str a))
    (hr : data.getProp "refresh_token" = .ok (.str r))
    (hu : data.getProp "user" = .ok u) :
    (attempt env net c s).1 = .ok (.success u)
    ∧ (attempt env net c s).2.user = u
    ∧ (attempt env net c s).2.world.localStorage =
        Dict.set (Dict.set s.world.localStorage "access_token" a) "refresh_token" r
    ∧ Dict.get (attempt env net c s).2.world.localStorage "access_token" = some a
    ∧ Dict.get (attempt env net c s).2.world.localStorage "refresh_token" = some r := by
  have key : attempt env net c s =
      (.ok (.success u),
       { world := { localStorage :=
                      Dict.set (Dict.set s.world.localStorage "access_token" a)
                        "refresh_token" r,
                    navigations := s.world.navigations,
                    trace := s.world.trace ++ [attemptRequest env c] },
         user := u, loading := s.loading }) := by
    cases c <;>
      simp only [attemptRequest] at h1 <;>
      simp only [attempt, login, register, fetch, handleAuthResponse, h1, Response.json,
        hbody, hok, if_true, ha, hr, hu, JsVal.toStr, catchNetworkError, attemptRequest]
  rw [key]
  refine ⟨rfl, rfl, rfl, ?_, ?_⟩
  · show Dict.get (Dict.set (Dict.set s.world.localStorage "access_token" a)
      "refresh_token" r) "access_token" = some a
    rw [Dict.get_set_of_ne _ _ _ _ (by decide), Dict.get_set_self]
  · exact Dict.get_set_self _ _ _

/-- C5, witness: `login('admin@example.com', 'admin123')` against a server returning
tokens `t1`/`r1` and the user with id `u1`. -/
theorem accepted_credentials_persist_session_witness :
    (attempt Scenario.devEnv (Scenario.scripted [.resolved Scenario.loginOk])
        (.login "admin@example.com" "admin123") Scenario.signedOut).1
      = .ok (.success Scenario.adminUser)
    ∧ (attempt Scenario.devEnv (Scenario.scripted [.resolved Scenario.loginOk])
        (.login "admin@example.com" "admin123") Scenario.signedOut).2.user.getProp "id"
      = .ok (.str "u1")
    ∧ (attempt Scenario.devEnv (Scenario.scripted [.resolved Scenario.loginOk])
        (.login "admin@example.com" "admin123") Scenario.signedOut).2.world.localStorage
      = [("access_token", "t1"), ("refresh_token", "r1")] :=
  have h := accepted_credentials_persist_session Scenario.devEnv
    (Scenario.scripted [.resolved Scenario.loginOk]) (.login "admin@example.com" "admin123")
    Scenario.signedOut Scenario.loginOk
    (.obj [("access_token", .str "t1"), ("refresh_token", .str "r1"),
      ("user", Scenario.adminUser)])
    Scenario.adminUser "t1" "r1" (by decide) (by decide) (by decide) (by decide)
    (by decide) (by decide)
  ⟨h.1, by rw [h.2.1]; decide, by rw [h.2.2.1]; decide⟩

end RootApp

/-- C4. After `logout()`, from any state and after any sequence of `login`, `register`
and `logout` calls, in both variants: `localStorage` holds none of the session keys of
the variant (`access_token`, `refresh_token` in src/App.jsx; `token`, `user` in
src/src/App.jsx), `user` is `null` and `isAuthenticated` is false. -/
theorem logout_leaves_no_session (env : Env) (net : Server) (s : AuthState)
    (calls : List AuthCall) :
    (Dict.get (RootApp.run env net s (calls ++ [.logout])).world.localStorage "access_token"
        = none
      ∧ Dict.get (RootApp.run env net s (calls ++ [.logout])).world.localStorage
          "refresh_token" = none
      ∧ (RootApp.run env net s (calls ++ [.logout])).user = .null
      ∧ (RootApp.run env net s (calls ++ [.logout])).isAuthenticated = false)
    ∧ (Dict.get (SrcApp.run env net s (calls ++ [.logout])).world.localStorage "token" = none
      ∧ Dict.get (SrcApp.run env net s (calls ++ [.logout])).world.localStorage "user" = none
      ∧ (SrcApp.run env net s (calls ++ [.logout])).user = .null
      ∧ (SrcApp.run env net s (calls ++ [.logout])).isAuthenticated = false) := by
  have h1 : RootApp.run env net s (calls ++ [.logout])
      = RootApp.logout (RootApp.run env net s calls) := by
    simp [RootApp.run, RootApp.step, List.foldl_append]
  have h2 : SrcApp.run env net s (calls ++ [.logout])
      = SrcApp.logout (SrcApp.run env net s calls) := by
    simp [SrcApp.run, SrcApp.step, List.foldl_append]
  rw [h1, h2]
  refine ⟨⟨RootApp.get_cleared_access _, RootApp.get_cleared_refresh _, rfl, rfl⟩,
    ⟨?_, Dict.get_remove_self _ _, rfl, rfl⟩⟩
  show Dict.get (Dict.remove (Dict.remove _ "token") "user") "token" = none
  rw [Dict.get_remove_of_ne _ _ _ (by decide), Dict.get_remove_self]

namespace RootApp

theorem or_str_truthy (a : JsVal) (m : String) (hm : m ≠ "") :
    (a.or (.str m)).truthy = true := by
  unfold JsVal.or
  by_cases h : a.truthy = true
  · rw [if_pos h]; exact h
  · rw [if_neg h]; simp [JsVal.truthy, hm]

theorem or_str_cases (a : JsVal) (m : String) : a.or (.str m) = a ∨ a.or (.str m) = .str m := by
  unfold JsVal.or
  by_cases h : a.truthy = true
  · rw [if_pos h]; exact Or.inl rfl
  · rw [if_neg h]; exact Or.inr rfl

/-- C6, counterexample: `login` against a server that answers 422 with an object under
`error` resolves to `{success: false, error}` where `error` is that object, not a
string. -/
theorem failed_login_error_need_not_be_a_string :
    (login Scenario.devEnv (Scenario.scripted [.resolved Scenario.fieldErrors])
        "not-an-email" "admin123" Scenario.signedOut).1
      = .ok (.failure (.obj [("email", .str "Not a valid email address.")]))
    ∧ ¬ ∃ msg : String, msg ≠ "" ∧
        (login Scenario.devEnv (Scenario.scripted [.resolved Scenario.fieldErrors])
          "not-an-email" "admin123" Scenario.signedOut).1 = .ok (.failure (.str msg)) := by
  have h : (login Scenario.devEnv (Scenario.scripted [.resolved Scenario.fieldErrors])
        "not-an-email" "admin123" Scenario.signedOut).1
      = .ok (.failure (.obj [("email", .str "Not a valid email address.")])) := by decide
  refine ⟨h, ?_⟩
  rintro ⟨msg, _, hmsg⟩
  rw [h] at hmsg
  cases hmsg

/-- The shape of a failed credential call of src/App.jsx. -/
theorem failed_credentials_shape (env : Env) (net : Server) (c : AuthAttempt)
    (s : AuthState)
    (hfail : net s.world.trace (attemptRequest env c) = .rejected ∨
      ∃ resp, net s.world.trace (attemptRequest env c) = .resolved resp ∧
        ((∃ raw, resp.body = .text raw) ∨ resp.ok = false)) :
    (∃ e, (attempt env net c s).1 = .ok (.failure e) ∧ e.truthy = true ∧
      (e = .str "Network error" ∨ e = .str "Login failed" ∨ e = .str "Registration failed" ∨
        ∃ resp data, net s.world.trace (attemptRequest env c) = .resolved resp ∧
          resp.body = .json data ∧ data.getProp "error" = .ok e))
    ∧ (attempt env net c s).2.world.localStorage = s.world.localStorage
    ∧ (attempt env net c s).2.user = s.user := by
  rcases hfail with h1 | ⟨resp, h1, hraw | hnot⟩
  · cases c <;>
      simp only [attemptRequest] at h1 <;>
      simp [attempt, login, register, fetch, handleAuthResponse, h1, catchNetworkError,
        JsVal.truthy]
  · obtain ⟨raw, hraw⟩ := hraw
    cases c <;>
      simp only [attemptRequest] at h1 <;>
      simp [attempt, login, register, fetch, handleAuthResponse, h1, catchNetworkError,
        JsVal.truthy, Response.json, hraw]
  · cases hb : resp.body with
    | text raw =>
      cases c <;>
        simp only [attemptRequest] at h1 <;>
        simp [attempt, login, register, fetch, handleAuthResponse, h1, catchNetworkError,
          JsVal.truthy, Response.json, hb]
    | json data =>
      cases hg : data.getProp "error" with
      | error t =>
        cases c <;>
          simp only [attemptRequest] at h1 <;>
          simp [attempt, login, register, fetch, handleAuthResponse, h1, catchNetworkError,
            JsVal.truthy, Response.json, hb, hnot, hg]
      | ok err =>
        cases c with
        | login email password =>
          have h1c := h1
          simp only [attemptRequest] at h1
          have key : attempt env net (.login email password) s =
              (.ok (.failure (err.or (.str "Login failed"))),
               { s with world := { s.world with
                   trace := s.world.trace ++ [attemptRequest env (.login email password)] } })
              := by
            simp [attempt, login, fetch, handleAuthResponse, h1, catchNetworkError,
              Response.json, hb, hnot, hg, attemptRequest]
          rw [key]
          refine ⟨⟨_, rfl, or_str_truthy _ _ (by decide), ?_⟩, rfl, rfl⟩
          rcases or_str_cases err "Login failed" with h | h
          · rw [h]; exact Or.inr (Or.inr (Or.inr ⟨resp, data, h1c, hb, hg⟩))
          · rw [h]; exact Or.inr (Or.inl rfl)
        | register userData =>
          have h1c := h1
          simp only [attemptRequest] at h1
          have key : attempt env net (.register userData) s =
              (.ok (.failure (err.or (.str "Registration failed"))),
               { s with world := { s.world with
                   trace := s.world.trace ++ [attemptRequest env (.register userData)] } })
              := by
            simp [attempt, register, fetch, handleAuthResponse, h1, catchNetworkError,
              Response.json, hb, hnot, hg, attemptRequest]
          rw [key]
          refine ⟨⟨_, rfl, or_str_truthy _ _ (by decide), ?_⟩, rfl, rfl⟩
          rcases or_str_cases err "Registration failed" with h | h
          · rw [h]; exact Or.inr (Or.inr (Or.inr ⟨resp, data, h1c, hb, hg⟩))
          · rw [h]; exact Or.inr (Or.inr (Or.inl rfl))

/-- C6, amended. For `login` and `register` of `AuthProvider`, for every failure (the
fetch rejects, the body does not parse as JSON, or the response is not ok): the call
does not throw and resolves to `{success: false, error}` with a truthy `error` (so a non-empty
text whenever it is a text), which is
one of the fixed texts `Network error`, `Login failed`, `Registration failed`, or else
the `error` field of the response body as the server sent it; `localStorage` and the
context user are as they were before the call. -/
theorem failed_credentials_keep_session (env : Env) (net : Server) (c : AuthAttempt)
    (s : AuthState)
    (hfail : net s.world.trace (attemptRequest env c) = .rejected ∨
      ∃ resp, net s.world.trace (attemptRequest env c) = .resolved resp ∧
        ((∃ raw, resp.body = .text raw) ∨ resp.ok = false)) :
    (∃ e, (attempt env net c s).1 = .ok (.failure e) ∧ e.truthy = true ∧
      (∀ msg, e = .str msg → msg ≠ "") ∧
      (e = .str "Network error" ∨ e = .str "Login failed" ∨ e = .str "Registration failed" ∨
        ∃ resp data, net s.world.trace (attemptRequest env c) = .resolved resp ∧
          resp.body = .json data ∧ data.getProp "error" = .ok e))
    ∧ (attempt env net c s).2.world.localStorage = s.world.localStorage
    ∧ (attempt env net c s).2.user = s.user := by
  obtain ⟨⟨e, he, ht, hcases⟩, hls, hu⟩ := failed_credentials_shape env net c s hfail
  refine ⟨⟨e, he, ht, ?_, hcases⟩, hls, hu⟩
  intro msg hmsg hempty
  subst hmsg
  subst hempty
  simp [JsVal.truthy] at ht

/-- C6, witness: `login` against a server whose connection fails. -/
theorem failed_credentials_keep_session_witness :
    (attempt Scenario.devEnv (Scenario.scripted []) (.login "admin@example.com" "admin123")
        Scenario.signedOut).2.world.localStorage = []
    ∧ (attempt Scenario.devEnv (Scenario.scripted []) (.login "admin@example.com" "admin123")
        Scenario.signedOut).2.user = .null :=
  (failed_credentials_keep_session Scenario.devEnv (Scenario.scripted [])
    (.login "admin@example.com" "admin123") Scenario.signedOut (Or.inl (by decide))).2

end RootApp

/-! ## The auth context of src/src/App.jsx -/

namespace SrcApp

theorem getProp_error_message (v : JsVal) (key : String) (t : Thrown)
    (h : v.getProp key = .error t) : ∃ m, t.getMessage = .ok m := by
  cases v <;> simp [JsVal.getProp] at h <;> subst h <;>
    exact ⟨_, rfl⟩

theorem getProp_of_truthy (v : JsVal) (key : String) (h : v.truthy = true) :
    ∃ x, v.getProp key = .ok x := by
  cases v <;> simp [JsVal.truthy] at h <;> exact ⟨_, rfl⟩

/-- The outcome of `api.post` by the answer of the server. -/
theorem api.post_eq (env : Env) (net : Server) (endpoint : String) (data : JsVal)
    (w : World) :
    api.post env net endpoint data w =
      match net w.trace (postRequest env w endpoint data) with
      | .rejected =>
        (.error (.error "AxiosError" "Network Error"),
         { w with trace := w.trace ++ [postRequest env w endpoint data] })
      | .resolved r =>
        if 200 ≤ r.status ∧ r.status < 300 then
          (.ok (responseData r),
           { w with trace := w.trace ++ [postRequest env w endpoint data] })
        else
          onResponseError r
            { w with trace := w.trace ++ [postRequest env w endpoint data] } := by
  simp only [api.post, fetch]
  cases h : net w.trace (postRequest env w endpoint data) <;> rfl

theorem api.post_error_message (env : Env) (net : Server) (endpoint : String) (data : JsVal)
    (w : World) (t : Thrown) (h : (api.post env net endpoint data w).1 = .error t) :
    ∃ m, t.getMessage = .ok m := by
  rw [api.post_eq] at h
  split at h
  · simp at h; subst h; exact ⟨_, rfl⟩
  · rename_i r _
    split at h
    · simp at h
    · simp only [onResponseError] at h
      by_cases hd : (responseData r).truthy = true
      · simp [hd] at h
        subst h
        exact getProp_of_truthy _ _ hd
      · simp [hd] at h
        subst h
        exact ⟨_, rfl⟩

theorem handleApiResult_error_message (fallback : String)
    (r : Except Thrown JsVal × World) (s : AuthState)
    (hr : ∀ t, r.1 = .error t → ∃ m, t.getMessage = .ok m) (t : Thrown)
    (h : (handleApiResult fallback r s).1 = .error t) : ∃ m, t.getMessage = .ok m := by
  unfold handleApiResult at h
  split at h
  · rename_i e he
    simp at h
    subst h
    exact hr _ he
  · rename_i response _
    split at h
    · rename_i e he
      simp at h
      subst h
      by_cases ht : response.truthy = true
      · simp [ht] at he
        exact getProp_error_message _ _ _ he
      · simp [ht] at he
    · split at h
      · split at h
        · rename_i e he
          simp at h
          subst h
          exact getProp_error_message _ _ _ he
        · split at h
          · rename_i e he
            simp at h
            subst h
            exact getProp_error_message _ _ _ he
          · simp at h
      · split at h
        · rename_i e he
          simp at h
          subst h
          exact getProp_error_message _ _ _ he
        · simp at h

theorem catchMessage_total (x : Except Thrown AuthResult × AuthState)
    (hx : ∀ t, x.1 = .error t → ∃ m, t.getMessage = .ok m) :
    ∃ res, (catchMessage x).1 = .ok res := by
  unfold catchMessage
  cases h : x.1 with
  | error t =>
    obtain ⟨m, hm⟩ := hx t h
    simp [hm]
  | ok v => simp

theorem catchMessage_snd (x : Except Thrown AuthResult × AuthState) :
    (catchMessage x).2 = x.2 := by
  unfold catchMessage
  split
  · split <;> rfl
  · rfl

theorem catchMessage_failure (x : Except Thrown AuthResult × AuthState) (e : JsVal)
    (h : (catchMessage x).1 = .ok (.failure e)) (u : JsVal) : x.1 ≠ .ok (.success u) := by
  intro hx
  unfold catchMessage at h
  rw [hx] at h
  simp at h

theorem getProp_ok_any (v : JsVal) (k j : String) (x : JsVal) (h : v.getProp k = .ok x) :
    ∃ y, v.getProp j = .ok y := by
  cases v <;> simp [JsVal.getProp] at h ⊢

theorem handleApiResult_state (fallback : String) (r : Except Thrown JsVal × World)
    (s : AuthState) (h : ∀ u, (handleApiResult fallback r s).1 ≠ .ok (.success u)) :
    (handleApiResult fallback r s).2 = { s with world := r.2 } := by
  unfold handleApiResult at h ⊢
  split
  · rfl
  · rename_i response _
    split
    · rfl
    · split
      · split
        · rfl
        · rename_i accessToken hacc
          obtain ⟨y, hy⟩ := getProp_ok_any response "access_token" "user" accessToken hacc
          simp only [hacc, hy] at h ⊢
          rename_i hc _ _
          simp [hc] at h
          split at h <;> simp_all
      · split <;> rfl

theorem api.post_world_of_401 (env : Env) (net : Server) (endpoint : String) (data : JsVal)
    (w : World) (r : Response)
    (h : net w.trace (postRequest env w endpoint data) = .resolved r)
    (h401 : r.status = 401) :
    (∃ t, (api.post env net endpoint data w).1 = .error t)
    ∧ (api.post env net endpoint data w).2 =
      { localStorage := Dict.remove (Dict.remove w.localStorage "token") "user",
        navigations := w.navigations ++ ["/login"],
        trace := w.trace ++ [postRequest env w endpoint data] } := by
  rw [api.post_eq, h]
  simp [h401, onResponseError]

theorem api.post_world_of_other (env : Env) (net : Server) (endpoint : String)
    (data : JsVal) (w : World)
    (h : ∀ r, net w.trace (postRequest env w endpoint data) = .resolved r → r.status ≠ 401) :
    (api.post env net endpoint data w).2 =
      { w with trace := w.trace ++ [postRequest env w endpoint data] } := by
  rw [api.post_eq]
  cases hn : net w.trace (postRequest env w endpoint data) with
  | rejected => rfl
  | resolved r =>
    have hne := h r hn
    simp only [onResponseError, hne, if_false]
    split <;> rfl

/-- The credential calls of src/src/App.jsx, for any fallback text, endpoint and data. -/
theorem credential_call_outcome (env : Env) (net : Server) (fallback endpoint : String)
    (data : JsVal) (s : AuthState) :
    (∃ res, (catchMessage (handleApiResult fallback
        (api.post env net endpoint data s.world) s)).1 = .ok res)
    ∧ (∀ e, (catchMessage (handleApiResult fallback
          (api.post env net endpoint data s.world) s)).1 = .ok (.failure e) →
        (catchMessage (handleApiResult fallback
          (api.post env net endpoint data s.world) s)).2.user = s.user
        ∧ ((∀ r, net s.world.trace (postRequest env s.world endpoint data) = .resolved r →
              r.status ≠ 401) →
            (catchMessage (handleApiResult fallback
              (api.post env net endpoint data s.world) s)).2.world.localStorage
              = s.world.localStorage
            ∧ (catchMessage (handleApiResult fallback
              (api.post env net endpoint data s.world) s)).2.world.navigations
              = s.world.navigations))
    ∧ (∀ r, net s.world.trace (postRequest env s.world endpoint data) = .resolved r →
        r.status = 401 →
        (∃ e, (catchMessage (handleApiResult fallback
          (api.post env net endpoint data s.world) s)).1 = .ok (.failure e))
        ∧ (catchMessage (handleApiResult fallback
            (api.post env net endpoint data s.world) s)).2.world.localStorage
            = Dict.remove (Dict.remove s.world.localStorage "token") "user"
        ∧ (catchMessage (handleApiResult fallback
            (api.post env net endpoint data s.world) s)).2.world.navigations
            = s.world.navigations ++ ["/login"]
        ∧ (catchMessage (handleApiResult fallback
            (api.post env net endpoint data s.world) s)).2.user = s.user) := by
  have htotal := catchMessage_total
    (handleApiResult fallback (api.post env net endpoint data s.world) s)
    (handleApiResult_error_message fallback _ s
      (fun t ht => api.post_error_message env net endpoint data s.world t ht))
  refine ⟨htotal, ?_, ?_⟩
  · intro e he
    have hst := handleApiResult_state fallback (api.post env net endpoint data s.world) s
      (catchMessage_failure _ e he)
    rw [catchMessage_snd, hst]
    refine ⟨rfl, ?_⟩
    intro hother
    rw [api.post_world_of_other env net endpoint data s.world hother]
    exact ⟨rfl, rfl⟩
  · intro r hr h401
    obtain ⟨⟨t, ht⟩, hw⟩ := api.post_world_of_401 env net endpoint data s.world r hr h401
    obtain ⟨m, hm⟩ := api.post_error_message env net endpoint data s.world t ht
    have hres : handleApiResult fallback (api.post env net endpoint data s.world) s
        = (.error t, { s with world := (api.post env net endpoint data s.world).2 }) := by
      simp only [handleApiResult, ht]
    rw [hres, hw]
    simp [catchMessage, hm]

/-- C7. With a session in `localStorage`, a `login` of src/src/App.jsx with wrong
credentials that the server answers 401 with `{error: 'Invalid credentials'}` does not
throw and resolves to `{success: false, error}`, with the context user as it was; but the
call has mutated the stored session: `token` and `user` are no longer in `localStorage`,
and the location has been set to `/login`. The same holds for a `register` answered 401.
The `login` of src/App.jsx, given the same answer in the same browser, leaves
`localStorage` and the location as they were. -/
theorem rejected_login_clears_stored_session :
    (login Scenario.devEnv (Scenario.scripted [.resolved Scenario.badCredentials])
        "admin@example.com" "wrong" Scenario.storedSession).1
      = .ok (.failure (.str "Network error"))
    ∧ Scenario.badCredentials.status = 401
    ∧ Dict.get Scenario.storedSession.world.localStorage "token" = some "tok"
    ∧ (Dict.get Scenario.storedSession.world.localStorage "user").isSome = true
    ∧ (login Scenario.devEnv (Scenario.scripted [.resolved Scenario.badCredentials])
        "admin@example.com" "wrong" Scenario.storedSession).2.world.localStorage = []
    ∧ (login Scenario.devEnv (Scenario.scripted [.resolved Scenario.badCredentials])
        "admin@example.com" "wrong" Scenario.storedSession).2.world.navigations = ["/login"]
    ∧ (login Scenario.devEnv (Scenario.scripted [.resolved Scenario.badCredentials])
        "admin@example.com" "wrong" Scenario.storedSession).2.user
      = Scenario.storedSession.user
    ∧ (register Scenario.devEnv (Scenario.scripted [.resolved Scenario.badCredentials])
        Scenario.newUser Scenario.storedSession).1
      = .ok (.failure (.str "Network error"))
    ∧ (register Scenario.devEnv (Scenario.scripted [.resolved Scenario.badCredentials])
        Scenario.newUser Scenario.storedSession).2.world.localStorage = []
    ∧ (register Scenario.devEnv (Scenario.scripted [.resolved Scenario.badCredentials])
        Scenario.newUser Scenario.storedSession).2.world.navigations = ["/login"]
    ∧ (RootApp.login Scenario.devEnv (Scenario.scripted [.resolved Scenario.badCredentials])
        "admin@example.com" "wrong" Scenario.storedSession).1
      = .ok (.failure (.str "Invalid credentials"))
    ∧ (RootApp.login Scenario.devEnv (Scenario.scripted [.resolved Scenario.badCredentials])
        "admin@example.com" "wrong" Scenario.storedSession).2.world.localStorage
      = Scenario.storedSession.world.localStorage
    ∧ (RootApp.login Scenario.devEnv (Scenario.scripted [.resolved Scenario.badCredentials])
        "admin@example.com" "wrong" Scenario.storedSession).2.world.navigations = [] := by
  decide

/-- For `login` and `register` of src/src/App.jsx, whatever the server does: the call
never throws and resolves to `{success: true, user}` or `{success: false, error}`; a failed attempt
leaves the context user as it was, and leaves `localStorage` and the location as they
were unless the server answered 401; an answer 401 always gives
`{success: false, error}`, and then the response interceptor has removed `token` and
`user` from `localStorage` and set `window.location.href` to `/login`. -/
theorem failed_attempt_keeps_session_unless_401 (env : Env) (net : Server)
    (c : AuthAttempt) (s : AuthState) :
    (∃ res, (attempt env net c s).1 = .ok res)
    ∧ (∀ e, (attempt env net c s).1 = .ok (.failure e) →
        (attempt env net c s).2.user = s.user
        ∧ ((∀ r, net s.world.trace (attemptRequest env s.world c) = .resolved r →
              r.status ≠ 401) →
            (attempt env net c s).2.world.localStorage = s.world.localStorage
            ∧ (attempt env net c s).2.world.navigations = s.world.navigations))
    ∧ (∀ r, net s.world.trace (attemptRequest env s.world c) = .resolved r →
        r.status = 401 →
        (∃ e, (attempt env net c s).1 = .ok (.failure e))
        ∧ (attempt env net c s).2.world.localStorage
            = Dict.remove (Dict.remove s.world.localStorage "token") "user"
        ∧ (attempt env net c s).2.world.navigations = s.world.navigations ++ ["/login"]
        ∧ (attempt env net c s).2.user = s.user) := by
  cases c with
  | login email password =>
    exact credential_call_outcome env net "Login failed" "/auth/login"
      (.obj [("email", .str email), ("password", .str password)]) s
  | register userData =>
    exact credential_call_outcome env net "Registration failed" "/auth/register" userData s

/-- A `login` answered 422 leaves the stored session in place. -/
theorem failed_attempt_keeps_session_unless_401_witness :
    (attempt Scenario.devEnv (Scenario.scripted [.resolved Scenario.fieldErrors])
        (.login "not-an-email" "admin123") Scenario.storedSession).2.world.localStorage
      = Scenario.storedSession.world.localStorage
    ∧ (attempt Scenario.devEnv (Scenario.scripted [.resolved Scenario.fieldErrors])
        (.login "not-an-email" "admin123") Scenario.storedSession).2.world.navigations
      = [] :=
  ((failed_attempt_keeps_session_unless_401 Scenario.devEnv
    (Scenario.scripted [.resolved Scenario.fieldErrors])
    (.login "not-an-email" "admin123") Scenario.storedSession).2.1
      (.str "Network error") (by decide)).2 (by
        intro r hr
        have h : r = Scenario.fieldErrors := by
          have h2 : Scenario.scripted [.resolved Scenario.fieldErrors]
              Scenario.storedSession.world.trace
              (attemptRequest Scenario.devEnv Scenario.storedSession.world
                (.login "not-an-email" "admin123"))
              = .resolved Scenario.fieldErrors := by decide
          rw [h2] at hr
          injection hr with hr
          exact hr.symm
        rw [h]
        decide)

end SrcApp

/-! ## The calls `request` sends (src/App.jsx) -/

namespace RootApp

theorem settle_snd (o : FetchOutcome × World) : (settle o).2 = o.2 := by
  unfold settle
  split <;> rfl

theorem tryRefresh_trace (env : Env) (net : Server) (endpoint : String)
    (config : RequestInit) (r : String) (w : World) :
    ∃ rest, (tryRefresh env net endpoint config r w).2.trace
      = w.trace ++ (refreshRequest env r :: rest) := by
  unfold tryRefresh
  simp only [fetch]
  cases net w.trace
      { url := API_BASE_URL env ++ "/auth/refresh", init := refreshInit r } with
  | rejected => exact ⟨[], rfl⟩
  | resolved rr =>
    simp only []
    split
    · split
      · exact ⟨[], rfl⟩
      · split
        · exact ⟨[], rfl⟩
        · split
          · exact ⟨[], rfl⟩
          · rename_i config2 _
            simp only [settle_snd]
            exact ⟨[{ url := API_BASE_URL env ++ endpoint, init := config2 }],
              by simp [refreshRequest]⟩
    · exact ⟨[], rfl⟩

/-- In development mode the first call `request` issues is the original request. -/
theorem api.request_first_call (env : Env) (net : Server) (endpoint : String)
    (options : RequestInit) (w : World) (hdev : env.NODE_ENV ≠ some "production") :
    ∃ rest, (api.request env net endpoint options w).2.trace
      = w.trace ++ (originalRequest env endpoint options w :: rest) := by
  unfold api.request
  simp only [hdev, if_false, fetch]
  cases net w.trace
      { url := API_BASE_URL env ++ endpoint,
        init := buildConfig (Dict.get w.localStorage "access_token") options } with
  | rejected => exact ⟨[], rfl⟩
  | resolved response =>
    simp only []
    split
    · split
      · rename_i refreshToken _
        split
        · exact ⟨[], rfl⟩
        · obtain ⟨rest, hrest⟩ := tryRefresh_trace env net endpoint
            (buildConfig (Dict.get w.localStorage "access_token") options) refreshToken
            { w with trace := w.trace ++
              [{ url := API_BASE_URL env ++ endpoint,
                 init := buildConfig (Dict.get w.localStorage "access_token") options }] }
          split
          · rename_i result w2 heq
            rw [heq] at hrest
            exact ⟨_, by simpa [originalRequest] using hrest⟩
          · rename_i w2 heq
            rw [heq] at hrest
            exact ⟨_, by simpa [originalRequest, clearAndRedirect] using hrest⟩
      · exact ⟨[], rfl⟩
    · exact ⟨[], rfl⟩

/-- When the caller supplies `headers`, the spread `...options` puts them in place of the
merged header object. -/
theorem buildConfig_of_caller_headers (token : Option String) (options : RequestInit)
    (hs : Dict) (h : options.headers = some hs) :
    (buildConfig token options).headers = some hs := by
  simp [buildConfig, RequestInit.spread, h]

/-- Without caller headers the header object is `Content-Type` followed by the bearer
header, if any. -/
theorem buildConfig_of_no_headers (token : Option String) (options : RequestInit)
    (h : options.headers = none) :
    buildConfig token options =
      { options with
        headers := some (("Content-Type", "application/json") :: authHeader token) } := by
  have hspread : Dict.spread [("Content-Type", "application/json")] (authHeader token)
      = ("Content-Type", "application/json") :: authHeader token := by
    unfold authHeader
    cases token with
    | none => rfl
    | some t =>
      by_cases ht : t = ""
      · simp [ht, Dict.spread]
      · simp [ht, Dict.spread, Dict.set]
  cases options with
  | mk method headers body credentials =>
    simp only at h
    subst h
    simp only [buildConfig, RequestInit.spread, hspread, Option.getD]
    cases method <;> cases body <;> cases credentials <;> rfl

/-- C8, the code at a failing input: with access token `old` stored,
`request('/projects', {headers: {'X-Request-Id': '42'}})` sends a call whose only
header is `X-Request-Id`; it carries neither `Content-Type` nor `Authorization`. -/
theorem caller_headers_replace_default_headers :
    (api.request Scenario.devEnv (Scenario.scripted [.resolved Scenario.projectsOk])
        "/projects" { headers := some [("X-Request-Id", "42")] }
        Scenario.expiredSession).2.trace
      = [ { url := "http://localhost:5000/api/v1/projects",
            init := { headers := some [("X-Request-Id", "42")] } } ]
    ∧ Dict.get Scenario.expiredSession.localStorage "access_token" = some "old"
    ∧ ∀ q ∈ (api.request Scenario.devEnv (Scenario.scripted [.resolved Scenario.projectsOk])
        "/projects" { headers := some [("X-Request-Id", "42")] }
        Scenario.expiredSession).2.trace,
        Dict.get (q.init.headers.getD []) "Content-Type" = none
        ∧ Dict.get (q.init.headers.getD []) "Authorization" = none := by
  decide

/-- C9. In development mode, for every options object without a `headers` field: the
first call goes to `API_BASE_URL ++ endpoint`, with the method and body of the options,
and its headers contain `Content-Type: application/json`, and contain `Authorization`
exactly when `localStorage` holds a non-empty `access_token` `t`, its value then being
`Bearer ` followed by `t`. -/
theorem default_headers_of_first_call (env : Env) (net : Server) (endpoint : String)
    (options : RequestInit) (w : World)
    (hdev : env.NODE_ENV ≠ some "production")
    (hopt : options.headers = none) :
    ∃ hs rest,
      (api.request env net endpoint options w).2.trace
        = w.trace ++
          ({ url := API_BASE_URL env ++ endpoint,
             init := { options with headers := some hs } } :: rest)
      ∧ Dict.get hs "Content-Type" = some "application/json"
      ∧ (∀ t, Dict.get w.localStorage "access_token" = some t → t ≠ "" →
          Dict.get hs "Authorization" = some ("Bearer " ++ t))
      ∧ ((∀ t, Dict.get w.localStorage "access_token" = some t → t = "") →
          Dict.get hs "Authorization" = none) := by
  obtain ⟨rest, hrest⟩ := api.request_first_call env net endpoint options w hdev
  refine ⟨("Content-Type", "application/json") ::
    authHeader (Dict.get w.localStorage "access_token"), rest, ?_, ?_, ?_, ?_⟩
  · rw [hrest, originalRequest, buildConfig_of_no_headers _ _ hopt]
  · simp [Dict.get, List.lookup]
  · intro t ht hne
    rw [ht]
    simp [authHeader, hne, Dict.get, List.lookup]
  · intro hall
    cases ht : Dict.get w.localStorage "access_token" with
    | none => simp [authHeader, Dict.get, List.lookup]
    | some t =>
      have := hall t ht
      subst this
      simp [authHeader, Dict.get, List.lookup]

/-- C9, witness: `request('/projects', {method: 'DELETE'})` with access token `old`
stored. -/
theorem default_headers_of_first_call_witness :
    ∃ hs rest,
      (api.request Scenario.devEnv (Scenario.scripted [.resolved Scenario.projectsOk])
          "/projects" { method := some "DELETE" } Scenario.expiredSession).2.trace
        = Scenario.expiredSession.trace ++
          ({ url := API_BASE_URL Scenario.devEnv ++ "/projects",
             init := { method := some "DELETE", headers := some hs } } :: rest)
      ∧ Dict.get hs "Content-Type" = some "application/json"
      ∧ Dict.get hs "Authorization" = some "Bearer old" :=
  have ⟨hs, rest, h1, h2, h3, _⟩ := default_headers_of_first_call Scenario.devEnv
    (Scenario.scripted [.resolved Scenario.projectsOk]) "/projects"
    { method := some "DELETE" } Scenario.expiredSession (by decide) (by decide)
  ⟨hs, rest, h1, h2, h3 "old" (by decide) (by decide)⟩

/-- C10. In development mode, on a successful refresh (the original call answered 401
with a non-empty refresh token `r` stored, the refresh call answered ok with a body
whose `access_token` is `t`), whatever the retried call gives: `localStorage` differs
from before only in `access_token`, which is now `t`; `refresh_token` is still `r`; and
no navigation has taken place. -/
theorem successful_refresh_stores_access_token_only (env : Env) (net : Server)
    (endpoint : String) (options : RequestInit) (w : World) (r t : String)
    (first refreshResponse : Response) (data : JsVal)
    (hdev : env.NODE_ENV ≠ some "production")
    (hr : Dict.get w.localStorage "refresh_token" = some r) (hr0 : r ≠ "")
    (h1 : net w.trace (originalRequest env endpoint options w) = .resolved first)
    (h401 : first.status = 401)
    (h2 : net (w.trace ++ [originalRequest env endpoint options w]) (refreshRequest env r)
      = .resolved refreshResponse)
    (hok : refreshResponse.ok = true)
    (hbody : refreshResponse.body = .json data)
    (htok : data.getProp "access_token" = .ok (.str t)) :
    (api.request env net endpoint options w).2.localStorage
        = Dict.set w.localStorage "access_token" t
    ∧ Dict.get (api.request env net endpoint options w).2.localStorage "access_token"
        = some t
    ∧ Dict.get (api.request env net endpoint options w).2.localStorage "refresh_token"
        = some r
    ∧ (∀ k, k ≠ "access_token" →
        Dict.get (api.request env net endpoint options w).2.localStorage k
          = Dict.get w.localStorage k)
    ∧ (api.request env net endpoint options w).2.navigations = w.navigations := by
  rw [api.request_of_refreshed env net endpoint options w r first refreshResponse data
    (.str t) hdev hr hr0 h1 h401 h2 hok hbody htok, settle_snd]
  show Dict.set w.localStorage "access_token" t = Dict.set w.localStorage "access_token" t
    ∧ Dict.get (Dict.set w.localStorage "access_token" t) "access_token" = some t
    ∧ Dict.get (Dict.set w.localStorage "access_token" t) "refresh_token" = some r
    ∧ (∀ k, k ≠ "access_token" →
        Dict.get (Dict.set w.localStorage "access_token" t) k = Dict.get w.localStorage k)
    ∧ w.navigations = w.navigations
  refine ⟨rfl, Dict.get_set_self _ _ _, ?_, ?_, rfl⟩
  · rw [Dict.get_set_of_ne _ _ _ _ (by decide), hr]
  · intro k hk
    exact Dict.get_set_of_ne _ _ _ _ hk

/-- C10, witness: tokens `old`/`r1` stored, the call answered 401, the refresh answered
with `new`, the retry answered 401 again. -/
theorem successful_refresh_stores_access_token_only_witness :
    (api.request Scenario.devEnv
        (Scenario.scripted [.resolved Scenario.unauthorized, .resolved Scenario.refreshed,
          .resolved Scenario.unauthorized])
        "/projects" {} Scenario.expiredSession).2.localStorage
      = [("access_token", "new"), ("refresh_token", "r1")]
    ∧ (api.request Scenario.devEnv
        (Scenario.scripted [.resolved Scenario.unauthorized, .resolved Scenario.refreshed,
          .resolved Scenario.unauthorized])
        "/projects" {} Scenario.expiredSession).2.navigations = [] :=
  have h := successful_refresh_stores_access_token_only Scenario.devEnv
    (Scenario.scripted [.resolved Scenario.unauthorized, .resolved Scenario.refreshed,
      .resolved Scenario.unauthorized])
    "/projects" {} Scenario.expiredSession "r1" "new" Scenario.unauthorized
    Scenario.refreshed (.obj [("access_token", .str "new")])
    (by decide) (by decide) (by decide) (by decide) (by decide) (by decide) (by decide)
    (by decide) (by decide)
  ⟨h.1, h.2.2.2.2⟩

theorem buildConfig_method (token : Option String) (options : RequestInit) :
    (buildConfig token options).method = options.method := by
  unfold buildConfig RequestInit.spread
  cases options.method <;> rfl

theorem buildConfig_body (token : Option String) (options : RequestInit) :
    (buildConfig token options).body = options.body := by
  unfold buildConfig RequestInit.spread
  cases options.body <;> rfl

/-- C11. In development mode, for every options object, with or without headers of the
caller: when the original call is answered 401 and the refresh is answered ok with
access token `t`, the third call issued is the retry: it goes to the URL of the original
call, with the method and body of the options, and its `Authorization` header is
`Bearer ` followed by `t`, the token of this refresh, whatever access token was stored
when the call began. -/
theorem retry_carries_refreshed_token (env : Env) (net : Server)
    (endpoint : String) (options : RequestInit) (w : World) (r t : String)
    (first refreshResponse : Response) (data : JsVal)
    (hdev : env.NODE_ENV ≠ some "production")
    (hr : Dict.get w.localStorage "refresh_token" = some r) (hr0 : r ≠ "")
    (h1 : net w.trace (originalRequest env endpoint options w) = .resolved first)
    (h401 : first.status = 401)
    (h2 : net (w.trace ++ [originalRequest env endpoint options w]) (refreshRequest env r)
      = .resolved refreshResponse)
    (hok : refreshResponse.ok = true)
    (hbody : refreshResponse.body = .json data)
    (htok : data.getProp "access_token" = .ok (.str t)) :
    (api.request env net endpoint options w).2.trace
        = w.trace ++ [originalRequest env endpoint options w, refreshRequest env r,
            retryRequest env endpoint options w t]
    ∧ (retryRequest env endpoint options w t).url = API_BASE_URL env ++ endpoint
    ∧ (retryRequest env endpoint options w t).url
        = (originalRequest env endpoint options w).url
    ∧ (retryRequest env endpoint options w t).init.method = options.method
    ∧ (retryRequest env endpoint options w t).init.body = options.body
    ∧ ∃ hs, (retryRequest env endpoint options w t).init.headers = some hs
        ∧ Dict.get hs "Authorization" = some ("Bearer " ++ t) := by
  refine ⟨?_, rfl, rfl, ?_, ?_, ?_⟩
  · rw [api.request_of_refreshed env net endpoint options w r first refreshResponse data
      (.str t) hdev hr hr0 h1 h401 h2 hok hbody htok, settle_snd]
    simp [fetch, JsVal.toStr]
  · exact buildConfig_method _ _
  · exact buildConfig_body _ _
  · obtain ⟨hd, hhd⟩ := buildConfig_headers (Dict.get w.localStorage "access_token") options
    refine ⟨Dict.set hd "Authorization" ("Bearer " ++ t), ?_, Dict.get_set_self _ _ _⟩
    simp [retryRequest, originalRequest, hhd]

/-- C11, witness: a `PUT` with headers of the caller (among them a stale
`Authorization`), answered 401, refreshed with `new`. -/
theorem retry_carries_refreshed_token_witness :
    (api.request Scenario.devEnv
        (Scenario.scripted [.resolved Scenario.unauthorized, .resolved Scenario.refreshed,
          .resolved Scenario.projectsOk])
        "/projects/7"
        { method := some "PUT", body := some "payload",
          headers := some [("Authorization", "Bearer stale"), ("X-Request-Id", "42")] }
        Scenario.expiredSession).2.trace
      = [ { url := "http://localhost:5000/api/v1/projects/7",
            init := { method := some "PUT", body := some "payload",
                      headers := some [("Authorization", "Bearer stale"),
                                       ("X-Request-Id", "42")] } },
          { url := "http://localhost:5000/api/v1/auth/refresh",
            init := { method := some "POST",
                      headers := some [("Content-Type", "application/json"),
                                       ("Authorization", "Bearer r1")] } },
          { url := "http://localhost:5000/api/v1/projects/7",
            init := { method := some "PUT", body := some "payload",
                      headers := some [("Authorization", "Bearer new"),
                                       ("X-Request-Id", "42")] } } ] :=
  (retry_carries_refreshed_token Scenario.devEnv
    (Scenario.scripted [.resolved Scenario.unauthorized, .resolved Scenario.refreshed,
      .resolved Scenario.projectsOk])
    "/projects/7"
    { method := some "PUT", body := some "payload",
      headers := some [("Authorization", "Bearer stale"), ("X-Request-Id", "42")] }
    Scenario.expiredSession "r1" "new" Scenario.unauthorized Scenario.refreshed
    (.obj [("access_token", .str "new")])
    (by decide) (by decide) (by decide) (by decide) (by decide) (by decide) (by decide)
    (by decide) (by decide)).1

/-- C13. In development mode, for every response whose status is not 401: `request`
returns that very response after exactly one network call, the original one, and
`localStorage` and the navigation log are as before. -/
theorem other_status_returns_response_untouched (env : Env) (net : Server)
    (endpoint : String) (options : RequestInit) (w : World) (first : Response)
    (hdev : env.NODE_ENV ≠ some "production")
    (h1 : net w.trace (originalRequest env endpoint options w) = .resolved first)
    (hne : first.status ≠ 401) :
    api.request env net endpoint options w =
      (.ok (some first),
       { localStorage := w.localStorage,
         navigations := w.navigations,
         trace := w.trace ++ [originalRequest env endpoint options w] }) := by
  unfold originalRequest at h1
  simp only [api.request, hdev, if_false, fetch, h1, hne, originalRequest]

/-- C13, witness: `request('/projects')` answered 200 with the list of projects. -/
theorem other_status_returns_response_untouched_witness :
    api.request Scenario.devEnv (Scenario.scripted [.resolved Scenario.projectsOk])
        "/projects" {} Scenario.expiredSession
      = (.ok (some Scenario.projectsOk),
         { localStorage := [("access_token", "old"), ("refresh_token", "r1")],
           navigations := [],
           trace :=
             [ { url := "http://localhost:5000/api/v1/projects",
                 init := { headers := some [("Content-Type", "application/json"),
                                            ("Authorization", "Bearer old")] } } ] }) :=
  other_status_returns_response_untouched Scenario.devEnv
    (Scenario.scripted [.resolved Scenario.projectsOk]) "/projects" {}
    Scenario.expiredSession Scenario.projectsOk (by decide) (by decide) (by decide)

/-- C14. Each helper is one call of `request` followed by `response?.json()`: `get` with
the empty options, `post` with method `POST`, `put` with `PUT`, `delete` with `DELETE`,
`post` and `put` with body `JSON.stringify(data)`. When `request` returns a response
whose body parses to `v` the helper resolves to `v`, and when `request` returns
`undefined` the helper resolves to `undefined` without throwing; in both cases the
helper has no effect of its own. -/
theorem helpers_wrap_one_request (env : Env) (net : Server) (endpoint : String)
    (data : JsVal) (w : World) :
    (api.get env net endpoint w = jsonOf (api.request env net endpoint {} w)
      ∧ api.post env net endpoint data w
          = jsonOf (api.request env net endpoint
              { method := some "POST", body := JSON.stringify data } w)
      ∧ api.put env net endpoint data w
          = jsonOf (api.request env net endpoint
              { method := some "PUT", body := JSON.stringify data } w)
      ∧ api.delete env net endpoint w
          = jsonOf (api.request env net endpoint { method := some "DELETE" } w))
    ∧ (∀ (out : Except Thrown (Option Response) × World) (response : Response) (v : JsVal),
        out.1 = .ok (some response) → response.body = .json v →
          jsonOf out = (.ok v, out.2))
    ∧ (∀ (out : Except Thrown (Option Response) × World),
        out.1 = .ok none → jsonOf out = (.ok .undefined, out.2)) := by
  refine ⟨⟨rfl, rfl, rfl, rfl⟩, ?_, ?_⟩
  · intro out response v h hb
    simp [jsonOf, h, Response.json, hb]
  · intro out h
    simp [jsonOf, h]

theorem setAuthorization_buildConfig (env : Env) (endpoint : String) (options : RequestInit)
    (w : World) (t : String) :
    setAuthorization (buildConfig (Dict.get w.localStorage "access_token") options)
        ("Bearer " ++ t)
      = .ok (retryRequest env endpoint options w t).init := by
  obtain ⟨hd, hhd⟩ := buildConfig_headers (Dict.get w.localStorage "access_token") options
  simp [setAuthorization, hhd, retryRequest, originalRequest]

/-- The calls the `try` block issues: the refresh call, then at most the retry. -/
theorem tryRefresh_issued (env : Env) (net : Server) (endpoint : String)
    (options : RequestInit) (w0 : World) (r : String) (w : World) :
    (tryRefresh env net endpoint
        (buildConfig (Dict.get w0.localStorage "access_token") options) r w).2.trace
      = w.trace ++ [refreshRequest env r]
    ∨ ∃ t, (tryRefresh env net endpoint
        (buildConfig (Dict.get w0.localStorage "access_token") options) r w).2.trace
      = w.trace ++ [refreshRequest env r, retryRequest env endpoint options w0 t] := by
  unfold tryRefresh
  simp only [fetch]
  cases net w.trace
      { url := API_BASE_URL env ++ "/auth/refresh", init := refreshInit r } with
  | rejected => exact Or.inl rfl
  | resolved rr =>
    simp only []
    split
    · split
      · exact Or.inl rfl
      · split
        · exact Or.inl rfl
        · rename_i accessToken _
          rw [setAuthorization_buildConfig env endpoint options w0 accessToken.toStr]
          simp only [settle_snd]
          refine Or.inr ⟨accessToken.toStr, ?_⟩
          simp [refreshRequest, retryRequest, originalRequest]
    · exact Or.inl rfl

/-- The calls one `request` issues in development mode. -/
theorem api.request_issued (env : Env) (net : Server) (endpoint : String)
    (options : RequestInit) (w : World) (hdev : env.NODE_ENV ≠ some "production") :
    (api.request env net endpoint options w).2.trace
      = w.trace ++ [originalRequest env endpoint options w]
    ∨ (∃ r, (api.request env net endpoint options w).2.trace
      = w.trace ++ [originalRequest env endpoint options w, refreshRequest env r])
    ∨ (∃ r t, (api.request env net endpoint options w).2.trace
      = w.trace ++ [originalRequest env endpoint options w, refreshRequest env r,
          retryRequest env endpoint options w t]) := by
  unfold api.request
  simp only [hdev, if_false, fetch]
  cases net w.trace
      { url := API_BASE_URL env ++ endpoint,
        init := buildConfig (Dict.get w.localStorage "access_token") options } with
  | rejected => exact Or.inl rfl
  | resolved response =>
    simp only []
    split
    · split
      · rename_i refreshToken _
        split
        · exact Or.inl rfl
        · have hcases := tryRefresh_issued env net endpoint options w refreshToken
            { w with trace := w.trace ++
              [{ url := API_BASE_URL env ++ endpoint,
                 init := buildConfig (Dict.get w.localStorage "access_token") options }] }
          split
          · rename_i result w2 heq
            rw [heq] at hcases
            rcases hcases with h | ⟨t, h⟩
            · exact Or.inr (Or.inl ⟨refreshToken, by simpa [originalRequest] using h⟩)
            · exact Or.inr (Or.inr ⟨refreshToken, t, by simpa [originalRequest] using h⟩)
          · rename_i w2 heq
            rw [heq] at hcases
            rcases hcases with h | ⟨t, h⟩
            · exact Or.inr (Or.inl ⟨refreshToken,
                by simpa [originalRequest, clearAndRedirect] using h⟩)
            · exact Or.inr (Or.inr ⟨refreshToken, t,
                by simpa [originalRequest, clearAndRedirect] using h⟩)
      · exact Or.inl rfl
    · exact Or.inl rfl

/-- C12. In development mode, for every server: one call of `request` (a total
function, so it always ends) issues the original call, then at most one call to
`/auth/refresh`, then at most one retry of the original call, and nothing else. In
particular, when the retry is answered too (with 401 or any other status), that
response is returned as it is: the calls are those three, the new access token stays
stored next to the refresh token, and there is no navigation. -/
theorem at_most_one_refresh_and_one_retry (env : Env) (net : Server) (endpoint : String)
    (options : RequestInit) (w : World) (hdev : env.NODE_ENV ≠ some "production") :
    ((api.request env net endpoint options w).2.trace
        = w.trace ++ [originalRequest env endpoint options w]
      ∨ (∃ r, (api.request env net endpoint options w).2.trace
        = w.trace ++ [originalRequest env endpoint options w, refreshRequest env r])
      ∨ (∃ r t, (api.request env net endpoint options w).2.trace
        = w.trace ++ [originalRequest env endpoint options w, refreshRequest env r,
            retryRequest env endpoint options w t]))
    ∧ (∀ (r t : String) (first refreshResponse retried : Response) (data : JsVal),
        Dict.get w.localStorage "refresh_token" = some r → r ≠ "" →
        net w.trace (originalRequest env endpoint options w) = .resolved first →
        first.status = 401 →
        net (w.trace ++ [originalRequest env endpoint options w]) (refreshRequest env r)
          = .resolved refreshResponse →
        refreshResponse.ok = true →
        refreshResponse.body = .json data →
        data.getProp "access_token" = .ok (.str t) →
        net (w.trace ++ [originalRequest env endpoint options w, refreshRequest env r])
          (retryRequest env endpoint options w t) = .resolved retried →
        api.request env net endpoint options w =
          (.ok (some retried),
           { localStorage := Dict.set w.localStorage "access_token" t,
             navigations := w.navigations,
             trace := w.trace ++ [originalRequest env endpoint options w,
               refreshRequest env r, retryRequest env endpoint options w t] })
        ∧ Dict.get (Dict.set w.localStorage "access_token" t) "access_token" = some t
        ∧ Dict.get (Dict.set w.localStorage "access_token" t) "refresh_token" = some r) := by
  refine ⟨api.request_issued env net endpoint options w hdev, ?_⟩
  intro r t first refreshResponse retried data hr hr0 h1 h401 h2 hok hbody htok h3
  refine ⟨?_, Dict.get_set_self _ _ _, ?_⟩
  · rw [api.request_of_refreshed env net endpoint options w r first refreshResponse data
      (.str t) hdev hr hr0 h1 h401 h2 hok hbody htok]
    simp only [JsVal.toStr, settle, fetch, h3, List.append_assoc, List.cons_append,
      List.nil_append]
  · rw [Dict.get_set_of_ne _ _ _ _ (by decide), hr]

/-- C12, witness: the call, the refresh and the retry, the retry answered 401 again. -/
theorem at_most_one_refresh_and_one_retry_witness :
    api.request Scenario.devEnv
        (Scenario.scripted [.resolved Scenario.unauthorized, .resolved Scenario.refreshed,
          .resolved Scenario.unauthorized, .resolved Scenario.refreshed,
          .resolved Scenario.projectsOk])
        "/projects" {} Scenario.expiredSession
      = (.ok (some Scenario.unauthorized),
         { localStorage := [("access_token", "new"), ("refresh_token", "r1")],
           navigations := [],
           trace :=
             [ { url := "http://localhost:5000/api/v1/projects",
                 init := { headers := some [("Content-Type", "application/json"),
                                            ("Authorization", "Bearer old")] } },
               { url := "http://localhost:5000/api/v1/auth/refresh",
                 init := { method := some "POST",
                           headers := some [("Content-Type", "application/json"),
                                            ("Authorization", "Bearer r1")] } },
               { url := "http://localhost:5000/api/v1/projects",
                 init := { headers := some [("Content-Type", "application/json"),
                                            ("Authorization", "Bearer new")] } } ] }) :=
  ((at_most_one_refresh_and_one_retry Scenario.devEnv
    (Scenario.scripted [.resolved Scenario.unauthorized, .resolved Scenario.refreshed,
      .resolved Scenario.unauthorized, .resolved Scenario.refreshed,
      .resolved Scenario.projectsOk])
    "/projects" {} Scenario.expiredSession (by decide)).2 "r1" "new" Scenario.unauthorized
    Scenario.refreshed Scenario.unauthorized (.obj [("access_token", .str "new")])
    (by decide) (by decide) (by decide) (by decide) (by decide) (by decide) (by decide)
    (by decide) (by decide)).1

end RootApp

/-! ## The route guards of src/App.jsx -/

namespace RootApp

/-- C17. For every children value and every context a route is rendered in, whatever
its location: `ProtectedRoute` returns its children when `isAuthenticated` is true and
otherwise `<Navigate to="/login" replace />`; `PublicRoute` returns its children when
`isAuthenticated` is false and otherwise `<Navigate to="/dashboard" replace />`; two
contexts with the same `isAuthenticated` give the same result. -/
theorem route_guards_depend_on_isAuthenticated {α : Type} (ctx : RouteContext)
    (children : α) :
    (ctx.auth.isAuthenticated = true → ProtectedRoute ctx children = .children children)
    ∧ (ctx.auth.isAuthenticated = false →
        ProtectedRoute ctx children = .navigate "/login" true)
    ∧ (ctx.auth.isAuthenticated = false → PublicRoute ctx children = .children children)
    ∧ (ctx.auth.isAuthenticated = true →
        PublicRoute ctx children = .navigate "/dashboard" true)
    ∧ (∀ ctx2 : RouteContext, ctx2.auth.isAuthenticated = ctx.auth.isAuthenticated →
        ProtectedRoute ctx2 children = ProtectedRoute ctx children
        ∧ PublicRoute ctx2 children = PublicRoute ctx children) := by
  refine ⟨?_, ?_, ?_, ?_, ?_⟩
  · intro h; simp [ProtectedRoute, h]
  · intro h; simp [ProtectedRoute, h]
  · intro h; simp [PublicRoute, h]
  · intro h; simp [PublicRoute, h]
  · intro ctx2 h
    simp [ProtectedRoute, PublicRoute, h]

end RootApp

/-! ## The registration form -/

theorem jsLength_of_basic_plane (cs : List Char) (h : ∀ c ∈ cs, c.toNat < 65536) :
    (cs.map (fun c => if c.toNat < 65536 then 1 else 2)).sum = cs.length := by
  induction cs with
  | nil => rfl
  | cons c rest ih =>
    have hc : c.toNat < 65536 := h c (List.mem_cons_self _ _)
    have hrest := ih (fun d hd => h d (List.mem_cons_of_mem _ hd))
    simp only [List.map_cons, List.sum_cons, hc, if_true, hrest, List.length_cons]
    omega

namespace RegisterPage

/-- C15. For every string `p`, `validatePassword(p)` has `minLength` true exactly when
the length of `p` (in UTF-16 code units, as `p.length` counts; the number of characters
when all are in the basic plane) is at least 8, `hasUpper` exactly when `p` contains a
character from `A` to `Z`, `hasLower` exactly when it contains one from `a` to `z`,
`hasNumber` exactly when it contains one from `0` to `9`, and `isValid` is the
conjunction of the four. `Abcdefg1` meets all four rules, `abcdefg1` fails `hasUpper`
only, `Abc1` fails `minLength` only. -/
theorem validatePassword_rules (p : String) :
    ((validatePassword p).minLength = true ↔ 8 ≤ jsLength p)
    ∧ ((∀ c ∈ p.toList, c.toNat < 65536) → jsLength p = p.length)
    ∧ ((validatePassword p).hasUpper = true ↔ ∃ c ∈ p.toList, 'A' ≤ c ∧ c ≤ 'Z')
    ∧ ((validatePassword p).hasLower = true ↔ ∃ c ∈ p.toList, 'a' ≤ c ∧ c ≤ 'z')
    ∧ ((validatePassword p).hasNumber = true ↔ ∃ c ∈ p.toList, '0' ≤ c ∧ c ≤ '9')
    ∧ (validatePassword p).isValid
        = ((validatePassword p).minLength && (validatePassword p).hasUpper
            && (validatePassword p).hasLower && (validatePassword p).hasNumber)
    ∧ validatePassword "Abcdefg1"
        = { minLength := true, hasUpper := true, hasLower := true, hasNumber := true,
            isValid := true }
    ∧ validatePassword "abcdefg1"
        = { minLength := true, hasUpper := false, hasLower := true, hasNumber := true,
            isValid := false }
    ∧ validatePassword "Abc1"
        = { minLength := false, hasUpper := true, hasLower := true, hasNumber := true,
            isValid := false } := by
  refine ⟨?_, ?_, ?_, ?_, ?_, rfl, by decide, by decide, by decide⟩
  · simp [validatePassword]
  · intro h
    exact jsLength_of_basic_plane p.toList h
  · simp [validatePassword, List.any_eq_true]
  · simp [validatePassword, List.any_eq_true]
  · simp [validatePassword, List.any_eq_true]

/-- C16. `handleSubmit` calls `register` exactly when the two passwords are equal and
the password is valid. When they differ the error is `Passwords do not match`, whether
or not the password is valid; when they are equal and the password is not valid the
error is `Password does not meet requirements`; in both cases the handler ends without
calling `register`, whatever `register` is. When `register` is called it is called once,
with the object holding `email`, `password`, `first_name` and `last_name` of the form
data and no `confirmPassword`. -/
theorem handleSubmit_guards_register (p : PageState) :
    (p.formData.password ≠ p.formData.confirmPassword →
      ∀ (σ : Type) (register : JsVal → σ → Except Thrown AuthResult × σ) (s : σ),
        handleSubmit register p s
          = (.ok (), { p with error := .str "Passwords do not match", loading := false }, s))
    ∧ (p.formData.password = p.formData.confirmPassword →
        (validatePassword p.formData.password).isValid = false →
        ∀ (σ : Type) (register : JsVal → σ → Except Thrown AuthResult × σ) (s : σ),
          handleSubmit register p s
            = (.ok (), { p with error := .str "Password does not meet requirements",
                                loading := false }, s))
    ∧ (∀ result : AuthResult,
        (handleSubmit (recording result) p []).2.2
          = if p.formData.password = p.formData.confirmPassword
                ∧ (validatePassword p.formData.password).isValid = true
            then [userDataOf p.formData] else [])
    ∧ (userDataOf p.formData).getProp "email" = .ok (.str p.formData.email)
    ∧ (userDataOf p.formData).getProp "password" = .ok (.str p.formData.password)
    ∧ (userDataOf p.formData).getProp "first_name" = .ok (.str p.formData.first_name)
    ∧ (userDataOf p.formData).getProp "last_name" = .ok (.str p.formData.last_name)
    ∧ (userDataOf p.formData).getProp "confirmPassword" = .ok .undefined := by
  refine ⟨?_, ?_, ?_, rfl, rfl, rfl, rfl, rfl⟩
  · intro hne σ register s
    simp [handleSubmit, hne]
  · intro heq hinv σ register s
    have hinv2 := hinv
    rw [heq] at hinv2
    simp [handleSubmit, heq, hinv2]
  · intro result
    by_cases heq : p.formData.password = p.formData.confirmPassword
    · cases hv : (validatePassword p.formData.password).isValid
      · have hv2 := hv
        rw [heq] at hv2
        simp [handleSubmit, heq, hv2]
      · have hv2 := hv
        rw [heq] at hv2
        cases result <;> simp [handleSubmit, heq, hv2, recording]
    · simp [handleSubmit, heq]

end RegisterPage

/-! ## The initial mount -/

namespace SrcApp

/-- The outcome of `api.get` by the answer of the server. -/
theorem api.get_eq (env : Env) (net : Server) (endpoint : String) (w : World) :
    api.get env net endpoint w =
      match net w.trace (getRequest env w endpoint) with
      | .rejected =>
        (.error (.error "AxiosError" "Network Error"),
         { w with trace := w.trace ++ [getRequest env w endpoint] })
      | .resolved r =>
        if 200 ≤ r.status ∧ r.status < 300 then
          (.ok (responseData r), { w with trace := w.trace ++ [getRequest env w endpoint] })
        else
          onResponseError r { w with trace := w.trace ++ [getRequest env w endpoint] } := by
  simp only [api.get, fetch]
  cases h : net w.trace (getRequest env w endpoint) <;> rfl

theorem api.get_trace (env : Env) (net : Server) (endpoint : String) (w : World) :
    (api.get env net endpoint w).2.trace = w.trace ++ [getRequest env w endpoint] := by
  rw [api.get_eq]
  split
  · rfl
  · split
    · rfl
    · simp only [onResponseError]
      split <;> rfl

theorem get_invalid_token (d : Dict) :
    Dict.get (Dict.remove (Dict.remove d "token") "user") "token" = none := by
  rw [Dict.get_remove_of_ne _ _ _ (by decide), Dict.get_remove_self]

theorem get_invalid_user (d : Dict) :
    Dict.get (Dict.remove (Dict.remove d "token") "user") "user" = none :=
  Dict.get_remove_self _ _

end SrcApp

theorem RootApp.mountEffect_loading (s : AuthState) (h : s.loading = true) :
    ((RootApp.mountEffect s).2 = true → (RootApp.mountEffect s).1.loading = true)
    ∧ ((RootApp.mountEffect s).2 = false → (RootApp.mountEffect s).1.loading = false) := by
  unfold RootApp.mountEffect
  split
  · split
    · simp
    · simp [h]
  · simp

theorem SrcApp.cachedMountEffect_loading (parse : String → Except Thrown JsVal)
    (s s2 : AuthState) (started : Bool) (h : s.loading = true)
    (heff : SrcApp.mountEffect parse s = .ok (s2, started)) :
    (started = true → s2.loading = true) ∧ (started = false → s2.loading = false) := by
  unfold SrcApp.mountEffect at heff
  simp only at heff
  split at heff
  · split at heff
    · simp at heff
    · simp at heff
      obtain ⟨h1, h2⟩ := heff
      subst h1
      subst h2
      simp [h]
  · simp at heff
    obtain ⟨h1, h2⟩ := heff
    subst h1
    subst h2
    simp

/-- C18. In both variants: the component starts with `loading` true; whenever `loading`
is true it renders the loading indicator alone, not the routes; the mount effect sets
`loading` to false at once exactly when it starts no verification, and leaves it true
while the verification it started is pending; and once the verification has settled,
whatever its outcome, `loading` is false. -/
theorem loading_gates_rendering (env : Env) (net : Server) (w : World)
    (parse : String → Except Thrown JsVal) :
    ((RootApp.initialState w).loading = true
      ∧ (∀ s : AuthState, s.loading = true → RootApp.render s = .loadingSpinner)
      ∧ (∀ s : AuthState, s.loading = true →
          ((RootApp.mountEffect s).2 = true → (RootApp.mountEffect s).1.loading = true)
          ∧ ((RootApp.mountEffect s).2 = false → (RootApp.mountEffect s).1.loading = false))
      ∧ (∀ s : AuthState, (RootApp.verificationSettled env net s).loading = false)
      ∧ (RootApp.mount env net w).loading = false)
    ∧ ((SrcApp.initialState w).loading = true
      ∧ (∀ s : AuthState, s.loading = true → SrcApp.render s = .loadingSpinner)
      ∧ (∀ (s s2 : AuthState) (started : Bool), s.loading = true →
          SrcApp.mountEffect parse s = .ok (s2, started) →
          (started = true → s2.loading = true) ∧ (started = false → s2.loading = false))
      ∧ (∀ s : AuthState, (SrcApp.verificationSettled env net s).loading = false)
      ∧ (∀ s : AuthState, SrcApp.mount parse env net w = .ok s → s.loading = false)) := by
  refine ⟨⟨rfl, ?_, ?_, ?_, ?_⟩, ⟨rfl, ?_, ?_, ?_, ?_⟩⟩
  · intro s h
    simp [RootApp.render, h]
  · intro s h
    exact RootApp.mountEffect_loading s h
  · intro s
    rfl
  · have hm := RootApp.mountEffect_loading (RootApp.initialState w) rfl
    cases hst : (RootApp.mountEffect (RootApp.initialState w)).2
    · simp only [RootApp.mount, hst]
      exact hm.2 hst
    · simp only [RootApp.mount, hst, if_true]
      rfl
  · intro s h
    simp [SrcApp.render, h]
  · intro s s2 started h heff
    exact SrcApp.cachedMountEffect_loading parse s s2 started h heff
  · intro s
    rfl
  · intro s hs
    unfold SrcApp.mount at hs
    cases heff : SrcApp.mountEffect parse (SrcApp.initialState w) with
    | error e => simp [heff] at hs
    | ok started =>
      obtain ⟨s2, st⟩ := started
      have hm := SrcApp.cachedMountEffect_loading parse (SrcApp.initialState w) s2 st rfl heff
      simp only [heff] at hs
      cases st
      · simp at hs
        subst hs
        exact hm.2 rfl
      · simp at hs
        subst hs
        rfl

namespace SrcApp

/-- C19, counterexample: with `token` stored and no cached profile, against a server
that would answer 401, the mount of `App` issues no call at all, leaves `token` in
`localStorage`, and ends with `user` null and `loading` false. -/
theorem token_without_profile_is_not_verified :
    mount Scenario.parseCached Scenario.devEnv
        (Scenario.scripted [.resolved Scenario.unauthorized]) Scenario.tokenOnly
      = .ok { world := { localStorage := [("token", "tok")], navigations := [],
                           trace := [] },
              user := .null, loading := false }
    ∧ Dict.get Scenario.tokenOnly.localStorage "token" = some "tok" := by
  decide

/-- The call `api.get('/auth/profile')` hands to the network when a truthy `token` is
stored: a `GET` of `/auth/profile` under the base URL with the bearer header. -/
theorem getRequest_profile (env : Env) (w : World) (token : String)
    (htok : Dict.get w.localStorage "token" = some token) (htok0 : token ≠ "") :
    getRequest env w "/auth/profile"
      = { url := combineURLs (API_BASE_URL env) "/auth/profile",
          init := { method := some "GET",
                    headers := some [("Authorization", "Bearer " ++ token)] } } := by
  simp [getRequest, requestInterceptor, htok, htok0, Dict.set]

/-- C19, amended. For the initial mount of `App` in src/src/App.jsx, for every persisted
state in which `token` is stored. If the token is not empty and a cached profile `user`
is stored too, non-empty and JSON text, then the mount effect restores the cached profile into `user`
and starts the verification; the mount issues exactly one call, a `GET` of
`/auth/profile` under the base URL with the header `Authorization: Bearer <token>`, and
ends with `loading` false; and if the verification fails (the call is rejected, or
answered with a status outside 200 to 299, or answered with a body that has no readable
`user`) then afterwards `token` and `user` are not in `localStorage` and `user` is null.
If no cached profile is stored, or an empty one, then the mount issues no call at all:
the browser state is as it was, `token` still stored, `user` is null and `loading` is
false. -/
theorem mount_verifies_cached_session (parse : String → Except Thrown JsVal) (env : Env)
    (net : Server) (w : World) (token : String)
    (htok : Dict.get w.localStorage "token" = some token) :
    (∀ (storedUser : String) (u : JsVal), token ≠ "" →
        Dict.get w.localStorage "user" = some storedUser → storedUser ≠ "" →
        parse storedUser = .ok u →
        mountEffect parse (initialState w) = .ok ({ initialState w with user := u }, true)
        ∧ ∃ s, mount parse env net w = .ok s
            ∧ s.world.trace = w.trace ++
                [{ url := combineURLs (API_BASE_URL env) "/auth/profile",
                   init := { method := some "GET",
                             headers := some [("Authorization", "Bearer " ++ token)] } }]
            ∧ s.loading = false
            ∧ ((net w.trace
                    { url := combineURLs (API_BASE_URL env) "/auth/profile",
                      init := { method := some "GET",
                                headers := some [("Authorization", "Bearer " ++ token)] } }
                  = .rejected
                ∨ (∃ r, net w.trace
                    { url := combineURLs (API_BASE_URL env) "/auth/profile",
                      init := { method := some "GET",
                                headers := some [("Authorization", "Bearer " ++ token)] } }
                    = .resolved r
                  ∧ (¬ (200 ≤ r.status ∧ r.status < 300)
                    ∨ ∃ e, (responseData r).getProp "user" = .error e))) →
                Dict.get s.world.localStorage "token" = none
                ∧ Dict.get s.world.localStorage "user" = none
                ∧ s.user = .null))
    ∧ ((Dict.get w.localStorage "user" = none ∨ Dict.get w.localStorage "user" = some "") →
        mountEffect parse (initialState w)
          = .ok ({ initialState w with loading := false }, false)
        ∧ mount parse env net w = .ok { world := w, user := .null, loading := false }
        ∧ Dict.get w.localStorage "token" = some token) := by
  refine ⟨?_, ?_⟩
  · intro storedUser u htok0 huser huser0 hparse
    have hreq := getRequest_profile env w token htok htok0
    have heff : mountEffect parse (initialState w)
        = .ok ({ initialState w with user := u }, true) := by
      simp [mountEffect, initialState, htok, huser, htok0, huser0, hparse]
    refine ⟨heff, verificationSettled env net { initialState w with user := u },
      ?_, ?_, rfl, ?_⟩
    · simp [mount, heff]
    · rw [← hreq]
      simp only [verificationSettled, initialState]
      split
      · split
        · rename_i s3 hs3
          simp only [onProfile] at hs3
          split at hs3
          · simp at hs3
          · simp at hs3
            subst hs3
            exact api.get_trace env net "/auth/profile" w
        · exact api.get_trace env net "/auth/profile" w
      · exact api.get_trace env net "/auth/profile" w
    · rw [← hreq]
      intro hfail
      have hres : (∃ t, (api.get env net "/auth/profile" w).1 = .error t)
          ∨ (∃ data e, (api.get env net "/auth/profile" w).1 = .ok data
              ∧ data.getProp "user" = .error e) := by
        rw [api.get_eq]
        rcases hfail with hrej | ⟨r, hr, hbad⟩
        · left
          simp [hrej]
        · by_cases h2 : 200 ≤ r.status ∧ r.status < 300
          · rcases hbad with hb | ⟨e, he⟩
            · exact absurd h2 hb
            · right
              exact ⟨responseData r, e, by simp [hr, h2], he⟩
          · left
            simp only [hr, h2, if_false, onResponseError]
            exact ⟨_, rfl⟩
      rcases hres with ⟨t, ht⟩ | ⟨data, e, hd, he⟩
      · simp only [verificationSettled, initialState, ht, onInvalid]
        exact ⟨get_invalid_token _, get_invalid_user _, trivial⟩
      · simp only [verificationSettled, initialState, hd, onProfile, he, onInvalid]
        exact ⟨get_invalid_token _, get_invalid_user _, trivial⟩
  · intro hnone
    have heff : mountEffect parse (initialState w)
        = .ok ({ initialState w with loading := false }, false) := by
      rcases hnone with h | h <;> simp [mountEffect, initialState, h]
    refine ⟨heff, ?_, htok⟩
    unfold mount
    rw [heff]
    rfl

/-- C19, witness: the stored session of the administrator, the verification answered
401: the one call is `GET http://localhost:8000/api/v1/auth/profile` with the bearer
token, and the session is cleared. -/
theorem mount_verifies_cached_session_witness :
    (mountEffect Scenario.parseCached (initialState Scenario.storedSession.world)
        = .ok ({ initialState Scenario.storedSession.world with
                 user := Scenario.adminUser }, true)
      ∧ ∃ s, mount Scenario.parseCached Scenario.devEnv
            (Scenario.scripted [.resolved Scenario.unauthorized])
            Scenario.storedSession.world = .ok s
          ∧ s.world.trace = Scenario.storedSession.world.trace ++
              [{ url := combineURLs (API_BASE_URL Scenario.devEnv) "/auth/profile",
                 init := { method := some "GET",
                           headers := some [("Authorization", "Bearer " ++ "tok")] } }]
          ∧ s.loading = false)
    ∧ mount Scenario.parseCached Scenario.devEnv
        (Scenario.scripted [.resolved Scenario.unauthorized]) Scenario.storedSession.world
      = .ok { world :=
                { localStorage := [], navigations := ["/login"],
                  trace := [{ url := "http://localhost:8000/api/v1/auth/profile",
                              init := { method := some "GET",
                                        headers := some [("Authorization", "Bearer tok")] } }] },
              user := .null, loading := false } :=
  ⟨by
    obtain ⟨h1, s, h2, h3, h4, _⟩ :=
      (mount_verifies_cached_session Scenario.parseCached Scenario.devEnv
        (Scenario.scripted [.resolved Scenario.unauthorized]) Scenario.storedSession.world
        "tok" (by decide)).1
        ((JSON.stringify Scenario.adminUser).getD "") Scenario.adminUser
        (by decide) (by decide) (by decide) (by decide)
    exact ⟨h1, s, h2, h3, h4⟩,
   by decide⟩

end SrcApp

/-! ## The session invariant of src/App.jsx -/

namespace RootApp

theorem settle_fst_ne (o : FetchOutcome × World) : (settle o).1 ≠ .ok none := by
  unfold settle
  split <;> simp

/-- What the `try` block does to the browser: no navigation, and the storage is as it was
or has a new access token. -/
theorem tryRefresh_effect (env : Env) (net : Server) (endpoint : String)
    (config : RequestInit) (r : String) (w : World) :
    (tryRefresh env net endpoint config r w).2.navigations = w.navigations
    ∧ ((tryRefresh env net endpoint config r w).2.localStorage = w.localStorage
      ∨ ∃ t, (tryRefresh env net endpoint config r w).2.localStorage
          = Dict.set w.localStorage "access_token" t)
    ∧ (tryRefresh env net endpoint config r w).1 ≠ some (.ok none) := by
  unfold tryRefresh
  simp only [fetch]
  cases net w.trace
      { url := API_BASE_URL env ++ "/auth/refresh", init := refreshInit r } with
  | rejected => exact ⟨rfl, Or.inl rfl, by simp⟩
  | resolved rr =>
    simp only []
    split
    · split
      · exact ⟨rfl, Or.inl rfl, by simp⟩
      · split
        · exact ⟨rfl, Or.inl rfl, by simp⟩
        · split
          · exact ⟨rfl, Or.inr ⟨_, rfl⟩, by simp⟩
          · rename_i accessToken _ _ config2 _
            refine ⟨?_, Or.inr ⟨accessToken.toStr, ?_⟩, ?_⟩
            · rw [settle_snd]
            · rw [settle_snd]
            · intro h
              injection h with h
              exact settle_fst_ne _ h
    · exact ⟨rfl, Or.inl rfl, by simp⟩

/-- What one `request` does to the browser, in either mode: it returns something other
than `undefined` without navigating, the storage being as it was or, if a non-empty
refresh token was stored, having a new access token; or it returns `undefined`, has
navigated to `/login`, and both tokens are gone. -/
theorem api.request_effect (env : Env) (net : Server) (endpoint : String)
    (options : RequestInit) (w : World) :
    ((api.request env net endpoint options w).1 ≠ .ok none
      ∧ (api.request env net endpoint options w).2.navigations = w.navigations
      ∧ ((api.request env net endpoint options w).2.localStorage = w.localStorage
        ∨ ∃ r t, Dict.get w.localStorage "refresh_token" = some r ∧ r ≠ ""
            ∧ (api.request env net endpoint options w).2.localStorage
                = Dict.set w.localStorage "access_token" t))
    ∨ ((api.request env net endpoint options w).1 = .ok none
      ∧ (api.request env net endpoint options w).2.navigations
          = w.navigations ++ ["/login"]
      ∧ Dict.get (api.request env net endpoint options w).2.localStorage "access_token"
          = none
      ∧ Dict.get (api.request env net endpoint options w).2.localStorage "refresh_token"
          = none) := by
  unfold api.request
  split
  · exact Or.inl ⟨by simp, rfl, Or.inl rfl⟩
  · simp only [fetch]
    cases net w.trace
        { url := API_BASE_URL env ++ endpoint,
          init := buildConfig (Dict.get w.localStorage "access_token") options } with
    | rejected => exact Or.inl ⟨by simp, rfl, Or.inl rfl⟩
    | resolved response =>
      simp only []
      split
      · split
        · rename_i refreshToken hrt
          split
          · exact Or.inr ⟨rfl, rfl, get_cleared_access _, get_cleared_refresh _⟩
          · rename_i hne
            obtain ⟨hnav, hls, hres⟩ := tryRefresh_effect env net endpoint
              (buildConfig (Dict.get w.localStorage "access_token") options) refreshToken
              { w with trace := w.trace ++
                [{ url := API_BASE_URL env ++ endpoint,
                   init := buildConfig (Dict.get w.localStorage "access_token") options }] }
            split
            · rename_i result w2 heq
              rw [heq] at hnav hls hres
              refine Or.inl ⟨?_, hnav, ?_⟩
              · intro h
                apply hres
                simp only at h
                rw [h]
              · rcases hls with h | ⟨t, h⟩
                · exact Or.inl h
                · exact Or.inr ⟨refreshToken, t, hrt, hne, h⟩
            · rename_i w2 heq
              rw [heq] at hnav
              refine Or.inr ⟨rfl, ?_, get_cleared_access _, get_cleared_refresh _⟩
              simp only [clearAndRedirect]
              simp only at hnav
              rw [hnav]
        · exact Or.inr ⟨rfl, rfl, get_cleared_access _, get_cleared_refresh _⟩
      · exact Or.inl ⟨by simp, rfl, Or.inl rfl⟩

theorem inv_of_signed_out (s : AuthState) (hu : s.user = .null)
    (ha : Dict.get s.world.localStorage "access_token" = none)
    (hr : ∀ r, Dict.get s.world.localStorage "refresh_token" = some r → r = "") :
    SessionInvariant s := by
  refine ⟨Or.inl hu, ?_, fun _ => hr⟩
  simp [hu, JsVal.truthy, hasAccessToken, ha]

theorem inv_of_signed_in (s : AuthState) (hu : s.user.truthy = true)
    (ha : hasAccessToken s.world.localStorage) : SessionInvariant s :=
  ⟨Or.inr hu, ⟨fun _ => ha, fun _ => hu⟩, fun h => absurd ha h⟩

theorem inv_congr (s s2 : AuthState) (hu : s2.user = s.user)
    (hl : s2.world.localStorage = s.world.localStorage) (h : SessionInvariant s) :
    SessionInvariant s2 := by
  unfold SessionInvariant at h ⊢
  rw [hu, hl]
  exact h

theorem inv_dropTokens (s : AuthState) (hu : s.user = .null) :
    SessionInvariant (dropTokens s) := by
  apply inv_of_signed_out
  · exact hu
  · exact get_cleared_access _
  · intro r hr
    have := get_cleared_refresh s.world.localStorage
    simp only [dropTokens] at hr
    rw [this] at hr
    cases hr

theorem hasAccessToken_set (d : Dict) (t : String) :
    hasAccessToken (Dict.set d "access_token" t) := by
  simp [hasAccessToken, Dict.get_set_self]

theorem optProp_undefined (key : String) : (JsVal.undefined.optProp key).truthy = false := rfl

/-- A verification that yields a truthy `user` has left an access token in place. -/
theorem api.get_keeps_token (env : Env) (net : Server) (endpoint : String) (w : World)
    (data : JsVal) (h : (api.get env net endpoint w).1 = .ok data)
    (ht : (data.optProp "user").truthy = true) (ha : hasAccessToken w.localStorage) :
    hasAccessToken (api.get env net endpoint w).2.localStorage := by
  unfold api.get at h ⊢
  rcases api.request_effect env net endpoint {} w with ⟨_, _, hls⟩ | ⟨hnone, _, _, _⟩
  · have hsnd : (jsonOf (api.request env net endpoint {} w)).2
        = (api.request env net endpoint {} w).2 := by
      unfold jsonOf
      split <;> rfl
    rw [hsnd]
    rcases hls with h1 | ⟨r, t, _, _, h1⟩
    · rw [h1]; exact ha
    · rw [h1]; exact hasAccessToken_set _ _
  · simp only [jsonOf, hnone] at h
    injection h with h
    subst h
    simp [JsVal.optProp, JsVal.truthy] at ht

theorem verificationSettled_inv (env : Env) (net : Server) (s : AuthState)
    (hu : s.user = .null) (ha : hasAccessToken s.world.localStorage) :
    SessionInvariant (verificationSettled env net s) := by
  unfold verificationSettled
  simp only []
  cases hr : (api.get env net "/auth/profile" s.world).1 with
  | error e =>
    simp only []
    exact inv_congr _ _ rfl rfl (inv_dropTokens { s with
      world := (api.get env net "/auth/profile" s.world).2 } hu)
  | ok data =>
    simp only []
    by_cases ht : (data.optProp "user").truthy = true
    · simp only [ht, if_true]
      apply inv_of_signed_in
      · exact ht
      · exact api.get_keeps_token env net "/auth/profile" s.world data hr ht ha
    · simp only [ht]
      exact inv_congr _ _ rfl rfl (inv_dropTokens { s with
        world := (api.get env net "/auth/profile" s.world).2 } hu)

/-- The initial mount, and every reload, establishes the invariant on a clean storage. -/
theorem mount_inv (env : Env) (net : Server) (w : World) (hP : CleanStorage w.localStorage) :
    SessionInvariant (mount env net w) := by
  unfold mount mountEffect
  simp only [initialState]
  cases htok : Dict.get w.localStorage "access_token" with
  | none =>
    simp only []
    apply inv_of_signed_out
    · rfl
    · exact htok
    · exact hP.2 htok
  | some token =>
    simp only []
    by_cases he : token = ""
    · subst he
      exact absurd htok hP.1
    · simp only [he, if_false, if_true]
      apply verificationSettled_inv
      · rfl
      · simp [hasAccessToken, htok]

/-- The two ways a credential call can leave the provider: user and storage untouched,
or the user and both tokens of an ok response stored. -/
theorem handleAuthResponse_cases (fallback : String) (o : FetchOutcome × World)
    (s : AuthState) :
    (handleAuthResponse fallback o s).2 = { s with world := o.2 }
    ∨ ∃ resp data a r u, o.1 = .resolved resp ∧ resp.ok = true ∧ resp.body = .json data
        ∧ data.getProp "user" = .ok u
        ∧ (handleAuthResponse fallback o s).2 =
          { s with
            world := { o.2 with
              localStorage :=
                Dict.set (Dict.set o.2.localStorage "access_token" a) "refresh_token" r },
            user := u } := by
  unfold handleAuthResponse
  cases ho : o.1 with
  | rejected => exact Or.inl rfl
  | resolved response =>
    simp only []
    cases hb : response.body with
    | text raw => simp [Response.json, hb]
    | json data =>
      simp only [Response.json, hb]
      cases hok : response.ok with
      | false =>
        simp only [Bool.false_eq_true, if_false]
        split <;> exact Or.inl rfl
      | true =>
        simp only [if_true]
        cases ha : data.getProp "access_token" with
        | error e => exact Or.inl rfl
        | ok accessToken =>
          obtain ⟨rt, hrt⟩ := SrcApp.getProp_ok_any data "access_token" "refresh_token"
            accessToken ha
          obtain ⟨u, hu⟩ := SrcApp.getProp_ok_any data "access_token" "user" accessToken ha
          simp only [hrt, hu]
          exact Or.inr ⟨response, data, accessToken.toStr, rt.toStr, u, rfl, hok, hb, hu, rfl⟩

theorem catchNetworkError_snd (x : Except Thrown AuthResult × AuthState) :
    (catchNetworkError x).2 = x.2 := by
  unfold catchNetworkError
  split <;> rfl

theorem attempt_inv (env : Env) (net : Server) (c : AuthAttempt) (s : AuthState)
    (hS : ServerSendsUser env net) (h : SessionInvariant s) :
    SessionInvariant (attempt env net c s).2 := by
  have key : ∀ (fallback : String) (req : Request),
      (req.url = API_BASE_URL env ++ "/auth/login"
        ∨ req.url = API_BASE_URL env ++ "/auth/register") →
      SessionInvariant (catchNetworkError (handleAuthResponse fallback
        (fetch net req.url req.init s.world) s)).2 := by
    intro fallback req hurl
    rw [catchNetworkError_snd]
    rcases handleAuthResponse_cases fallback (fetch net req.url req.init s.world) s with
      h1 | ⟨resp, data, a, r, u, ho, hok, hb, hu, h1⟩
    · rw [h1]
      exact inv_congr _ _ rfl rfl h
    · rw [h1]
      apply inv_of_signed_in
      · exact hS s.world.trace req resp data u ho hurl hok hb hu
      · show hasAccessToken (Dict.set (Dict.set _ "access_token" a) "refresh_token" r)
        simp [hasAccessToken, Dict.get_set_of_ne, Dict.get_set_self]
  cases c with
  | login email password =>
    exact key "Login failed" (attemptRequest env (.login email password)) (Or.inl rfl)
  | register userData =>
    exact key "Registration failed" (attemptRequest env (.register userData)) (Or.inr rfl)

theorem logout_inv (s : AuthState) : SessionInvariant (logout s) := by
  apply inv_of_signed_out
  · rfl
  · exact get_cleared_access _
  · intro r hr
    have := get_cleared_refresh s.world.localStorage
    simp only [logout] at hr
    rw [this] at hr
    cases hr

theorem appStep_inv (env : Env) (net : Server) (s : AuthState) (c : AppCall)
    (hS : ServerSendsUser env net) (h : SessionInvariant s) :
    SessionInvariant (appStep env net s c) := by
  cases c with
  | login email password => exact attempt_inv env net (.login email password) s hS h
  | register userData => exact attempt_inv env net (.register userData) s hS h
  | logout => exact logout_inv s
  | request endpoint options =>
    simp only [appStep]
    rcases api.request_effect env net endpoint options s.world with
      ⟨_, hnav, hls⟩ | ⟨_, hnav, ha, hr⟩
    · rw [hnav]
      simp only [gt_iff_lt, lt_self_iff_false, if_false]
      rcases hls with h1 | ⟨r, t, hrt, hr0, h1⟩
      · exact inv_congr s _ rfl h1 h
      · have hacc : hasAccessToken s.world.localStorage := by
          by_contra hno
          exact hr0 (h.2.2 hno r hrt)
        apply inv_of_signed_in
        · exact h.2.1.mpr hacc
        · show hasAccessToken (api.request env net endpoint options s.world).2.localStorage
          rw [h1]
          exact hasAccessToken_set _ _
    · rw [hnav]
      simp only [List.length_append, List.length_singleton, gt_iff_lt, Nat.lt_add_one,
        if_true]
      apply mount_inv
      refine ⟨?_, ?_⟩
      · rw [ha]; simp
      · intro _ r hr2
        rw [hr] at hr2
        cases hr2

theorem runApp_inv (env : Env) (net : Server) (w : World) (calls : List AppCall)
    (hP : CleanStorage w.localStorage) (hS : ServerSendsUser env net) :
    SessionInvariant (runApp env net w calls) := by
  unfold runApp
  have hall : ∀ (cs : List AppCall) (s : AuthState), SessionInvariant s →
      SessionInvariant (cs.foldl (appStep env net) s) := by
    intro cs
    induction cs with
    | nil => intro s hs; exact hs
    | cons c rest ih =>
      intro s hs
      exact ih _ (appStep_inv env net s c hS hs)
  exact hall calls _ (mount_inv env net w hP)

theorem backend_sends_user : ServerSendsUser Scenario.devEnv Scenario.backend := by
  intro tr req resp data u h hurl hok hb hu
  have hl : API_BASE_URL Scenario.devEnv ++ "/auth/login"
      = "http://localhost:5000/api/v1/auth/login" := by decide
  have hg : API_BASE_URL Scenario.devEnv ++ "/auth/register"
      = "http://localhost:5000/api/v1/auth/register" := by decide
  rw [hl, hg] at hurl
  have hresp : resp = Scenario.loginOk := by
    unfold Scenario.backend at h
    rcases hurl with h1 | h1
    · simp only [h1, if_true] at h
      injection h with h
      exact h.symm
    · have hne : ¬ ("http://localhost:5000/api/v1/auth/register"
          = "http://localhost:5000/api/v1/auth/login") := by decide
      simp only [h1, hne, if_false, if_true] at h
      injection h with h
      exact h.symm
  subst hresp
  simp only [Scenario.loginOk] at hb
  injection hb with hb
  subst hb
  have hget : (JsVal.obj [("access_token", .str "t1"), ("refresh_token", .str "r1"),
      ("user", Scenario.adminUser)]).getProp "user" = .ok Scenario.adminUser := by decide
  rw [hget] at hu
  injection hu with hu
  subst hu
  decide

/-- C20, counterexample: three runs after which `user` is `null` although
`access_token` is in `localStorage`: a `login` accepted by a server that sends `null`
for the profile; a `request` made with only a refresh token in the persisted storage,
whose refresh is accepted; and a mount on a persisted storage whose access token is the
empty text. -/
theorem user_null_with_access_token_stored :
    ((runApp Scenario.devEnv (Scenario.scripted [.resolved Scenario.loginWithoutUser])
        Scenario.emptyBrowser [.login "admin@example.com" "admin123"]).user = .null
      ∧ Dict.get (runApp Scenario.devEnv
          (Scenario.scripted [.resolved Scenario.loginWithoutUser])
          Scenario.emptyBrowser
          [.login "admin@example.com" "admin123"]).world.localStorage "access_token"
        = some "t1")
    ∧ ((runApp Scenario.devEnv
        (Scenario.scripted [.resolved Scenario.unauthorized, .resolved Scenario.refreshed,
          .resolved Scenario.projectsOk])
        Scenario.refreshOnly [.request "/projects" {}]).user = .null
      ∧ Dict.get (runApp Scenario.devEnv
          (Scenario.scripted [.resolved Scenario.unauthorized, .resolved Scenario.refreshed,
            .resolved Scenario.projectsOk])
          Scenario.refreshOnly [.request "/projects" {}]).world.localStorage "access_token"
        = some "new")
    ∧ ((runApp Scenario.devEnv (Scenario.scripted []) Scenario.emptyAccessToken []).user
        = .null
      ∧ Dict.get (runApp Scenario.devEnv (Scenario.scripted [])
          Scenario.emptyAccessToken []).world.localStorage "access_token" = some "") := by
  decide

/-- C20, amended. For src/App.jsx, provided the persisted storage at the initial mount
holds a non-empty access token or else neither an access token nor a non-empty refresh
token, and provided the server sends a truthy `user` with every ok answer to
`/auth/login` and `/auth/register`: in every state reached, after the initial mount has
settled, by any sequence of `login`, `register`, `logout` and `api.request` calls (a
forced navigation to `/login` reloading the application), the context user is not
`null` exactly when `access_token` is in `localStorage`, and `isAuthenticated` is true
exactly then. -/
theorem session_invariant_of_running_app (env : Env) (net : Server) (w : World)
    (calls : List AppCall) (hP : CleanStorage w.localStorage)
    (hS : ServerSendsUser env net) :
    ((runApp env net w calls).user ≠ .null
      ↔ hasAccessToken (runApp env net w calls).world.localStorage)
    ∧ ((runApp env net w calls).isAuthenticated = true
      ↔ hasAccessToken (runApp env net w calls).world.localStorage) := by
  obtain ⟨hnull, hiff, _⟩ := runApp_inv env net w calls hP hS
  refine ⟨⟨?_, ?_⟩, hiff⟩
  · intro hne
    rcases hnull with h | h
    · exact absurd h hne
    · exact hiff.mp h
  · intro ha hu
    have ht := hiff.mpr ha
    rw [hu] at ht
    simp [JsVal.truthy] at ht

/-- C20, witness: from an empty browser, a sign-in, a call of the API, a sign-out and a
registration, against a server that answers by the URL. -/
theorem session_invariant_of_running_app_witness :
    ((runApp Scenario.devEnv Scenario.backend Scenario.emptyBrowser
        [.login "admin@example.com" "admin123", .request "/projects" {}, .logout,
          .register Scenario.adminUser]).user ≠ .null
      ↔ hasAccessToken (runApp Scenario.devEnv Scenario.backend Scenario.emptyBrowser
        [.login "admin@example.com" "admin123", .request "/projects" {}, .logout,
          .register Scenario.adminUser]).world.localStorage)
    ∧ (runApp Scenario.devEnv Scenario.backend Scenario.emptyBrowser
        [.login "admin@example.com" "admin123", .request "/projects" {}, .logout,
          .register Scenario.adminUser]).user = Scenario.adminUser :=
  ⟨(session_invariant_of_running_app Scenario.devEnv Scenario.backend
      Scenario.emptyBrowser
      [.login "admin@example.com" "admin123", .request "/projects" {}, .logout,
        .register Scenario.adminUser]
      ⟨by decide, fun _ r hr => by cases hr⟩ backend_sends_user).1,
    by decide⟩

end RootApp

/-! ## The object `auth` and the error messages of src/src/App.jsx -/

namespace SrcApp

/-- When the server answers, `auth.logout` has cleared the stored session, whatever the
status. -/
theorem auth.logout_of_response (env : Env) (net : Server) (w : World) (r : Response)
    (h : net w.trace { url := API_BASE_URL env ++ "/auth/logout", init := logoutInit w }
      = .resolved r) :
    (auth.logout env net w).1 = .ok r.ok
    ∧ Dict.get (auth.logout env net w).2.localStorage "token" = none
    ∧ Dict.get (auth.logout env net w).2.localStorage "user" = none := by
  simp only [auth.logout, fetch, h]
  exact ⟨trivial, get_invalid_token _, get_invalid_user _⟩

/-- C21, the code at a failing input: with a session stored and the network down,
`auth.logout()` resolves to `false` and `token` and `user` are still in `localStorage`;
the `logout` of the auth context, on the same state, removes both. -/
theorem auth_logout_keeps_session_when_fetch_rejects :
    auth.logout Scenario.devEnv (Scenario.scripted []) Scenario.storedSession.world
      = (.ok false,
         { localStorage := Scenario.storedSession.world.localStorage,
           navigations := [],
           trace := [ { url := "http://localhost:8000/api/v1/auth/logout",
                        init := { method := some "POST", credentials := some "include",
                                  headers := some [("Content-Type", "application/json"),
                                                   ("Authorization", "Bearer tok")] } } ] })
    ∧ Dict.get (auth.logout Scenario.devEnv (Scenario.scripted [])
        Scenario.storedSession.world).2.localStorage "token" = some "tok"
    ∧ (Dict.get (auth.logout Scenario.devEnv (Scenario.scripted [])
        Scenario.storedSession.world).2.localStorage "user").isSome = true
    ∧ Dict.get (logout Scenario.storedSession).world.localStorage "token" = none
    ∧ Dict.get (logout Scenario.storedSession).world.localStorage "user" = none := by
  decide

/-- C22, the code at a failing input: a `login` answered 401 and a `register` answered
409, each with a JSON body whose `error` is a message. The auth context of
src/src/App.jsx resolves both to `{success: false, error: 'Network error'}`; the auth
context of src/App.jsx resolves them to the message of the server. -/
theorem server_message_is_lost_through_axios :
    (login Scenario.devEnv (Scenario.scripted [.resolved Scenario.badCredentials])
        "admin@example.com" "wrong" Scenario.signedOut).1
      = .ok (.failure (.str "Network error"))
    ∧ (register Scenario.devEnv (Scenario.scripted [.resolved Scenario.emailTaken])
        Scenario.newUser Scenario.signedOut).1
      = .ok (.failure (.str "Network error"))
    ∧ (RootApp.login Scenario.devEnv (Scenario.scripted [.resolved Scenario.badCredentials])
        "admin@example.com" "wrong" Scenario.signedOut).1
      = .ok (.failure (.str "Invalid credentials"))
    ∧ (RootApp.register Scenario.devEnv (Scenario.scripted [.resolved Scenario.emailTaken])
        Scenario.newUser Scenario.signedOut).1
      = .ok (.failure (.str "Email already registered")) := by
  decide

end SrcApp

/-! ## config.js and the mock mode -/

namespace Config

/-- C23, counterexample: in a production build without `VITE_API_BASE_URL` the module
exports the production endpoint, not the local development endpoint. -/
theorem production_falls_back_to_production_endpoint :
    load Scenario.prodEnv
      = .ok { defaultExport := some
                { API_BASE_URL := "https://marketing-analytics-api.onrender.com/api/v1",
                  ENVIRONMENT := "production" },
              API_BASE_URL := "https://marketing-analytics-api.onrender.com/api/v1",
              ENVIRONMENT := "production" }
    ∧ Scenario.prodEnv.VITE_API_BASE_URL = none
    ∧ ¬ ∃ x, load Scenario.prodEnv = .ok x ∧ x.API_BASE_URL = "http://localhost:5000/api/v1" := by
  refine ⟨by decide, rfl, ?_⟩
  rintro ⟨x, hx, hurl⟩
  have h : load Scenario.prodEnv
      = .ok { defaultExport := some
                { API_BASE_URL := "https://marketing-analytics-api.onrender.com/api/v1",
                  ENVIRONMENT := "production" },
              API_BASE_URL := "https://marketing-analytics-api.onrender.com/api/v1",
              ENVIRONMENT := "production" } := by decide
  rw [h] at hx
  injection hx with hx
  subst hx
  revert hurl
  decide

theorem overrideOr_of_override (override : Option String) (entry : Option Entry)
    (field : Entry → String) (u : String) (h : override = some u) (h0 : u ≠ "") :
    overrideOr override entry field = .ok u := by
  simp [overrideOr, h, h0]

theorem overrideOr_of_entry (override : Option String) (e : Entry)
    (field : Entry → String) (h : ∀ u, override = some u → u = "") :
    overrideOr override (some e) field = .ok (field e) := by
  unfold overrideOr
  cases override with
  | none => rfl
  | some u =>
    have := h u rfl
    subst this
    simp

/-- C23, amended. Base URL resolution in config.js, for `NODE_ENV` unset, empty,
`development` or `production`: the module loads; if `VITE_API_BASE_URL` is a non-empty
string the exported `API_BASE_URL` equals it; and when `VITE_API_BASE_URL` is not set
(or empty) `API_BASE_URL` is the local development endpoint
`http://localhost:5000/api/v1` unless `NODE_ENV` is `production`, in which case it is
the production endpoint `https://marketing-analytics-api.onrender.com/api/v1`. -/
theorem api_base_url_resolution (env : Env)
    (hknown : env.NODE_ENV = none ∨ env.NODE_ENV = some "" ∨
      env.NODE_ENV = some "development" ∨ env.NODE_ENV = some "production") :
    ∃ x, load env = .ok x
      ∧ (∀ u, env.VITE_API_BASE_URL = some u → u ≠ "" → x.API_BASE_URL = u)
      ∧ ((∀ u, env.VITE_API_BASE_URL = some u → u = "") →
          env.NODE_ENV ≠ some "production" →
          x.API_BASE_URL = "http://localhost:5000/api/v1")
      ∧ ((∀ u, env.VITE_API_BASE_URL = some u → u = "") →
          env.NODE_ENV = some "production" →
          x.API_BASE_URL = "https://marketing-analytics-api.onrender.com/api/v1") := by
  have hentry : ∃ e, config.lookup (environment env) = some e
      ∧ (env.NODE_ENV ≠ some "production" → e.API_BASE_URL = "http://localhost:5000/api/v1")
      ∧ (env.NODE_ENV = some "production" →
          e.API_BASE_URL = "https://marketing-analytics-api.onrender.com/api/v1") := by
    rcases hknown with h | h | h | h <;> rw [environment, h] <;>
      first
      | exact ⟨{ API_BASE_URL := "http://localhost:5000/api/v1",
                 ENVIRONMENT := "development" }, by decide, by decide, by decide⟩
      | exact ⟨{ API_BASE_URL := "https://marketing-analytics-api.onrender.com/api/v1",
                 ENVIRONMENT := "production" }, by decide, by decide, by decide⟩
  obtain ⟨e, he, hdev, hprod⟩ := hentry
  have henv : ∃ name, overrideOr env.VITE_ENVIRONMENT (some e) Entry.ENVIRONMENT
      = .ok name := by
    unfold overrideOr
    cases env.VITE_ENVIRONMENT with
    | none => exact ⟨_, rfl⟩
    | some u => by_cases hu : u = "" <;> simp [hu]
  obtain ⟨name, hname⟩ := henv
  by_cases hset : ∃ u, env.VITE_API_BASE_URL = some u ∧ u ≠ ""
  · obtain ⟨u, hu, hu0⟩ := hset
    refine ⟨{ defaultExport := some e, API_BASE_URL := u, ENVIRONMENT := name }, ?_, ?_, ?_, ?_⟩
    · simp only [load, he, overrideOr_of_override _ _ _ u hu hu0, hname]
    · intro v hv _
      rw [hu] at hv
      cases hv
      rfl
    · intro hall
      exact absurd (hall u hu) hu0
    · intro hall
      exact absurd (hall u hu) hu0
  · have hall : ∀ u, env.VITE_API_BASE_URL = some u → u = "" := by
      intro u hu
      by_contra hne
      exact hset ⟨u, hu, hne⟩
    refine ⟨{ defaultExport := some e, API_BASE_URL := e.API_BASE_URL, ENVIRONMENT := name },
      ?_, ?_, ?_, ?_⟩
    · simp only [load, he, overrideOr_of_entry _ e _ hall, hname]
    · intro v hv hv0
      exact absurd (hall v hv) hv0
    · intro _ hne
      exact hdev hne
    · intro _ heq
      exact hprod heq

/-- C23, witness: a development build with `VITE_API_BASE_URL` set. -/
theorem api_base_url_resolution_witness :
    ∃ x, load { NODE_ENV := some "development",
                VITE_API_BASE_URL := some "https://staging.example.com/api/v1",
                VITE_API_URL := none } = .ok x
      ∧ x.API_BASE_URL = "https://staging.example.com/api/v1" :=
  have ⟨x, hx, h1, _, _⟩ := api_base_url_resolution
    { NODE_ENV := some "development",
      VITE_API_BASE_URL := some "https://staging.example.com/api/v1",
      VITE_API_URL := none } (Or.inr (Or.inr (Or.inl rfl)))
  ⟨x, hx, h1 "https://staging.example.com/api/v1" rfl (by decide)⟩

end Config

namespace RootApp

/-- The table `mockApiResponses` has an own key for exactly three endpoints. -/
theorem mockApiResponses_lookup_isSome (endpoint : String) :
    (mockApiResponses.lookup endpoint).isSome = true
      ↔ endpoint = "/auth/login" ∨ endpoint = "/users/mock_user_id/stats"
        ∨ endpoint = "/projects" := by
  by_cases h1 : endpoint = "/auth/login"
  · subst h1; decide
  · by_cases h2 : endpoint = "/users/mock_user_id/stats"
    · subst h2; decide
    · by_cases h3 : endpoint = "/projects"
      · subst h3; decide
      · have f1 : (endpoint == "/auth/login") = false := by simpa using h1
        have f2 : (endpoint == "/users/mock_user_id/stats") = false := by simpa using h2
        have f3 : (endpoint == "/projects") = false := by simpa using h3
        simp [mockApiResponses, List.lookup, h1, h2, h3, f1, f2, f3]

/-- The value `mockApiResponses[endpoint]` by the kind of the endpoint: the entry of a
configured key, which is truthy; the inherited member for a name of `Object.prototype`;
`undefined` for every other endpoint. -/
theorem mockResponseOf_cases (endpoint : String) :
    (∀ entry, mockApiResponses.lookup endpoint = some entry →
        mockResponseOf endpoint = entry ∧ entry.truthy = true)
    ∧ (mockApiResponses.lookup endpoint = none → endpoint ∈ objectPrototypeNames →
        mockResponseOf endpoint = .builtin endpoint)
    ∧ (mockApiResponses.lookup endpoint = none → endpoint ∉ objectPrototypeNames →
        mockResponseOf endpoint = .undefined) := by
  refine ⟨?_, ?_, ?_⟩
  · intro entry h
    refine ⟨by simp [mockResponseOf, h], ?_⟩
    have hsome : (mockApiResponses.lookup endpoint).isSome = true := by simp [h]
    rcases (mockApiResponses_lookup_isSome endpoint).1 hsome with h1 | h1 | h1
    · subst h1
      have h2 : mockApiResponses.lookup "/auth/login" = some entry := h
      revert h2; revert entry; decide
    · subst h1
      have h2 : mockApiResponses.lookup "/users/mock_user_id/stats" = some entry := h
      revert h2; revert entry; decide
    · subst h1
      have h2 : mockApiResponses.lookup "/projects" = some entry := h
      revert h2; revert entry; decide
  · intro h hmem
    simp [mockResponseOf, h, hmem]
  · intro h hmem
    simp [mockResponseOf, h, hmem]

/-- C24. Mock mode of `api.request` in a production build, at the endpoint
`constructor`, which is none of the configured keys: the response has `ok` true and status
200, makes no call and leaves the browser as it was, but its JSON body is the member
`constructor` that the table inherits from `Object.prototype`, not
`{message: 'Mock API response', data: {}}`; the same holds at `toString`. For every other
endpoint the mock mode is as described: for every environment with `NODE_ENV` equal to
`production`, every options, server and browser state, `request` resolves to a response
with `ok` true and status 200 and returns the browser state unchanged, whatever the server
and the stored tokens; the body is the entry of `mockApiResponses` at the three configured
keys, and `{message: 'Mock API response', data: {}}` at every endpoint that is neither a
configured key nor a name of `Object.prototype`. -/
theorem mock_mode_hands_out_inherited_members :
    (api.request Scenario.prodEnv (Scenario.scripted [.resolved Scenario.unauthorized])
        "constructor" {} Scenario.expiredSession
      = (.ok (some { status := 200, ok := true, body := .json (.builtin "constructor") }),
         Scenario.expiredSession)
      ∧ mockApiResponses.lookup "constructor" = none
      ∧ JsVal.builtin "constructor"
          ≠ .obj [("message", .str "Mock API response"), ("data", .obj [])]
      ∧ api.request Scenario.prodEnv (Scenario.scripted [.resolved Scenario.unauthorized])
          "toString" {} Scenario.expiredSession
        = (.ok (some { status := 200, ok := true, body := .json (.builtin "toString") }),
           Scenario.expiredSession))
    ∧ (∀ (env : Env) (net : Server) (endpoint : String) (options : RequestInit) (w : World),
        env.NODE_ENV = some "production" →
        (∃ body, api.request env net endpoint options w
            = (.ok (some { status := 200, ok := true, body := .json body }), w)
          ∧ (∀ entry, mockApiResponses.lookup endpoint = some entry → body = entry)
          ∧ (mockApiResponses.lookup endpoint = none → endpoint ∉ objectPrototypeNames →
              body = .obj [("message", .str "Mock API response"), ("data", .obj [])])
          ∧ (mockApiResponses.lookup endpoint = none → endpoint ∈ objectPrototypeNames →
              body = .builtin endpoint))
        ∧ ((mockApiResponses.lookup endpoint).isSome = true
            ↔ endpoint = "/auth/login" ∨ endpoint = "/users/mock_user_id/stats"
              ∨ endpoint = "/projects")
        ∧ (∀ (net2 : Server) (w2 : World),
            (api.request env net2 endpoint options w2).1
              = (api.request env net endpoint options w).1)) := by
  refine ⟨⟨by decide, by decide, by decide, by decide⟩, ?_⟩
  intro env net endpoint options w hprod
  have hreq : ∀ (n : Server) (v : World), api.request env n endpoint options v
      = (.ok (some (mockApiRequest endpoint options)), v) := by
    intro n v
    simp only [api.request, hprod, if_true]
  obtain ⟨hown, hinh, hmiss⟩ := mockResponseOf_cases endpoint
  refine ⟨?_, mockApiResponses_lookup_isSome endpoint, ?_⟩
  · cases hl : mockApiResponses.lookup endpoint with
    | some entry =>
      obtain ⟨he, ht⟩ := hown entry hl
      refine ⟨entry, ?_, ?_, ?_, ?_⟩
      · rw [hreq]
        simp [mockApiRequest, he, ht]
      · intro e2 h2
        cases h2
        rfl
      · intro h2
        cases h2
      · intro h2
        cases h2
    | none =>
      by_cases hmem : endpoint ∈ objectPrototypeNames
      · refine ⟨.builtin endpoint, ?_, ?_, ?_, ?_⟩
        · rw [hreq]
          simp [mockApiRequest, hinh hl hmem, JsVal.truthy]
        · intro e2 h2
          cases h2
        · intro _ hn
          exact absurd hmem hn
        · intro _ _
          rfl
      · refine ⟨.obj [("message", .str "Mock API response"), ("data", .obj [])],
          ?_, ?_, ?_, ?_⟩
        · rw [hreq]
          simp [mockApiRequest, hmiss hl hmem, JsVal.truthy]
        · intro e2 h2
          cases h2
        · intro _ _
          rfl
        · intro _ hm
          exact absurd hm hmem
  · intro net2 w2
    rw [hreq net2 w2, hreq net w]

end RootApp

namespace Dashboard

/-- The constant `diffInMinutes` is the floor of the difference in milliseconds divided
by 60000. -/
theorem diffInMinutes_eq_floor (now time d : Int)
    (hlo : 60000 * d ≤ now - time) (hhi : now - time < 60000 * (d + 1)) :
    diffInMinutes now time = d := by
  unfold diffInMinutes
  omega

/-- C28. `formatTimeAgo` for the clock reading `now` and a timestamp `time`, both in
milliseconds, by `d = floor((now - time) / 60000)`, that is the integer `d` with
`60000 * d <= now - time < 60000 * (d + 1)`, when `d` is not negative: for `d < 60` it
returns `d` followed by `m ago`; for `60 <= d < 1440` it returns `floor(d / 60)` followed
by `h ago`, a number from 1 to 23; for `d >= 1440` it returns `floor(d / 1440)` followed
by `d ago`, a number that is at least 1; and every `d` falls in exactly one of the three
ranges. -/
theorem formatTimeAgo_ranges (now time d : Int)
    (hlo : 60000 * d ≤ now - time) (hhi : now - time < 60000 * (d + 1)) (h : 0 ≤ d) :
    d = Int.floor (((now - time : Int) : ℚ) / 60000)
    ∧ (d < 60 → formatTimeAgo now time = toString d ++ "m ago")
    ∧ (60 ≤ d → d < 1440 →
        formatTimeAgo now time = toString (d / 60) ++ "h ago"
        ∧ 1 ≤ d / 60 ∧ d / 60 ≤ 23 ∧ d / 60 = Int.floor ((d : ℚ) / 60))
    ∧ (1440 ≤ d →
        formatTimeAgo now time = toString (d / 1440) ++ "d ago"
        ∧ 1 ≤ d / 1440 ∧ d / 1440 = Int.floor ((d : ℚ) / 1440))
    ∧ ((d < 60 ∧ ¬ (60 ≤ d ∧ d < 1440) ∧ ¬ 1440 ≤ d)
        ∨ (¬ d < 60 ∧ (60 ≤ d ∧ d < 1440) ∧ ¬ 1440 ≤ d)
        ∨ (¬ d < 60 ∧ ¬ (60 ≤ d ∧ d < 1440) ∧ 1440 ≤ d)) := by
  have hd : diffInMinutes now time = d := diffInMinutes_eq_floor now time d hlo hhi
  refine ⟨?_, ?_, ?_, ?_, ?_⟩
  · symm
    rw [Int.floor_eq_iff]
    constructor
    · rw [le_div_iff₀ (by norm_num)]
      have : ((d * 60000 : Int) : ℚ) ≤ ((now - time : Int) : ℚ) := by
        exact_mod_cast (by omega : d * 60000 ≤ now - time)
      simpa using this
    · rw [div_lt_iff₀ (by norm_num)]
      have : ((now - time : Int) : ℚ) < (((d + 1) * 60000 : Int) : ℚ) := by
        exact_mod_cast (by omega : now - time < (d + 1) * 60000)
      simpa using this
  · intro h1
    simp [formatTimeAgo, hd, h1]
  · intro h1 h2
    have hn : ¬ d < 60 := by omega
    refine ⟨by simp [formatTimeAgo, hd, hn, h2], by omega, by omega, ?_⟩
    symm
    rw [Int.floor_eq_iff]
    constructor
    · rw [le_div_iff₀ (by norm_num)]
      have : (((d / 60) * 60 : Int) : ℚ) ≤ ((d : Int) : ℚ) := by
        exact_mod_cast (by omega : (d / 60) * 60 ≤ d)
      simpa using this
    · rw [div_lt_iff₀ (by norm_num)]
      have : ((d : Int) : ℚ) < (((d / 60 + 1) * 60 : Int) : ℚ) := by
        exact_mod_cast (by omega : d < (d / 60 + 1) * 60)
      simpa using this
  · intro h1
    have hn : ¬ d < 60 := by omega
    have hm : ¬ d < 1440 := by omega
    refine ⟨by simp [formatTimeAgo, hd, hn, hm], by omega, ?_⟩
    symm
    rw [Int.floor_eq_iff]
    constructor
    · rw [le_div_iff₀ (by norm_num)]
      have : (((d / 1440) * 1440 : Int) : ℚ) ≤ ((d : Int) : ℚ) := by
        exact_mod_cast (by omega : (d / 1440) * 1440 ≤ d)
      simpa using this
    · rw [div_lt_iff₀ (by norm_num)]
      have : ((d : Int) : ℚ) < (((d / 1440 + 1) * 1440 : Int) : ℚ) := by
        exact_mod_cast (by omega : d < (d / 1440 + 1) * 1440)
      simpa using this
  · omega

/-- C28, witness: a timestamp 90 minutes and 59 seconds before the clock reading, for
which `d` is 90. -/
theorem formatTimeAgo_ranges_witness :
    formatTimeAgo 1700005459000 1700000000000 = "1h ago" :=
  ((formatTimeAgo_ranges 1700005459000 1700000000000 90 (by decide) (by decide)
    (by decide)).2.2.1 (by decide) (by decide)).1.trans (by decide)

end Dashboard

/-! ## The forms of the credentials and data-sources pages -/

theorem JsObj.get_set_same (o : JsObj) (k : String) (v : JsVal) :
    JsObj.get (JsObj.set o k v) k = v := by
  induction o with
  | nil => simp [JsObj.set, JsObj.get, List.lookup]
  | cons p rest ih =>
    obtain ⟨a, b⟩ := p
    by_cases h : a = k
    · simp [JsObj.set, JsObj.get, List.lookup, h]
    · have h2 : (k == a) = false := by simpa using Ne.symm h
      unfold JsObj.get at ih
      simpa [JsObj.set, JsObj.get, List.lookup, h, h2] using ih

theorem JsObj.get_set_other (o : JsObj) (k j : String) (v : JsVal) (hne : j ≠ k) :
    JsObj.get (JsObj.set o k v) j = JsObj.get o j := by
  induction o with
  | nil =>
    have h2 : (j == k) = false := by simpa using hne
    simp [JsObj.set, JsObj.get, List.lookup, h2]
  | cons p rest ih =>
    obtain ⟨a, b⟩ := p
    unfold JsObj.get at ih
    by_cases h : a = k
    · subst h
      have h2 : (j == a) = false := by simpa using hne
      simp [JsObj.set, JsObj.get, List.lookup, h2]
    · by_cases hj : j = a
      · subst hj
        simp [JsObj.set, JsObj.get, List.lookup, h]
      · have h2 : (j == a) = false := by simpa using hj
        simpa [JsObj.set, JsObj.get, List.lookup, h, h2] using ih

namespace CredentialsPage

/-- C25. `handleSelectChange` on the form state `{name, platform, credential_type,
config}`: for `platform` it yields the state with `platform` the new value,
`credential_type` empty, `config` the empty object and `name` kept; for
`credential_type` it yields the state with `credential_type` the new value, `config`
the empty object, `name` and `platform` kept; for every other field name it assigns that
field and leaves every other field as it was. -/
theorem handleSelectChange_resets (n p c cfg v : JsVal) :
    handleSelectChange "platform" v (formOf n p c cfg)
      = formOf n v (.str "") (.obj [])
    ∧ handleSelectChange "credential_type" v (formOf n p c cfg)
      = formOf n p v (.obj [])
    ∧ (∀ k : String, k ≠ "platform" → k ≠ "credential_type" →
        handleSelectChange k v (formOf n p c cfg) = JsObj.set (formOf n p c cfg) k v
        ∧ JsObj.get (handleSelectChange k v (formOf n p c cfg)) k = v
        ∧ ∀ j : String, j ≠ k →
            JsObj.get (handleSelectChange k v (formOf n p c cfg)) j
              = JsObj.get (formOf n p c cfg) j) := by
  refine ⟨by simp [handleSelectChange, formOf, JsObj.set],
    by simp [handleSelectChange, formOf, JsObj.set], ?_⟩
  intro k hp hc
  have hk : handleSelectChange k v (formOf n p c cfg) = JsObj.set (formOf n p c cfg) k v := by
    simp [handleSelectChange, hp, hc]
  rw [hk]
  exact ⟨rfl, JsObj.get_set_same _ _ _, fun j hj => JsObj.get_set_other _ _ _ _ hj⟩

end CredentialsPage

namespace DataSourcesPage

theorem filter_differsFrom (L : List String) (v : String) :
    (L.map JsVal.str).filter (fun x => x.differsFrom v)
      = (L.filter (fun s => s != v)).map JsVal.str := by
  induction L with
  | nil => rfl
  | cons a rest ih =>
    have hd : (JsVal.str a).differsFrom v = (a != v) := rfl
    by_cases h : a = v
    · have h2 : (a != v) = false := by simpa using h
      simp only [List.map_cons, List.filter_cons, hd, h2, Bool.false_eq_true, if_false, ih]
    · have h2 : (a != v) = true := by simpa using h
      simp only [List.map_cons, List.filter_cons, hd, h2, if_true, ih]

theorem any_not_differsFrom (L : List String) (v : String) (h : v ∉ L) :
    (L.map JsVal.str).any (fun x => !x.differsFrom v) = false := by
  induction L with
  | nil => rfl
  | cons a rest ih =>
    have ha : a ≠ v := fun e => h (e ▸ List.mem_cons_self _ _)
    have hr : v ∉ rest := fun m => h (List.mem_cons_of_mem _ m)
    have h2 : (a != v) = true := by simpa using ha
    have hd : (JsVal.str a).differsFrom v = (a != v) := rfl
    simp only [List.map_cons, List.any_cons, hd, h2, Bool.not_true, Bool.false_or]
    exact ih hr

theorem filter_ne_of_not_mem (L : List String) (v : String) (h : v ∉ L) :
    (L ++ [v]).filter (fun s => s != v) = L := by
  induction L with
  | nil => simp
  | cons a rest ih =>
    have ha : a ≠ v := fun e => h (e ▸ List.mem_cons_self _ _)
    have hr : v ∉ rest := fun m => h (List.mem_cons_of_mem _ m)
    have h2 : (a != v) = true := by simpa using ha
    simp only [List.cons_append, List.filter_cons, h2, if_true, ih hr]

/-- The stored value of a field of `extraction_config`, by the list it stands for. -/
theorem stored_or_empty (cfg : JsObj) (fieldName : String) (L : List String)
    (hcur : cfg.get fieldName = .arr (L.map JsVal.str)
      ∨ (cfg.get fieldName = .undefined ∧ L = [])) :
    (cfg.get fieldName).or (.arr []) = .arr (L.map JsVal.str) := by
  rcases hcur with h | ⟨h, hL⟩
  · rw [h]; rfl
  · rw [h, hL]; rfl

theorem toggleOption_eq (fieldName v : String) (checked : Bool) (formData cfg : JsObj)
    (L : List String) (hcfg : formData.get "extraction_config" = .obj cfg)
    (hcur : cfg.get fieldName = .arr (L.map JsVal.str)
      ∨ (cfg.get fieldName = .undefined ∧ L = [])) :
    toggleOption fieldName v checked formData
      = .ok (handleConfigChange fieldName
          (.arr ((if checked then L ++ [v] else L.filter (fun s => s != v)).map JsVal.str))
          formData) := by
  have hget : (JsVal.obj cfg).getProp fieldName = .ok (cfg.get fieldName) := rfl
  simp only [toggleOption, hcfg, hget, stored_or_empty cfg fieldName L hcur, newValues]
  cases checked
  · simp [filter_differsFrom]
  · simp

/-- C29. The checkbox of option `v` of a multiselect field, for the list `L` of values
the field holds in `extraction_config` (no value standing for the empty list): checking
stores `L` followed by `v`; unchecking stores `L` without any occurrence of `v`, the
rest in order, so that `v` is not in the stored list and the checkbox shows unchecked;
for `L` without `v`, checking and then unchecking stores `L` again; and the handler
changes no other key of `extraction_config` and no other key of the form state. -/
theorem multiselect_toggle (fieldName v : String) (formData cfg : JsObj) (L : List String)
    (hcfg : formData.get "extraction_config" = .obj cfg)
    (hcur : cfg.get fieldName = .arr (L.map JsVal.str)
      ∨ (cfg.get fieldName = .undefined ∧ L = [])) :
    toggleOption fieldName v true formData
      = .ok (handleConfigChange fieldName (.arr ((L ++ [v]).map JsVal.str)) formData)
    ∧ toggleOption fieldName v false formData
      = .ok (handleConfigChange fieldName
          (.arr ((L.filter (fun s => s != v)).map JsVal.str)) formData)
    ∧ v ∉ L.filter (fun s => s != v)
    ∧ isChecked fieldName v (handleConfigChange fieldName
        (.arr ((L.filter (fun s => s != v)).map JsVal.str)) formData) = false
    ∧ (v ∉ L →
        toggleOption fieldName v false
            (handleConfigChange fieldName (.arr ((L ++ [v]).map JsVal.str)) formData)
          = .ok (handleConfigChange fieldName (.arr (L.map JsVal.str))
              (handleConfigChange fieldName (.arr ((L ++ [v]).map JsVal.str)) formData))
        ∧ (JsObj.get (handleConfigChange fieldName (.arr (L.map JsVal.str))
              (handleConfigChange fieldName (.arr ((L ++ [v]).map JsVal.str)) formData))
            "extraction_config").optProp fieldName = .arr (L.map JsVal.str))
    ∧ (∀ (value : JsVal),
        ((JsObj.get (handleConfigChange fieldName value formData)
            "extraction_config").optProp fieldName = value)
        ∧ (∀ j : String, j ≠ fieldName →
            (JsObj.get (handleConfigChange fieldName value formData)
              "extraction_config").optProp j = cfg.get j)
        ∧ (∀ k : String, k ≠ "extraction_config" →
            JsObj.get (handleConfigChange fieldName value formData) k
              = JsObj.get formData k)) := by
  have hframe : ∀ (fd c : JsObj) (value : JsVal), fd.get "extraction_config" = .obj c →
      ((JsObj.get (handleConfigChange fieldName value fd)
          "extraction_config").optProp fieldName = value)
      ∧ (∀ j : String, j ≠ fieldName →
          (JsObj.get (handleConfigChange fieldName value fd)
            "extraction_config").optProp j = c.get j)
      ∧ (∀ k : String, k ≠ "extraction_config" →
          JsObj.get (handleConfigChange fieldName value fd) k = JsObj.get fd k) := by
    intro fd c value hc
    have hec : JsObj.get (handleConfigChange fieldName value fd) "extraction_config"
        = .obj (JsObj.set c fieldName value) := by
      simp only [handleConfigChange, JsObj.get_set_same, hc, JsVal.spreadFields]
    refine ⟨?_, ?_, ?_⟩
    · rw [hec]
      exact JsObj.get_set_same c fieldName value
    · intro j hj
      rw [hec]
      exact JsObj.get_set_other c fieldName j value hj
    · intro k hk
      exact JsObj.get_set_other _ _ _ _ hk
  have hmem : v ∉ L.filter (fun s => s != v) := by
    intro hm
    have := (List.mem_filter.mp hm).2
    simp at this
  refine ⟨?_, ?_, hmem, ?_, ?_, fun value => hframe formData cfg value hcfg⟩
  · simpa using toggleOption_eq fieldName v true formData cfg L hcfg hcur
  · simpa using toggleOption_eq fieldName v false formData cfg L hcfg hcur
  · have h1 := (hframe formData cfg
      (.arr ((L.filter (fun s => s != v)).map JsVal.str)) hcfg).1
    simp only [isChecked, h1]
    exact any_not_differsFrom _ v hmem
  · intro hnot
    have hec : JsObj.get (handleConfigChange fieldName (.arr ((L ++ [v]).map JsVal.str))
        formData) "extraction_config"
        = .obj (JsObj.set cfg fieldName (.arr ((L ++ [v]).map JsVal.str))) := by
      simp only [handleConfigChange, JsObj.get_set_same, hcfg, JsVal.spreadFields]
    have h2 := toggleOption_eq fieldName v false
      (handleConfigChange fieldName (.arr ((L ++ [v]).map JsVal.str)) formData)
      (JsObj.set cfg fieldName (.arr ((L ++ [v]).map JsVal.str))) (L ++ [v]) hec
      (Or.inl (JsObj.get_set_same _ _ _))
    simp only [Bool.false_eq_true, if_false, filter_ne_of_not_mem L v hnot] at h2
    exact ⟨h2, (hframe _ _ (.arr (L.map JsVal.str)) hec).1⟩

/-- C29, witness: the field `metrics` holding `impressions` and `clicks`, the option
`clicks` unchecked. -/
theorem multiselect_toggle_witness :
    toggleOption "metrics" "clicks" false
        (JsObj.set initialFormData "extraction_config"
          (.obj [("account_id", .str "act_1"),
                 ("metrics", .arr [.str "impressions", .str "clicks"])]))
      = .ok (JsObj.set initialFormData "extraction_config"
          (.obj [("account_id", .str "act_1"), ("metrics", .arr [.str "impressions"])])) :=
  (multiselect_toggle "metrics" "clicks"
    (JsObj.set initialFormData "extraction_config"
      (.obj [("account_id", .str "act_1"),
             ("metrics", .arr [.str "impressions", .str "clicks"])]))
    [("account_id", .str "act_1"), ("metrics", .arr [.str "impressions", .str "clicks"])]
    ["impressions", "clicks"] (by decide) (Or.inl (by decide))).2.1.trans (by decide)

theorem firstMissing_obj (fields : List ConfigField) (cfg : JsObj) :
    firstMissing fields (.obj cfg)
      = .ok (fields.find? (fun f => f.required && !(cfg.get f.name).truthy)) := by
  induction fields with
  | nil => rfl
  | cons f rest ih =>
    have hget : (JsVal.obj cfg).getProp f.name = .ok (cfg.get f.name) := rfl
    cases hr : f.required
    · simp [firstMissing, hr, ih, List.find?_cons]
    · cases ht : (cfg.get f.name).truthy
      · simp [firstMissing, hr, hget, ht, List.find?_cons]
      · simp [firstMissing, hr, hget, ht, ih, List.find?_cons]

/-- The outcome of the validation block on a form state with text fields. -/
theorem validate_formOf (cid plat name : String) (cfg : JsObj) (sched : JsVal) :
    validate (formOf cid plat name cfg sched)
      = if cid = "" then .ok (some "Please select a credential")
        else if jsTrim name = "" then .ok (some "Please enter a name for this data source")
        else match PLATFORMS.lookup plat with
          | some entry =>
            .ok ((entry.configFields.find?
              (fun f => f.required && !(cfg.get f.name).truthy)).map
              (fun f => "Please fill in the required field: " ++ f.label))
          | none =>
            if plat ∈ objectPrototypeNames then
              .error (.error "TypeError" "platform.configFields is not iterable")
            else .ok none := by
  have h1 : (formOf cid plat name cfg sched).get "credential_id" = .str cid := rfl
  have h2 : (formOf cid plat name cfg sched).get "source_name" = .str name := rfl
  have h3 : (formOf cid plat name cfg sched).get "platform" = .str plat := rfl
  have h4 : (formOf cid plat name cfg sched).get "extraction_config" = .obj cfg := rfl
  have ht : ∀ x : String, (JsVal.str x).truthy = (x != "") := fun _ => rfl
  simp only [validate, h1, h2, h3, h4, JsVal.trim, ht, JsVal.toStr]
  by_cases hc : cid = ""
  · simp [hc]
  · have hc2 : (cid != "") = true := by simpa using hc
    by_cases hn : jsTrim name = ""
    · simp [hc, hc2, hn]
    · have hn2 : (jsTrim name != "") = true := by simpa using hn
      by_cases hp : plat = ""
      · subst hp
        have hl : PLATFORMS.lookup "" = none := by decide
        have hm : "" ∉ objectPrototypeNames := by decide
        simp [hc, hn, hl, hm]
      · have hp2 : (plat != "") = true := by simpa using hp
        simp only [hc, hc2, hn, hn2, hp2, Bool.not_true, Bool.false_eq_true, if_false,
          if_true]
        cases hl : PLATFORMS.lookup plat with
        | none => rfl
        | some entry =>
          simp only [firstMissing_obj]
          cases entry.configFields.find?
            (fun f => f.required && !(cfg.get f.name).truthy) <;> rfl

theorem validate_none_iff (cid plat name : String) (cfg : JsObj) (sched : JsVal)
    (hplat : plat ∉ objectPrototypeNames) :
    validate (formOf cid plat name cfg sched) = .ok none ↔ Valid cid plat name cfg := by
  rw [validate_formOf]
  unfold Valid
  by_cases hc : cid = ""
  · simp [hc]
  · by_cases hn : jsTrim name = ""
    · simp [hc, hn]
    · simp only [hc, hn, if_false, ne_eq, not_false_eq_true, true_and]
      cases hl : PLATFORMS.lookup plat with
      | none => simp [hplat]
      | some entry =>
        constructor
        · intro h e he f hf hreq
          injection he with he
          subst he
          injection h with h
          simp only [Option.map_eq_none'] at h
          have := List.find?_eq_none.mp h f hf
          simpa [hreq] using this
        · intro h
          have hnone : entry.configFields.find?
              (fun f => f.required && !(cfg.get f.name).truthy) = none := by
            apply List.find?_eq_none.mpr
            intro f hf
            cases hreq : f.required
            · simp
            · simp [h entry rfl f hf hreq]
          simp [hnone]

/-- On a form state with text fields whose platform is no name of `Object.prototype` the
validation block does not throw. -/
theorem validate_formOf_ok (cid plat name : String) (cfg : JsObj) (sched : JsVal)
    (hplat : plat ∉ objectPrototypeNames) :
    ∃ m, validate (formOf cid plat name cfg sched) = .ok m := by
  rw [validate_formOf]
  by_cases hc : cid = ""
  · exact ⟨some "Please select a credential", by simp [hc]⟩
  · by_cases hn : jsTrim name = ""
    · exact ⟨some "Please enter a name for this data source", by simp [hc, hn]⟩
    · cases hl : PLATFORMS.lookup plat with
      | none => exact ⟨none, by simp [hc, hn, hplat]⟩
      | some entry =>
        exact ⟨(entry.configFields.find?
          (fun f => f.required && !(cfg.get f.name).truthy)).map
          (fun f => "Please fill in the required field: " ++ f.label), by simp [hc, hn]⟩

theorem postApi_trace (env : Env) (net : Server) (endpoint : String) (data : JsVal)
    (w : World) :
    (SrcApp.api.post env net endpoint data w).2.trace
      = w.trace ++ [SrcApp.postRequest env w endpoint data] := by
  rw [SrcApp.api.post_eq]
  split
  · rfl
  · split
    · rfl
    · simp only [SrcApp.onResponseError]
      split <;> rfl

theorem handleSubmit_of_message (env : Env) (net : Server) (projectId : String)
    (p : PageState) (w : World) (message : String)
    (h : validate p.formData = .ok (some message)) :
    handleSubmit env net projectId p w = (.ok (), { p with formError := .str message }, w) := by
  simp only [handleSubmit, h]

theorem handleSubmit_of_valid (env : Env) (net : Server) (projectId : String)
    (p : PageState) (w : World) (h : validate p.formData = .ok none) :
    (handleSubmit env net projectId p w).2.2
      = (SrcApp.api.post env net ("/projects/" ++ projectId ++ "/data-sources")
          (.obj p.formData) w).2 := by
  simp only [handleSubmit, h]

set_option maxRecDepth 16000

theorem handleSubmit_of_throw (env : Env) (net : Server) (projectId : String)
    (p : PageState) (w : World) (e : Thrown) (h : validate p.formData = .error e) :
    handleSubmit env net projectId p w = (.error e, { p with formError := .null }, w) := by
  simp only [handleSubmit, h]

/-- C27. `handleSubmit` of the data-sources page on the form state
`{credential_id: 'cred-1', platform: 'constructor', source_name: 'Campaign data',
extraction_config: {}}`: a credential is chosen, the name is not blank and `constructor`
is no key of `PLATFORMS`, yet the handler issues no request; it throws a `TypeError` out
of the validation block, with `formError` null. The same happens for every platform that
is a name of `Object.prototype`. For every other form state whose `credential_id`,
`platform` and `source_name` are texts and whose `extraction_config` is an object the
handler is as described: it issues one call, with method `POST`, the URL of
`/projects/:projectId/data-sources` under the base URL, the JSON text of the form data as
body, `Content-Type: application/json` and the bearer token the interceptor adds, exactly
when `credential_id` is not empty, `source_name.trim()` is not empty, and the platform is
no key of `PLATFORMS` or each of its required `configFields` has a truthy value in
`extraction_config`; otherwise it leaves the browser as it was, issues no call, and sets
`formError` to the message of the first failing check: the credential, then the name, then
the label of the first required field without a value. With a complete Facebook Ads form
for project `p1` and the token `tok` stored, the one call is
`POST http://localhost:8000/api/v1/projects/p1/data-sources`. -/
theorem handleSubmit_posts_unless_inherited_platform :
    (handleSubmit Scenario.devEnv (Scenario.scripted [.resolved Scenario.sourceCreated]) "p1"
        { formData := formOf "cred-1" "constructor" "Campaign data" [] (.obj []),
          formError := .str "stale", isSubmitting := false, dataSources := [],
          activeTab := "add" }
        Scenario.tokenOnly
      = (.error (.error "TypeError" "platform.configFields is not iterable"),
         { formData := formOf "cred-1" "constructor" "Campaign data" [] (.obj []),
           formError := .null, isSubmitting := false, dataSources := [],
           activeTab := "add" },
         Scenario.tokenOnly)
      ∧ PLATFORMS.lookup "constructor" = none
      ∧ Scenario.tokenOnly.trace = [])
    ∧ (∀ (env : Env) (net : Server) (projectId : String) (p : PageState) (w : World)
        (cid plat name : String) (cfg : JsObj) (sched : JsVal),
        p.formData = formOf cid plat name cfg sched → plat ∈ objectPrototypeNames →
        cid ≠ "" → jsTrim name ≠ "" →
        handleSubmit env net projectId p w
          = (.error (.error "TypeError" "platform.configFields is not iterable"),
             { p with formError := .null }, w))
    ∧ (∀ (env : Env) (net : Server) (projectId : String) (p : PageState) (w : World)
        (cid plat name : String) (cfg : JsObj) (sched : JsVal),
        p.formData = formOf cid plat name cfg sched → plat ∉ objectPrototypeNames →
        ((handleSubmit env net projectId p w).2.2.trace
            = w.trace ++
              [{ url := SrcApp.combineURLs (SrcApp.API_BASE_URL env)
                   ("/projects/" ++ projectId ++ "/data-sources"),
                 init := SrcApp.requestInterceptor w
                   { method := some "POST",
                     headers := some [("Content-Type", "application/json")],
                     body := JSON.stringify (.obj (formOf cid plat name cfg sched)) } }]
          ↔ Valid cid plat name cfg)
        ∧ (¬ Valid cid plat name cfg → (handleSubmit env net projectId p w).2.2 = w)
        ∧ (cid = "" →
            handleSubmit env net projectId p w
              = (.ok (), { p with formError := .str "Please select a credential" }, w))
        ∧ (cid ≠ "" → jsTrim name = "" →
            handleSubmit env net projectId p w
              = (.ok (), { p with
                  formError := .str "Please enter a name for this data source" }, w))
        ∧ (cid ≠ "" → jsTrim name ≠ "" →
            ∀ entry field, PLATFORMS.lookup plat = some entry →
              entry.configFields.find? (fun f => f.required && !(cfg.get f.name).truthy)
                = some field →
              handleSubmit env net projectId p w
                = (.ok (), { p with
                    formError :=
                      .str ("Please fill in the required field: " ++ field.label) },
                   w)))
    ∧ (handleSubmit Scenario.devEnv (Scenario.scripted [.resolved Scenario.sourceCreated])
          "p1"
          { formData := formOf "cred-1" "facebook_ads" "Campaign data"
              [("account_id", .str "act_1"), ("date_range", .str "last_30_days")]
              (.obj [("enabled", .bool true)]),
            formError := .null, isSubmitting := false, dataSources := [],
            activeTab := "add" }
          Scenario.tokenOnly).2.2
        = { localStorage := [("token", "tok")], navigations := [],
            trace :=
              [{ url := "http://localhost:8000/api/v1/projects/p1/data-sources",
                 init :=
                   { method := some "POST",
                     headers := some [("Content-Type", "application/json"),
                                      ("Authorization", "Bearer tok")],
                     body := some ("\x7b\"credential_id\":\"cred-1\","
                       ++ "\"platform\":\"facebook_ads\",\"source_name\":\"Campaign data\","
                       ++ "\"extraction_config\":\x7b\"account_id\":\"act_1\","
                       ++ "\"date_range\":\"last_30_days\"\x7d,"
                       ++ "\"schedule_config\":\x7b\"enabled\":true\x7d\x7d") } }] } := by
  refine ⟨⟨by decide, by decide, by decide⟩, ?_, ?_, by decide⟩
  · intro env net projectId p w cid plat name cfg sched hform hplat hc hn
    apply handleSubmit_of_throw
    rw [hform, validate_formOf]
    have hl : PLATFORMS.lookup plat = none := by
      revert hplat
      simp only [objectPrototypeNames, List.mem_cons, List.mem_singleton, List.mem_nil_iff,
        or_false]
      intro h
      rcases h with h | h | h | h | h | h | h | h | h | h | h | h <;> (subst h; decide)
    simp [hc, hn, hl, hplat]
  · intro env net projectId p w cid plat name cfg sched hform hplat
    have hval := validate_formOf cid plat name cfg sched
    have hiff := validate_none_iff cid plat name cfg sched hplat
    have hok := validate_formOf_ok cid plat name cfg sched hplat
    rw [← hform] at hval hiff hok
    have hinvalid : ¬ Valid cid plat name cfg →
        (handleSubmit env net projectId p w).2.2 = w := by
      intro hnot
      obtain ⟨m, hv⟩ := hok
      cases m with
      | none => exact absurd (hiff.mp hv) hnot
      | some message => rw [handleSubmit_of_message env net projectId p w message hv]
    have hreq : SrcApp.postRequest env w ("/projects/" ++ projectId ++ "/data-sources")
        (.obj p.formData)
        = { url := SrcApp.combineURLs (SrcApp.API_BASE_URL env)
              ("/projects/" ++ projectId ++ "/data-sources"),
            init := SrcApp.requestInterceptor w
              { method := some "POST",
                headers := some [("Content-Type", "application/json")],
                body := JSON.stringify (.obj (formOf cid plat name cfg sched)) } } := by
      rw [hform]
      rfl
    refine ⟨⟨?_, ?_⟩, hinvalid, ?_, ?_, ?_⟩
    · intro htrace
      by_contra hnot
      rw [hinvalid hnot] at htrace
      have := congrArg List.length htrace
      simp at this
    · intro hvalid
      rw [handleSubmit_of_valid env net projectId p w (hiff.mpr hvalid), ← hreq]
      exact postApi_trace _ _ _ _ _
    · intro hc
      apply handleSubmit_of_message
      rw [hval]
      simp [hc]
    · intro hc hn
      apply handleSubmit_of_message
      rw [hval]
      simp [hc, hn]
    · intro hc hn entry field hl hf
      apply handleSubmit_of_message
      rw [hval]
      simp [hc, hn, hl, hf]

end DataSourcesPage

set_option maxRecDepth 16000

namespace CredentialsPage

/-- C26, the code at a failing input: a half filled data-source form is saved by
`handleAddCredential` under `dataSourceFormData`, the credentials page opens with
`returnTo=data-sources`, the credential is created, and `handleSubmit` removes the
saved entry and navigates to `/projects/p1/data-sources`; the data-sources page is then
created with the initial form data, which is not the saved form state. -/
theorem saved_form_is_dropped_on_return :
    (DataSourcesPage.handleAddCredential "p1" Scenario.sourceDraft []).2
      = "/projects/p1/credentials/new?platform=facebook_ads&returnTo=data-sources"
    ∧ Dict.get (DataSourcesPage.handleAddCredential "p1" Scenario.sourceDraft []).1
        "dataSourceFormData" = JSON.stringify (.obj Scenario.sourceDraft.formData)
    ∧ (JSON.stringify (.obj Scenario.sourceDraft.formData)).isSome = true
    ∧ queryParam (DataSourcesPage.handleAddCredential "p1" Scenario.sourceDraft []).2
        "returnTo" = some "data-sources"
    ∧ (handleSubmit Scenario.devEnv (Scenario.scripted [.resolved Scenario.credentialCreated])
        "p1" (DataSourcesPage.handleAddCredential "p1" Scenario.sourceDraft []).2
        { page := { initialState
                      (DataSourcesPage.handleAddCredential "p1" Scenario.sourceDraft []).2
                    with formData := Scenario.credentialForm },
          sessionStorage :=
            (DataSourcesPage.handleAddCredential "p1" Scenario.sourceDraft []).1,
          navigated := [] }
        Scenario.emptyBrowser).2.1.navigated = ["/projects/p1/data-sources"]
    ∧ Dict.get (handleSubmit Scenario.devEnv
        (Scenario.scripted [.resolved Scenario.credentialCreated])
        "p1" (DataSourcesPage.handleAddCredential "p1" Scenario.sourceDraft []).2
        { page := { initialState
                      (DataSourcesPage.handleAddCredential "p1" Scenario.sourceDraft []).2
                    with formData := Scenario.credentialForm },
          sessionStorage :=
            (DataSourcesPage.handleAddCredential "p1" Scenario.sourceDraft []).1,
          navigated := [] }
        Scenario.emptyBrowser).2.1.sessionStorage "dataSourceFormData" = none
    ∧ DataSourcesPage.initialState.formData = DataSourcesPage.initialFormData
    ∧ DataSourcesPage.initialState.formData ≠ Scenario.sourceDraft.formData := by
  refine ⟨by decide, by decide, by decide, by decide, by decide, by decide, by decide,
    by decide⟩

end CredentialsPage

namespace SrcApp

/-- C30, the code at a failing input: in the route table of src/src/App.jsx the
locations `/` and `/login` are matched by declared routes, but no declared route matches
`/dashboard`, so that the route `*` renders there, which navigates to `/dashboard`
again: signed in or not, and however many navigations are followed, `/dashboard` never
comes to a page. -/
theorem dashboard_redirects_to_itself (signedIn : Bool) (fuel : Nat) :
    resolve signedIn "/dashboard" = .navigate "/dashboard"
    ∧ follow signedIn fuel "/dashboard" = .navigate "/dashboard"
    ∧ routes.any (fun r => matchesPath r.path (segmentsOf "/dashboard")) = false
    ∧ resolve true "/" = .page .dashboard
    ∧ resolve false "/login" = .page .login := by
  have h : resolve signedIn "/dashboard" = .navigate "/dashboard" := by
    cases signedIn <;> decide
  refine ⟨h, ?_, by decide, by decide, by decide⟩
  induction fuel with
  | zero => exact h
  | succ n ih =>
    simp only [follow, h]
    exact ih

end SrcApp

end MarketingImport
